import Mathlib

/-!
Verification of the rustberg metadata codec core.

This file shallowly embeds the codec layer of the repository: the
parametric string parsers (`fixed[N]`, `decimal(P, S)`, `bucket[N]`,
`truncate[N]`), the schema type codec, the partition/sort/snapshot
codecs, the version-dispatched table-metadata document codec, and the
manifest-list record codec, and proves the specified properties about
them.

Documents are modelled as parsed JSON value trees (`Json`): textual
concerns such as whitespace in the container syntax are below the level
of the Rust code being modelled, which operates on `serde_json::Value`.
JSON objects parsed from text never contain duplicate keys (later
occurrences win during parsing), which the embedding reflects by
resolving key lookups to the last occurrence and collapsing emitted
entry lists the same way.  Machine integers are modelled as `Int`/`Nat`
with explicit range checks where the Rust code checks them.
-/

namespace Rustberg

/-! ## JSON document trees

Mirrors `serde_json::Value`.  Numbers are integers (the metadata format
uses no floating point values; a non-integral number behaves, for every
claim below, like any other non-integer node). -/

inductive Json where
  | null
  | bool (b : Bool)
  | num (n : Int)
  | str (s : String)
  | arr (elems : List Json)
  | obj (members : List (String × Json))

/-- Value of a key in an object: the last occurrence wins, as it does when
serde_json parses duplicate keys from text. -/
def lookupLast (kvs : List (String × Json)) (key : String) : Option Json :=
  match kvs with
  | [] => none
  | kv :: rest =>
    match lookupLast rest key with
    | some v => some v
    | none => if kv.1 = key then some kv.2 else none

/-- Collapse duplicate keys, keeping the last occurrence of each key (the
result of writing an entry stream to text and parsing it back). -/
def dedupKeys : List (String × Json) → List (String × Json)
  | [] => []
  | kv :: rest =>
    if rest.any (fun p => p.1 == kv.1) then dedupKeys rest
    else kv :: dedupKeys rest

/-- Build the object value that results from emitting the given entries as
text and parsing the text back. -/
def Json.mkObj (kvs : List (String × Json)) : Json := .obj (dedupKeys kvs)

def Json.get? (j : Json) (key : String) : Option Json :=
  match j with
  | .obj kvs => lookupLast kvs key
  | _ => none

mutual
def Json.size : Json → Nat
  | .null => 1
  | .bool _ => 1
  | .num _ => 1
  | .str _ => 1
  | .arr xs => 1 + Json.sizeList xs
  | .obj kvs => 1 + Json.sizeKVs kvs
def Json.sizeList : List Json → Nat
  | [] => 0
  | x :: xs => Json.size x + Json.sizeList xs
def Json.sizeKVs : List (String × Json) → Nat
  | [] => 0
  | kv :: kvs => 1 + Json.size kv.2 + Json.sizeKVs kvs
end

/-! ## Digits and decimal rendering -/

def isDigitChar (c : Char) : Bool := '0' ≤ c && c ≤ '9'

def digitVal (c : Char) : Nat := c.toNat - '0'.toNat

/-- Value of a run of decimal digits, most significant first. -/
def digitsToNat (ds : List Char) : Nat :=
  ds.foldl (fun acc c => 10 * acc + digitVal c) 0

def digitChar (n : Nat) : Char := Char.ofNat ('0'.toNat + n)

/-- Decimal rendering, fuel-structured so it reduces in the kernel. -/
def natToCharsAux : Nat → Nat → List Char
  | 0, _ => []
  | fuel + 1, n =>
      if n < 10 then [digitChar n]
      else natToCharsAux fuel (n / 10) ++ [digitChar (n % 10)]

def natToChars (n : Nat) : List Char := natToCharsAux (n + 1) n

/-- Decimal rendering of a natural number, as Rust's `format!("{}", n)`. -/
def natToString (n : Nat) : String := ⟨natToChars n⟩

/-- Decimal rendering of an integer, as Rust's `format!("{}", n)`. -/
def intToString (n : Int) : String :=
  if n < 0 then "-" ++ natToString n.natAbs else natToString n.natAbs

/-! ## Parametric string parsers

These embed `try_deserialize_fixed_type` / `try_deserialize_decimal_type`
(src/iceberg/spec/schema.rs) and `try_deserialize_bucket` /
`try_deserialize_truncate` (src/iceberg/spec/partition_spec.rs).  The
regular expressions are `^fixed\[(\d+)]$`, `^decimal\((\d+)\s*,\s*(\d+)\)$`,
`^bucket\[(\d+)\]$` and `^truncate\[(\d+)\]$`; as the character classes
involved (digits, whitespace, the literal separators) are disjoint, each
regex matches exactly the sequential decompositions implemented below. -/

/-- ASCII whitespace as matched by the regex class `\s`. -/
def isWsChar (c : Char) : Bool :=
  c == ' ' || c == '\t' || c == '\n' || c == '\r' || c == Char.ofNat 11 || c == Char.ofNat 12

/-- Matches `(\d+)]$`: a nonempty digit run, then a closing bracket, then
the end of the input. -/
def bracketDigits (cs : List Char) : Option (List Char) :=
  let p := cs.span isDigitChar
  if p.1.isEmpty then none
  else match p.2 with
    | [']'] => some p.1
    | _ => none

/-- Matches `(\d+)\s*,\s*(\d+)\)$`: the two digit runs of a decimal type,
separated by a comma with optional surrounding whitespace. -/
def decimalArgs (cs : List Char) : Option (List Char × List Char) :=
  let p := cs.span isDigitChar
  if p.1.isEmpty then none
  else match p.2.dropWhile isWsChar with
    | ',' :: r3 =>
      let q := (r3.dropWhile isWsChar).span isDigitChar
      if q.1.isEmpty then none
      else match q.2 with
        | [')'] => some (p.1, q.1)
        | _ => none
    | _ => none

inductive PrimitiveType where
  | Boolean
  | Int
  | Long
  | Float
  | Double
  | Decimal (precision : Nat) (scale : Nat)
  | Date
  | Time
  | Timestamp
  | Timestamptz
  | String
  | Uuid
  | Fixed (length : Nat)
  | Binary
deriving DecidableEq

def try_deserialize_fixed_type (value : String) : Except String PrimitiveType :=
  match value.data with
  | 'f' :: 'i' :: 'x' :: 'e' :: 'd' :: '[' :: rest =>
    match bracketDigits rest with
    | some ds =>
        if digitsToNat ds < 4294967296 then .ok (.Fixed (digitsToNat ds))
        else .error ("Invalid fixed type length: " ++ value)
    | none => .error ("Wrong fixed type format: " ++ value)
  | _ => .error ("Wrong fixed type format: " ++ value)

def try_deserialize_decimal_type (value : String) : Except String PrimitiveType :=
  match value.data with
  | 'd' :: 'e' :: 'c' :: 'i' :: 'm' :: 'a' :: 'l' :: '(' :: rest =>
    match decimalArgs rest with
    | some (pds, sds) =>
        if digitsToNat pds < 256 then
          if digitsToNat pds > 38 then
            .error ("Wrong decimal precision. Must be < 38: " ++ value)
          else if digitsToNat sds < 4294967296 then
            .ok (.Decimal (digitsToNat pds) (digitsToNat sds))
          else .error ("Wrong decimal scale: " ++ value)
        else .error ("Wrong decimal precision: " ++ value)
    | none => .error ("Wrong decimal type format: " ++ value)
  | _ => .error ("Wrong decimal type format: " ++ value)

def strHasPrefix (s : String) (p : List Char) : Bool := p.isPrefixOf s.data

/-- The custom `Deserialize` for `PrimitiveType`: route `fixed…` and
`decimal…` strings to the parametric parsers, otherwise match the closed
set of bare lowercase names. -/
abbrev Str := String

def PrimitiveType.deserialize (value : Str) : Except Str PrimitiveType :=
  if strHasPrefix value ['f', 'i', 'x', 'e', 'd'] then
    try_deserialize_fixed_type value
  else if strHasPrefix value ['d', 'e', 'c', 'i', 'm', 'a', 'l'] then
    try_deserialize_decimal_type value
  else
    match value with
    | "boolean" => .ok .Boolean
    | "int" => .ok .Int
    | "long" => .ok .Long
    | "float" => .ok .Float
    | "double" => .ok .Double
    | "date" => .ok .Date
    | "time" => .ok .Time
    | "timestamp" => .ok .Timestamp
    | "timestamptz" => .ok .Timestamptz
    | "string" => .ok .String
    | "uuid" => .ok .Uuid
    | "binary" => .ok .Binary
    | _ => .error ("unknown variant " ++ value)

/-- The custom `Serialize` for `PrimitiveType`: parametric forms for
`Fixed` and `Decimal`, bare lowercase names otherwise. -/
def PrimitiveType.serialize : PrimitiveType → Str
  | .Boolean => "boolean"
  | .Int => "int"
  | .Long => "long"
  | .Float => "float"
  | .Double => "double"
  | .Decimal p s => "decimal(" ++ natToString p ++ ", " ++ natToString s ++ ")"
  | .Date => "date"
  | .Time => "time"
  | .Timestamp => "timestamp"
  | .Timestamptz => "timestamptz"
  | .String => "string"
  | .Uuid => "uuid"
  | .Fixed n => "fixed[" ++ natToString n ++ "]"
  | .Binary => "binary"

inductive Transform where
  | Identity
  | Bucket (n : Nat)
  | Truncate (n : Nat)
  | Year
  | Month
  | Day
  | Hour
deriving DecidableEq

def try_deserialize_bucket (value : String) : Except String Transform :=
  match value.data with
  | 'b' :: 'u' :: 'c' :: 'k' :: 'e' :: 't' :: '[' :: rest =>
    match bracketDigits rest with
    | some ds =>
        if digitsToNat ds < 4294967296 then .ok (.Bucket (digitsToNat ds))
        else .error ("Invalid bucket number: " ++ value)
    | none => .error ("Wrong bucket format: " ++ value)
  | _ => .error ("Wrong bucket format: " ++ value)

def try_deserialize_truncate (value : String) : Except String Transform :=
  match value.data with
  | 't' :: 'r' :: 'u' :: 'n' :: 'c' :: 'a' :: 't' :: 'e' :: '[' :: rest =>
    match bracketDigits rest with
    | some ds =>
        if digitsToNat ds < 4294967296 then .ok (.Truncate (digitsToNat ds))
        else .error ("Invalid truncate number: " ++ value)
    | none => .error ("Wrong truncate format: " ++ value)
  | _ => .error ("Wrong truncate format: " ++ value)

/-- The custom `Deserialize` for `Transform`. -/
def Transform.deserialize (value : String) : Except String Transform :=
  if strHasPrefix value ['b', 'u', 'c', 'k', 'e', 't'] then
    try_deserialize_bucket value
  else if strHasPrefix value ['t', 'r', 'u', 'n', 'c', 'a', 't', 'e'] then
    try_deserialize_truncate value
  else
    match value with
    | "identity" => .ok .Identity
    | "year" => .ok .Year
    | "month" => .ok .Month
    | "day" => .ok .Day
    | "hour" => .ok .Hour
    | _ => .error ("unknown variant " ++ value)

/-- The custom `Serialize` for `Transform`. -/
def Transform.serialize : Transform → String
  | .Identity => "identity"
  | .Bucket n => "bucket[" ++ natToString n ++ "]"
  | .Truncate n => "truncate[" ++ natToString n ++ "]"
  | .Year => "year"
  | .Month => "month"
  | .Day => "day"
  | .Hour => "hour"

/-! ## Manifest-list records

Embeds `ManifestListV2`, `FieldSummaryV2` and `FileType`
(src/iceberg/spec/manifest_list.rs).  A record read from the binary
container is a list of named field values; unions in the container
format arrive resolved to their carried value (`null` for the null
branch).  Decoding is keyed by field name, the `#[serde(default)]`
attributes supply defaults for fields absent from the record, and the
`#[serde(alias = "…")]` attributes accept the `_data_` spellings. -/

inductive AvroValue where
  | null
  | boolean (b : Bool)
  | int (n : Int)
  | long (n : Int)
  | str (s : String)
  | bytes (bs : List Nat)
  | array (xs : List AvroValue)
  | record (fields : List (String × AvroValue))

inductive FileType where
  | Data
  | Delete
deriving DecidableEq

/-- The `Deserialize_repr` for `FileType`: a 32-bit integer, `0 = Data`,
`1 = Delete`, anything else is a domain error. -/
def FileType.fromAvro : AvroValue → Except String FileType
  | .int n =>
      if n = 0 then .ok .Data
      else if n = 1 then .ok .Delete
      else .error "invalid value for content"
  | _ => .error "invalid type for content"

def FileType.toInt : FileType → Int
  | .Data => 0
  | .Delete => 1

structure FieldSummaryV2 where
  contains_null : Bool
  contains_nan : Option Bool
  lower_bound : Option (List Nat)
  upper_bound : Option (List Nat)
deriving DecidableEq

structure ManifestListV2 where
  manifest_path : String
  manifest_length : Int
  partition_spec_id : Int
  content : FileType
  sequence_number : Int
  min_sequence_number : Int
  added_snapshot_id : Int
  added_files_count : Int
  existing_files_count : Int
  deleted_files_count : Int
  added_rows_count : Int
  existing_rows_count : Int
  deleted_rows_count : Int
  partitions : Option (List FieldSummaryV2)
  key_metadata : Option (List Nat)
deriving DecidableEq

/-- First record field whose name is one of `names` (a field and its
serde alias). -/
def findField (fields : List (String × AvroValue)) (names : List String) : Option AvroValue :=
  (fields.find? fun kv => names.contains kv.1).map (fun kv => kv.2)

def avroStr : AvroValue → Except String String
  | .str s => .ok s
  | _ => .error "invalid type: expected string"

def avroLong : AvroValue → Except String Int
  | .long n => .ok n
  | .int n => .ok n
  | _ => .error "invalid type: expected long"

def avroInt : AvroValue → Except String Int
  | .int n => .ok n
  | _ => .error "invalid type: expected int"

def avroBool : AvroValue → Except String Bool
  | .boolean b => .ok b
  | _ => .error "invalid type: expected boolean"

def avroBytes : AvroValue → Except String (List Nat)
  | .bytes bs => .ok bs
  | _ => .error "invalid type: expected bytes"

/-- Deserialization of an `Option` target: the null union branch is
`None`, anything else is `Some` of the inner deserialization. -/
def avroOpt (f : AvroValue → Except String α) : AvroValue → Except String (Option α)
  | .null => .ok none
  | v => (f v).map some

/-- Required field: absent is an error. -/
def reqF (fields : List (String × AvroValue)) (name : String)
    (f : AvroValue → Except String α) : Except String α :=
  match findField fields [name] with
  | some v => f v
  | none => .error ("missing field " ++ name)

/-- Defaulted field (`#[serde(default)]`, possibly with an alias):
absent yields the default, present values are deserialized. -/
def defF (fields : List (String × AvroValue)) (names : List String)
    (f : AvroValue → Except String α) (d : α) : Except String α :=
  match findField fields names with
  | some v => f v
  | none => .ok d

def FieldSummaryV2.fromAvro : AvroValue → Except String FieldSummaryV2
  | .record fs => do
      let cn ← reqF fs "contains_null" avroBool
      let cnan ← defF fs ["contains_nan"] (avroOpt avroBool) none
      let lb ← defF fs ["lower_bound"] (avroOpt avroBytes) none
      let ub ← defF fs ["upper_bound"] (avroOpt avroBytes) none
      .ok ⟨cn, cnan, lb, ub⟩
  | _ => .error "invalid type: expected record"

def avroFieldSummaries : AvroValue → Except String (List FieldSummaryV2)
  | .array xs => xs.mapM FieldSummaryV2.fromAvro
  | _ => .error "invalid type: expected array"

/-- Decoding a manifest-list record through the V2 in-memory shape
(`apache_avro::from_value::<ManifestListV2>` on a record value). -/
def ManifestListV2.fromRecord (fs : List (String × AvroValue)) : Except String ManifestListV2 := do
  let path ← reqF fs "manifest_path" avroStr
  let len ← reqF fs "manifest_length" avroLong
  let psid ← reqF fs "partition_spec_id" avroInt
  let content ← defF fs ["content"] FileType.fromAvro .Data
  let seq ← defF fs ["sequence_number"] avroLong 0
  let mseq ← defF fs ["min_sequence_number"] avroLong 0
  let asid ← reqF fs "added_snapshot_id" avroLong
  let afc ← defF fs ["added_files_count", "added_data_files_count"] avroInt 0
  let efc ← defF fs ["existing_files_count", "existing_data_files_count"] avroInt 0
  let dfc ← defF fs ["deleted_files_count", "deleted_data_files_count"] avroInt 0
  let arc ← defF fs ["added_rows_count"] avroLong 0
  let erc ← defF fs ["existing_rows_count"] avroLong 0
  let drc ← defF fs ["deleted_rows_count"] avroLong 0
  let parts ← defF fs ["partitions"] (avroOpt avroFieldSummaries) none
  let km ← defF fs ["key_metadata"] (avroOpt avroBytes) none
  .ok ⟨path, len, psid, content, seq, mseq, asid, afc, efc, dfc, arc, erc, drc, parts, km⟩

def encAvroOpt (f : α → AvroValue) : Option α → AvroValue
  | none => .null
  | some x => f x

def FieldSummaryV2.toAvro (s : FieldSummaryV2) : AvroValue :=
  .record
    [("contains_null", .boolean s.contains_null),
      ("contains_nan", encAvroOpt AvroValue.boolean s.contains_nan),
      ("lower_bound", encAvroOpt AvroValue.bytes s.lower_bound),
      ("upper_bound", encAvroOpt AvroValue.bytes s.upper_bound)]

/-- Serialization of a `ManifestListV2` value as a record field list: the
canonical field names, in declaration order. -/
def ManifestListV2.serializeEntries (m : ManifestListV2) : List (String × AvroValue) :=
  [("manifest_path", .str m.manifest_path),
    ("manifest_length", .long m.manifest_length),
    ("partition_spec_id", .int m.partition_spec_id),
    ("content", .int m.content.toInt),
    ("sequence_number", .long m.sequence_number),
    ("min_sequence_number", .long m.min_sequence_number),
    ("added_snapshot_id", .long m.added_snapshot_id),
    ("added_files_count", .int m.added_files_count),
    ("existing_files_count", .int m.existing_files_count),
    ("deleted_files_count", .int m.deleted_files_count),
    ("added_rows_count", .long m.added_rows_count),
    ("existing_rows_count", .long m.existing_rows_count),
    ("deleted_rows_count", .long m.deleted_rows_count),
    ("partitions", encAvroOpt (fun xs => .array (xs.map FieldSummaryV2.toAvro)) m.partitions),
    ("key_metadata", encAvroOpt AvroValue.bytes m.key_metadata)]

def v1_record_example : List (String × AvroValue) :=
  [("manifest_path", .str "m0.avro"), ("manifest_length", .long 7827),
    ("partition_spec_id", .int 0), ("added_snapshot_id", .long 9164160847201777787),
    ("added_data_files_count", .int 2)]

def v1_record_example_decoded : ManifestListV2 :=
  ⟨"m0.avro", 7827, 0, .Data, 0, 0, 9164160847201777787, 2, 0, 0, 0, 0, 0, none, none⟩

/-- The name sets the record decoder queries, one per struct field. -/
def mlFieldNames : List (List String) :=
  [["manifest_path"], ["manifest_length"], ["partition_spec_id"], ["content"],
    ["sequence_number"], ["min_sequence_number"], ["added_snapshot_id"],
    ["added_files_count", "added_data_files_count"],
    ["existing_files_count", "existing_data_files_count"],
    ["deleted_files_count", "deleted_data_files_count"],
    ["added_rows_count"], ["existing_rows_count"], ["deleted_rows_count"],
    ["partitions"], ["key_metadata"]]

/-! ## JSON deserialization combinators

These mirror serde's derived struct deserialization over a parsed
`serde_json::Value`: required fields error when missing, `Option` fields
treat both a missing key and an explicit `null` as `None`, integer
targets are range-checked, and unknown keys are ignored. -/

def jStr : Json → Except String String
  | .str s => .ok s
  | _ => .error "invalid type: expected a string"

def jBool : Json → Except String Bool
  | .bool b => .ok b
  | _ => .error "invalid type: expected a boolean"

def jI64 : Json → Except String Int
  | .num n =>
      if -9223372036854775808 ≤ n ∧ n < 9223372036854775808 then .ok n
      else .error "invalid value: integer out of range of i64"
  | _ => .error "invalid type: expected an integer"

def jI32 : Json → Except String Int
  | .num n =>
      if -2147483648 ≤ n ∧ n < 2147483648 then .ok n
      else .error "invalid value: integer out of range of i32"
  | _ => .error "invalid type: expected an integer"

/-- Required field of a struct. -/
def getJ (kvs : List (String × Json)) (key : String)
    (f : Json → Except String α) : Except String α :=
  match lookupLast kvs key with
  | some v => f v
  | none => .error ("missing field " ++ key)

/-- Optional value: an explicit `null` is `None`, everything else is
`Some` of the inner deserialization. -/
def jOpt (f : Json → Except String α) : Json → Except String (Option α)
  | .null => .ok none
  | v => (f v).map some

/-- Optional field of a struct: missing and `null` are both `None`. -/
def optJ (kvs : List (String × Json)) (key : String)
    (f : Json → Except String α) : Except String (Option α) :=
  match lookupLast kvs key with
  | none => .ok none
  | some v => jOpt f v

def mapME (f : Json → Except String α) : List Json → Except String (List α)
  | [] => .ok []
  | x :: xs => do
      let a ← f x
      let as ← mapME f xs
      .ok (a :: as)

def jArr (f : Json → Except String α) : Json → Except String (List α)
  | .arr xs => mapME f xs
  | _ => .error "invalid type: expected a sequence"

def mapMKV (f : Json → Except String α) :
    List (String × Json) → Except String (List (String × α))
  | [] => .ok []
  | kv :: kvs => do
      let a ← f kv.2
      let as ← mapMKV f kvs
      .ok ((kv.1, a) :: as)

/-- A map target (`HashMap<String, _>`): the parsed object's entries, in
order, with duplicate keys already collapsed by the text parse. -/
def jMapOf (f : Json → Except String α) : Json → Except String (List (String × α))
  | .obj kvs => mapMKV f (dedupKeys kvs)
  | _ => .error "invalid type: expected a map"

def encOpt (f : α → Json) : Option α → Json
  | none => .null
  | some x => f x

/-- Abbreviated Debug rendering of a value, as interpolated by the
`{:?}` in the version error message. -/
def reprJson : Json → String
  | .null => "Null"
  | .bool b => if b then "Bool(true)" else "Bool(false)"
  | .num n => "Number(" ++ intToString n ++ ")"
  | .str s => "String(\"" ++ s ++ "\")"
  | .arr _ => "Array([..])"
  | .obj _ => "Object {..}"

/-! ## UUIDs

The `uuid` crate deserializes from a string in simple, hyphenated,
braced, or URN form, case-insensitively, and serializes to lowercase
hyphenated form.  A UUID value is its 32 hexadecimal digits. -/

def hexVal (c : Char) : Option Nat :=
  if isDigitChar c then
    if digitVal c < 10 then some (digitVal c) else none
  else if c == 'a' || c == 'A' then some 10
  else if c == 'b' || c == 'B' then some 11
  else if c == 'c' || c == 'C' then some 12
  else if c == 'd' || c == 'D' then some 13
  else if c == 'e' || c == 'E' then some 14
  else if c == 'f' || c == 'F' then some 15
  else none

def hexChar (n : Nat) : Char :=
  if n < 10 then digitChar n else Char.ofNat ('a'.toNat + (n - 10))

def uuidGroup : Nat → List Char → Option (List Nat × List Char)
  | 0, cs => some ([], cs)
  | _ + 1, [] => (none : Option (List Nat × List Char))
  | k + 1, c :: cs => do
      let d ← hexVal c
      let p ← uuidGroup k cs
      some (d :: p.1, p.2)

def uuidHyphenated (cs : List Char) : Option (List Nat) := do
  let p1 ← uuidGroup 8 cs
  match p1.2 with
  | '-' :: r1 => do
    let p2 ← uuidGroup 4 r1
    match p2.2 with
    | '-' :: r2 => do
      let p3 ← uuidGroup 4 r2
      match p3.2 with
      | '-' :: r3 => do
        let p4 ← uuidGroup 4 r3
        match p4.2 with
        | '-' :: r4 => do
          let p5 ← uuidGroup 12 r4
          match p5.2 with
          | [] => some (p1.1 ++ p2.1 ++ p3.1 ++ p4.1 ++ p5.1)
          | _ => none
        | _ => none
      | _ => none
    | _ => none
  | _ => none

def uuidSimple (cs : List Char) : Option (List Nat) := do
  let p ← uuidGroup 32 cs
  match p.2 with
  | [] => some p.1
  | _ => none

def dropBraces (cs : List Char) : List Char :=
  match cs with
  | '{' :: rest =>
    match rest.reverse with
    | '}' :: mid => mid.reverse
    | _ => cs
  | _ => cs

def stripUrn (cs : List Char) : List Char :=
  match cs with
  | 'u' :: 'r' :: 'n' :: ':' :: 'u' :: 'u' :: 'i' :: 'd' :: ':' :: rest => rest
  | other => other

/-- Accepts the simple, hyphenated, braced and URN encodings,
case-insensitively (a plain parse is attempted before prefix/brace
stripping; the accepted set is unchanged because a braced or prefixed
input never parses plainly). -/
def uuidParse (s : String) : Option (List Nat) :=
  match uuidSimple s.data with
  | some u => some u
  | none =>
    match uuidHyphenated s.data with
    | some u => some u
    | none =>
      let cs := dropBraces (stripUrn s.data)
      match uuidSimple cs with
      | some u => some u
      | none => uuidHyphenated cs

def uuidToChars (u : List Nat) : List Char :=
  (u.take 8).map hexChar ++ '-' ::
    ((u.drop 8).take 4).map hexChar ++ '-' ::
      ((u.drop 12).take 4).map hexChar ++ '-' ::
        ((u.drop 16).take 4).map hexChar ++ '-' :: (u.drop 20).map hexChar

def uuidToString (u : List Nat) : String := ⟨uuidToChars u⟩

def jUuid : Json → Except String (List Nat)
  | .str s =>
    match uuidParse s with
    | some u => .ok u
    | none => .error "UUID parsing failed"
  | _ => .error "invalid type: expected a UUID string"

/-! ## Schema type model (src/iceberg/spec/schema.rs)

`IcebergType` is the mixed-tagged union: primitives are bare strings,
composites are objects with a `type` discriminant.  The untagged serde
representation tries `Primitive`, `Struct`, `List`, `Map` in declaration
order; tags on structs are emitted on serialization and ignored on
deserialization. -/

mutual
inductive IcebergType where
  | Primitive (p : PrimitiveType)
  | Struct (s : StructType)
  | List (l : ListType)
  | Map (m : MapType)
inductive StructType where
  | mk (fields : List StructField)
inductive StructField where
  | mk (id : Int) (name : String) (required : Bool) (field_type : IcebergType)
      (doc : Option String) (initial_default : Option String) (write_default : Option String)
inductive ListType where
  | mk (element_id : Int) (element_required : Bool) (element : IcebergType)
inductive MapType where
  | mk (key_id : Int) (key : IcebergType) (value_id : Int) (value_required : Bool)
      (value : IcebergType)
end

mutual
def encodeIcebergType : IcebergType → Json
  | .Primitive p => .str p.serialize
  | .Struct s => encodeStructType s
  | .List l => encodeListType l
  | .Map m => encodeMapType m
def encodeStructType : StructType → Json
  | .mk fields => Json.mkObj [("type", .str "struct"), ("fields", .arr (encodeFields fields))]
def encodeFields : List StructField → List Json
  | [] => []
  | f :: fs => encodeStructField f :: encodeFields fs
def encodeStructField : StructField → Json
  | .mk id name required ft doc idf wd =>
      Json.mkObj
        [("id", .num id), ("name", .str name), ("required", .bool required),
          ("type", encodeIcebergType ft), ("doc", encOpt Json.str doc),
          ("initial-default", encOpt Json.str idf), ("write-default", encOpt Json.str wd)]
def encodeListType : ListType → Json
  | .mk eid ereq el =>
      Json.mkObj
        [("type", .str "list"), ("element-id", .num eid), ("element-required", .bool ereq),
          ("element", encodeIcebergType el)]
def encodeMapType : MapType → Json
  | .mk kid k vid vreq v =>
      Json.mkObj
        [("type", .str "map"), ("key-id", .num kid), ("key", encodeIcebergType k),
          ("value-id", .num vid), ("value-required", .bool vreq),
          ("value", encodeIcebergType v)]
end

def untaggedTypeErr : String := "data did not match any variant of untagged enum IcebergType"

def orE (a : Except String α) (b : Unit → Except String α) : Except String α :=
  match a with
  | .ok v => .ok v
  | .error _ => b ()

/-- Struct-field decoding, parameterized by the type decoder used for
the recursive `type` attribute. -/
def decodeStructFieldWith (decT : Json → Except String IcebergType) (j : Json) :
    Except String StructField :=
  match j with
  | .obj kvs => do
      let id ← getJ kvs "id" jI32
      let name ← getJ kvs "name" jStr
      let required ← getJ kvs "required" jBool
      let ft ← getJ kvs "type" decT
      let doc ← optJ kvs "doc" jStr
      let idf ← optJ kvs "initial-default" jStr
      let wd ← optJ kvs "write-default" jStr
      .ok (.mk id name required ft doc idf wd)
  | _ => .error "invalid type: expected a struct field object"

def tryStructWith (decT : Json → Except String IcebergType)
    (kvs : List (String × Json)) : Except String StructType := do
  let fields ← getJ kvs "fields" (jArr (decodeStructFieldWith decT))
  .ok (.mk fields)

def tryListWith (decT : Json → Except String IcebergType)
    (kvs : List (String × Json)) : Except String ListType := do
  let eid ← getJ kvs "element-id" jI32
  let ereq ← getJ kvs "element-required" jBool
  let el ← getJ kvs "element" decT
  .ok (.mk eid ereq el)

def tryMapWith (decT : Json → Except String IcebergType)
    (kvs : List (String × Json)) : Except String MapType := do
  let kid ← getJ kvs "key-id" jI32
  let k ← getJ kvs "key" decT
  let vid ← getJ kvs "value-id" jI32
  let vreq ← getJ kvs "value-required" jBool
  let v ← getJ kvs "value" decT
  .ok (.mk kid k vid vreq v)

/-- The untagged `IcebergType` decoder: strings go to the primitive
parser; objects are tried as struct, then list, then map, the first
success winning.  Recursion is fuel-structured; `decodeIcebergType`
below supplies fuel sufficient for any input. -/
def decodeIcebergTypeF : Nat → Json → Except String IcebergType
  | 0, _ => .error untaggedTypeErr
  | fuel + 1, j =>
    match j with
    | .str s =>
      match PrimitiveType.deserialize s with
      | .ok p => .ok (.Primitive p)
      | .error _ => .error untaggedTypeErr
    | .obj kvs =>
        orE ((tryStructWith (decodeIcebergTypeF fuel) kvs).map .Struct) fun _ =>
          orE ((tryListWith (decodeIcebergTypeF fuel) kvs).map .List) fun _ =>
            orE ((tryMapWith (decodeIcebergTypeF fuel) kvs).map .Map) fun _ =>
              .error untaggedTypeErr
    | _ => .error untaggedTypeErr

def decodeIcebergType (j : Json) : Except String IcebergType :=
  decodeIcebergTypeF (Json.size j) j

structure IcebergSchemaV2 where
  schema_id : Int
  identifier_field_ids : Option (List Int)
  schema : StructType

structure IcebergSchemaV1 where
  schema_id : Option Int
  identifier_field_ids : Option (List Int)
  schema : StructType

def IcebergSchemaV2.deserialize : Json → Except String IcebergSchemaV2
  | .obj kvs => do
      let sid ← getJ kvs "schema-id" jI32
      let idf ← optJ kvs "identifier-field-ids" (jArr jI32)
      let fields ← getJ kvs "fields" (jArr (decodeStructFieldWith decodeIcebergType))
      .ok ⟨sid, idf, .mk fields⟩
  | _ => .error "invalid type: expected a schema object"

def IcebergSchemaV1.deserialize : Json → Except String IcebergSchemaV1
  | .obj kvs => do
      let sid ← optJ kvs "schema-id" jI32
      let idf ← optJ kvs "identifier-field-ids" (jArr jI32)
      let fields ← getJ kvs "fields" (jArr (decodeStructFieldWith decodeIcebergType))
      .ok ⟨sid, idf, .mk fields⟩
  | _ => .error "invalid type: expected a schema object"

def encNumList (l : List Int) : Json := .arr (l.map Json.num)

def structTypeFields : StructType → List StructField
  | .mk fields => fields

def IcebergSchemaV2.serialize (s : IcebergSchemaV2) : Json :=
  Json.mkObj
    [("schema-id", .num s.schema_id),
      ("identifier-field-ids", encOpt encNumList s.identifier_field_ids),
      ("type", .str "struct"),
      ("fields", .arr (encodeFields (structTypeFields s.schema)))]

def IcebergSchemaV1.serialize (s : IcebergSchemaV1) : Json :=
  Json.mkObj
    [("schema-id", encOpt Json.num s.schema_id),
      ("identifier-field-ids", encOpt encNumList s.identifier_field_ids),
      ("type", .str "struct"),
      ("fields", .arr (encodeFields (structTypeFields s.schema)))]

/-! ## Partition specs and sort orders -/

structure PartitionField where
  source_id : Int
  field_id : Int
  name : String
  transform : Transform
deriving DecidableEq

structure PartitionSpec where
  spec_id : Int
  fields : List PartitionField
deriving DecidableEq

inductive Direction where
  | ASC
  | DESC
deriving DecidableEq

inductive NullOrder where
  | NullsFirst
  | NullsLast
deriving DecidableEq

structure SortField where
  transform : Transform
  source_id : Int
  direction : Direction
  null_order : NullOrder
deriving DecidableEq

structure SortOrders where
  order_id : Int
  fields : List SortField
deriving DecidableEq

def jTransform : Json → Except String Transform
  | .str s => Transform.deserialize s
  | _ => .error "invalid type: expected a string"

def PartitionField.deserialize : Json → Except String PartitionField
  | .obj kvs => do
      let sid ← getJ kvs "source-id" jI32
      let fid ← getJ kvs "field-id" jI32
      let name ← getJ kvs "name" jStr
      let tr ← getJ kvs "transform" jTransform
      .ok ⟨sid, fid, name, tr⟩
  | _ => .error "invalid type: expected a partition field object"

def PartitionField.serialize (f : PartitionField) : Json :=
  Json.mkObj
    [("source-id", .num f.source_id), ("field-id", .num f.field_id),
      ("name", .str f.name), ("transform", .str f.transform.serialize)]

def PartitionSpec.deserialize : Json → Except String PartitionSpec
  | .obj kvs => do
      let sid ← getJ kvs "spec-id" jI32
      let fields ← getJ kvs "fields" (jArr PartitionField.deserialize)
      .ok ⟨sid, fields⟩
  | _ => .error "invalid type: expected a partition spec object"

def PartitionSpec.serialize (s : PartitionSpec) : Json :=
  Json.mkObj
    [("spec-id", .num s.spec_id), ("fields", .arr (s.fields.map PartitionField.serialize))]

def Direction.deserialize : Json → Except String Direction
  | .str "asc" => .ok .ASC
  | .str "desc" => .ok .DESC
  | _ => .error "unknown variant for direction"

def Direction.serialize : Direction → Json
  | .ASC => .str "asc"
  | .DESC => .str "desc"

def NullOrder.deserialize : Json → Except String NullOrder
  | .str "nulls-first" => .ok .NullsFirst
  | .str "nulls-last" => .ok .NullsLast
  | _ => .error "unknown variant for null order"

def NullOrder.serialize : NullOrder → Json
  | .NullsFirst => .str "nulls-first"
  | .NullsLast => .str "nulls-last"

def SortField.deserialize : Json → Except String SortField
  | .obj kvs => do
      let tr ← getJ kvs "transform" jTransform
      let sid ← getJ kvs "source-id" jI32
      let dir ← getJ kvs "direction" Direction.deserialize
      let no ← getJ kvs "null-order" NullOrder.deserialize
      .ok ⟨tr, sid, dir, no⟩
  | _ => .error "invalid type: expected a sort field object"

def SortField.serialize (f : SortField) : Json :=
  Json.mkObj
    [("transform", .str f.transform.serialize), ("source-id", .num f.source_id),
      ("direction", f.direction.serialize), ("null-order", f.null_order.serialize)]

def SortOrders.deserialize : Json → Except String SortOrders
  | .obj kvs => do
      let oid ← getJ kvs "order-id" jI32
      let fields ← getJ kvs "fields" (jArr SortField.deserialize)
      .ok ⟨oid, fields⟩
  | _ => .error "invalid type: expected a sort order object"

def SortOrders.serialize (s : SortOrders) : Json :=
  Json.mkObj
    [("order-id", .num s.order_id), ("fields", .arr (s.fields.map SortField.serialize))]

/-! ## Snapshots and refs (src/iceberg/spec/snapshot.rs) -/

inductive Operation where
  | Append
  | Replace
  | Overwrite
  | Delete
deriving DecidableEq

structure Summary where
  operation : Operation
  rest : List (String × String)
deriving DecidableEq

def Operation.deserialize : Json → Except String Operation
  | .str "append" => .ok .Append
  | .str "replace" => .ok .Replace
  | .str "overwrite" => .ok .Overwrite
  | .str "delete" => .ok .Delete
  | _ => .error "unknown variant for operation"

def Operation.serialize : Operation → Json
  | .Append => .str "append"
  | .Replace => .str "replace"
  | .Overwrite => .str "overwrite"
  | .Delete => .str "delete"

def mapMStr : List (String × Json) → Except String (List (String × String))
  | [] => .ok []
  | kv :: kvs => do
      let s ← jStr kv.2
      let rest ← mapMStr kvs
      .ok ((kv.1, s) :: rest)

/-- The flattened-map `Summary`: `operation` is extracted, every other
(string-valued) key lands in `rest`. -/
def Summary.deserialize : Json → Except String Summary
  | .obj kvs => do
      let d := dedupKeys kvs
      let op ← getJ d "operation" Operation.deserialize
      let rest ← mapMStr (d.filter fun kv => !(kv.1 == "operation"))
      .ok ⟨op, rest⟩
  | _ => .error "invalid type: expected a summary object"

def Summary.serialize (s : Summary) : Json :=
  Json.mkObj
    (("operation", s.operation.serialize) :: s.rest.map fun kv => (kv.1, .str kv.2))

structure SnapshotV2 where
  snapshot_id : Int
  parent_snapshot_id : Option Int
  sequence_number : Int
  timestamp_ms : Int
  summary : Summary
  manifest_list : String
  schema_id : Option Int
deriving DecidableEq

structure SnapshotV1 where
  snapshot_id : Int
  parent_snapshot_id : Option Int
  timestamp_ms : Int
  manifest_list : Option String
  manifests : Option (List String)
  summary : Option Summary
  schema_id : Option Int
deriving DecidableEq

def SnapshotV2.deserialize : Json → Except String SnapshotV2
  | .obj kvs => do
      let sid ← getJ kvs "snapshot-id" jI64
      let psid ← optJ kvs "parent-snapshot-id" jI64
      let seq ← getJ kvs "sequence-number" jI64
      let ts ← getJ kvs "timestamp-ms" jI64
      let sm ← getJ kvs "summary" Summary.deserialize
      let ml ← getJ kvs "manifest-list" jStr
      let sch ← optJ kvs "schema-id" jI32
      .ok ⟨sid, psid, seq, ts, sm, ml, sch⟩
  | _ => .error "invalid type: expected a snapshot object"

def SnapshotV2.serialize (s : SnapshotV2) : Json :=
  Json.mkObj
    [("snapshot-id", .num s.snapshot_id),
      ("parent-snapshot-id", encOpt Json.num s.parent_snapshot_id),
      ("sequence-number", .num s.sequence_number),
      ("timestamp-ms", .num s.timestamp_ms),
      ("summary", s.summary.serialize),
      ("manifest-list", .str s.manifest_list),
      ("schema-id", encOpt Json.num s.schema_id)]

/-- The derived (remote) field decoding of `SnapshotV1`, before the
mutual-exclusion check of the custom `Deserialize`. -/
def SnapshotV1.deserializeFields : Json → Except String SnapshotV1
  | .obj kvs => do
      let sid ← getJ kvs "snapshot-id" jI64
      let psid ← optJ kvs "parent-snapshot-id" jI64
      let ts ← getJ kvs "timestamp-ms" jI64
      let ml ← optJ kvs "manifest-list" jStr
      let ms ← optJ kvs "manifests" (jArr jStr)
      let sm ← optJ kvs "summary" Summary.deserialize
      let sch ← optJ kvs "schema-id" jI64
      .ok ⟨sid, psid, ts, ml, ms, sm, sch⟩
  | _ => .error "invalid type: expected a snapshot object"

/-- The custom `Deserialize` for `SnapshotV1`: reject a snapshot carrying
both `manifest-list` and `manifests`. -/
def SnapshotV1.deserialize (j : Json) : Except String SnapshotV1 :=
  match SnapshotV1.deserializeFields j with
  | .ok s =>
      if s.manifest_list.isSome && s.manifests.isSome then
        .error "Both manifests and manifest_lists can't be present in snapshot"
      else .ok s
  | .error e => .error e

def encStrList (l : List String) : Json := .arr (l.map Json.str)

def SnapshotV1.serialize (s : SnapshotV1) : Json :=
  Json.mkObj
    [("snapshot-id", .num s.snapshot_id),
      ("parent-snapshot-id", encOpt Json.num s.parent_snapshot_id),
      ("timestamp-ms", .num s.timestamp_ms),
      ("manifest-list", encOpt Json.str s.manifest_list),
      ("manifests", encOpt encStrList s.manifests),
      ("summary", encOpt Summary.serialize s.summary),
      ("schema-id", encOpt Json.num s.schema_id)]

inductive RefType where
  | Branch (min_snapshots_to_keep : Option Int) (max_snapshot_age_ms : Option Int)
  | Tag
deriving DecidableEq

structure SnapshotRefV2 where
  snapshot_id : Int
  ref_type : RefType
  max_ref_age_ms : Option Int
deriving DecidableEq

def RefType.deserializeTagged (kvs : List (String × Json)) (ty : String) :
    Except String RefType :=
  match ty with
  | "branch" => do
      let mk ← optJ kvs "min-snapshots-to-keep" jI32
      let ma ← optJ kvs "max-snapshot-age-ms" jI64
      Except.ok (RefType.Branch mk ma)
  | "tag" => Except.ok RefType.Tag
  | _ => Except.error ("unknown variant " ++ ty)

def SnapshotRefV2.deserialize : Json → Except String SnapshotRefV2
  | .obj kvs => do
      let sid ← getJ kvs "snapshot-id" jI64
      let ty ← getJ kvs "type" jStr
      let rt ← RefType.deserializeTagged kvs ty
      let mra ← optJ kvs "max-ref-age-ms" jI64
      .ok ⟨sid, rt, mra⟩
  | _ => .error "invalid type: expected a snapshot ref object"

def RefType.serializeEntries : RefType → List (String × Json)
  | .Branch mk ma =>
      [("type", .str "branch"), ("min-snapshots-to-keep", encOpt Json.num mk),
        ("max-snapshot-age-ms", encOpt Json.num ma)]
  | .Tag => [("type", .str "tag")]

def SnapshotRefV2.serialize (r : SnapshotRefV2) : Json :=
  Json.mkObj
    (("snapshot-id", .num r.snapshot_id) :: r.ref_type.serializeEntries ++
      [("max-ref-age-ms", encOpt Json.num r.max_ref_age_ms)])

/-! ## Table metadata (src/iceberg/spec/table_metadata.rs) -/

structure SnapshotLog where
  snapshot_id : Int
  timestamp_ms : Int
deriving DecidableEq

structure MetadataLog where
  metadata_file : String
  timestamp_ms : Int
deriving DecidableEq

def SnapshotLog.deserialize : Json → Except String SnapshotLog
  | .obj kvs => do
      let sid ← getJ kvs "snapshot-id" jI64
      let ts ← getJ kvs "timestamp-ms" jI64
      .ok ⟨sid, ts⟩
  | _ => .error "invalid type: expected a snapshot log object"

def SnapshotLog.serialize (l : SnapshotLog) : Json :=
  Json.mkObj [("snapshot-id", .num l.snapshot_id), ("timestamp-ms", .num l.timestamp_ms)]

def MetadataLog.deserialize : Json → Except String MetadataLog
  | .obj kvs => do
      let mf ← getJ kvs "metadata-file" jStr
      let ts ← getJ kvs "timestamp-ms" jI64
      .ok ⟨mf, ts⟩
  | _ => .error "invalid type: expected a metadata log object"

def MetadataLog.serialize (l : MetadataLog) : Json :=
  Json.mkObj [("metadata-file", .str l.metadata_file), ("timestamp-ms", .num l.timestamp_ms)]

/-- The empty `Statistics` struct: its content is not interpreted. -/
def jStatistics : Json → Except String Unit
  | .obj _ => .ok ()
  | .arr [] => .ok ()
  | _ => .error "invalid type: expected struct Statistics"

def encStatistics : Unit → Json
  | () => .obj []

structure TableMetadataV2 where
  format_version : Int
  table_uuid : List Nat
  location : String
  last_sequence_number : Int
  last_updated_ms : Int
  last_column_id : Int
  schemas : List IcebergSchemaV2
  current_schema_id : Int
  partition_specs : List PartitionSpec
  default_spec_id : Int
  last_partition_id : Int
  properties : Option (List (String × String))
  current_snapshot_id : Option Int
  snapshots : Option (List SnapshotV2)
  snapshot_log : Option (List SnapshotLog)
  metadata_log : Option (List MetadataLog)
  sort_orders : List SortOrders
  default_sort_order_id : Int
  refs : Option (List (String × SnapshotRefV2))
  statistics : Option Unit

structure TableMetadataV1 where
  format_version : Int
  table_uuid : Option (List Nat)
  location : String
  last_updated_ms : Int
  last_column_id : Int
  schema : IcebergSchemaV1
  schemas : Option (List IcebergSchemaV1)
  current_schema_id : Option Int
  partition_spec : List PartitionField
  partition_specs : List PartitionSpec
  default_spec_id : Option Int
  last_partition_id : Option Int
  properties : Option (List (String × String))
  current_snapshot_id : Option Int
  snapshots : Option (List SnapshotV1)
  snapshot_log : Option (List SnapshotLog)
  metadata_log : Option (List MetadataLog)
  sort_orders : Option (List SortOrders)
  default_sort_order_id : Int
  statistics : Option Unit

def jStrMap : Json → Except String (List (String × String))
  | .obj kvs => mapMStr (dedupKeys kvs)
  | _ => .error "invalid type: expected a map"

def TableMetadataV2.deserialize : Json → Except String TableMetadataV2
  | .obj kvs => do
      let fv ← getJ kvs "format-version" jI32
      let uuid ← getJ kvs "table-uuid" jUuid
      let loc ← getJ kvs "location" jStr
      let lsn ← getJ kvs "last-sequence-number" jI64
      let lum ← getJ kvs "last-updated-ms" jI64
      let lci ← getJ kvs "last-column-id" jI32
      let schemas ← getJ kvs "schemas" (jArr IcebergSchemaV2.deserialize)
      let csi ← getJ kvs "current-schema-id" jI32
      let pspecs ← getJ kvs "partition-specs" (jArr PartitionSpec.deserialize)
      let dsi ← getJ kvs "default-spec-id" jI32
      let lpi ← getJ kvs "last-partition-id" jI32
      let props ← optJ kvs "properties" jStrMap
      let csnap ← optJ kvs "current-snapshot-id" jI64
      let snaps ← optJ kvs "snapshots" (jArr SnapshotV2.deserialize)
      let slog ← optJ kvs "snapshot-log" (jArr SnapshotLog.deserialize)
      let mlog ← optJ kvs "metadata-log" (jArr MetadataLog.deserialize)
      let sorts ← getJ kvs "sort-orders" (jArr SortOrders.deserialize)
      let dsoi ← getJ kvs "default-sort-order-id" jI32
      let refs ← optJ kvs "refs" (jMapOf SnapshotRefV2.deserialize)
      let stats ← optJ kvs "statistics" jStatistics
      .ok ⟨fv, uuid, loc, lsn, lum, lci, schemas, csi, pspecs, dsi, lpi, props, csnap,
        snaps, slog, mlog, sorts, dsoi, refs, stats⟩
  | _ => .error "invalid type: expected a metadata object"

def TableMetadataV1.deserialize : Json → Except String TableMetadataV1
  | .obj kvs => do
      let fv ← getJ kvs "format-version" jI32
      let uuid ← optJ kvs "table-uuid" jUuid
      let loc ← getJ kvs "location" jStr
      let lum ← getJ kvs "last-updated-ms" jI64
      let lci ← getJ kvs "last-column-id" jI32
      let schema ← getJ kvs "schema" IcebergSchemaV1.deserialize
      let schemas ← optJ kvs "schemas" (jArr IcebergSchemaV1.deserialize)
      let csi ← optJ kvs "current-schema-id" jI32
      let pspec ← getJ kvs "partition-spec" (jArr PartitionField.deserialize)
      let pspecs ← getJ kvs "partition-specs" (jArr PartitionSpec.deserialize)
      let dsi ← optJ kvs "default-spec-id" jI32
      let lpi ← optJ kvs "last-partition-id" jI32
      let props ← optJ kvs "properties" jStrMap
      let csnap ← optJ kvs "current-snapshot-id" jI64
      let snaps ← optJ kvs "snapshots" (jArr SnapshotV1.deserialize)
      let slog ← optJ kvs "snapshot-log" (jArr SnapshotLog.deserialize)
      let mlog ← optJ kvs "metadata-log" (jArr MetadataLog.deserialize)
      let sorts ← optJ kvs "sort-orders" (jArr SortOrders.deserialize)
      let dsoi ← getJ kvs "default-sort-order-id" jI32
      let stats ← optJ kvs "statistics" jStatistics
      .ok ⟨fv, uuid, loc, lum, lci, schema, schemas, csi, pspec, pspecs, dsi, lpi, props,
        csnap, snaps, slog, mlog, sorts, dsoi, stats⟩
  | _ => .error "invalid type: expected a metadata object"

def encStrMap (l : List (String × String)) : Json :=
  Json.mkObj (l.map fun kv => (kv.1, .str kv.2))

def encRefMap (l : List (String × SnapshotRefV2)) : Json :=
  Json.mkObj (l.map fun kv => (kv.1, kv.2.serialize))

/-- The derived (internally tagged) serialization of `TableMetadataV2`:
the struct-name tag under the `format-version` key, then the fields in
declaration order — including the struct's own `format_version` field,
which also serializes under the `format-version` key. -/
def TableMetadataV2.serializeEntries (m : TableMetadataV2) : List (String × Json) :=
  [("format-version", .str "TableMetadataV2"),
    ("format-version", .num m.format_version),
    ("table-uuid", .str (uuidToString m.table_uuid)),
    ("location", .str m.location),
    ("last-sequence-number", .num m.last_sequence_number),
    ("last-updated-ms", .num m.last_updated_ms),
    ("last-column-id", .num m.last_column_id),
    ("schemas", .arr (m.schemas.map IcebergSchemaV2.serialize)),
    ("current-schema-id", .num m.current_schema_id),
    ("partition-specs", .arr (m.partition_specs.map PartitionSpec.serialize)),
    ("default-spec-id", .num m.default_spec_id),
    ("last-partition-id", .num m.last_partition_id),
    ("properties", encOpt encStrMap m.properties),
    ("current-snapshot-id", encOpt Json.num m.current_snapshot_id),
    ("snapshots", encOpt (fun l => .arr (l.map SnapshotV2.serialize)) m.snapshots),
    ("snapshot-log", encOpt (fun l => .arr (l.map SnapshotLog.serialize)) m.snapshot_log),
    ("metadata-log", encOpt (fun l => .arr (l.map MetadataLog.serialize)) m.metadata_log),
    ("sort-orders", .arr (m.sort_orders.map SortOrders.serialize)),
    ("default-sort-order-id", .num m.default_sort_order_id),
    ("refs", encOpt encRefMap m.refs),
    ("statistics", encOpt encStatistics m.statistics)]

def TableMetadataV1.serializeEntries (m : TableMetadataV1) : List (String × Json) :=
  [("format-version", .str "TableMetadataV1"),
    ("format-version", .num m.format_version),
    ("table-uuid", encOpt (fun u => .str (uuidToString u)) m.table_uuid),
    ("location", .str m.location),
    ("last-updated-ms", .num m.last_updated_ms),
    ("last-column-id", .num m.last_column_id),
    ("schema", m.schema.serialize),
    ("schemas", encOpt (fun l => .arr (l.map IcebergSchemaV1.serialize)) m.schemas),
    ("current-schema-id", encOpt Json.num m.current_schema_id),
    ("partition-spec", .arr (m.partition_spec.map PartitionField.serialize)),
    ("partition-specs", .arr (m.partition_specs.map PartitionSpec.serialize)),
    ("default-spec-id", encOpt Json.num m.default_spec_id),
    ("last-partition-id", encOpt Json.num m.last_partition_id),
    ("properties", encOpt encStrMap m.properties),
    ("current-snapshot-id", encOpt Json.num m.current_snapshot_id),
    ("snapshots", encOpt (fun l => .arr (l.map SnapshotV1.serialize)) m.snapshots),
    ("snapshot-log", encOpt (fun l => .arr (l.map SnapshotLog.serialize)) m.snapshot_log),
    ("metadata-log", encOpt (fun l => .arr (l.map MetadataLog.serialize)) m.metadata_log),
    ("sort-orders", encOpt (fun l => .arr (l.map SortOrders.serialize)) m.sort_orders),
    ("default-sort-order-id", .num m.default_sort_order_id),
    ("statistics", encOpt encStatistics m.statistics)]

inductive TableMetadata where
  | V1 (m : TableMetadataV1)
  | V2 (m : TableMetadataV2)

/-- `Value::as_i64`: the numeric value when it fits a signed 64-bit
integer. -/
def jAsI64 : Json → Option Int
  | .num n => if -9223372036854775808 ≤ n ∧ n < 9223372036854775808 then some n else none
  | _ => none

/-- The custom `Deserialize` for `TableMetadata` (version dispatch on the
integer `format-version`). -/
def TableMetadata.deserialize (j : Json) : Except String TableMetadata :=
  match j.get? "format-version" with
  | none => .error "Unable to find 'format-version' key in metadata"
  | some fv =>
    match jAsI64 fv with
    | none => .error ("Invalid 'format-version' in metadata: " ++ reprJson fv)
    | some n =>
      if n = 2 then
        match TableMetadataV2.deserialize j with
        | .ok m => .ok (.V2 m)
        | .error e => .error ("Unable to deserialize version 2 metadata: error: " ++ e)
      else if n = 1 then
        match TableMetadataV1.deserialize j with
        | .ok m => .ok (.V1 m)
        | .error e => .error ("Unable to deserialize version 1 metadata: error: " ++ e)
      else .error ("Unsupported metadata format-version " ++ intToString n)

/-- The custom `Serialize` for `TableMetadata`: the wrapper writes the
integer discriminant first, then flattens the version-specific record
(whose own tag and `format_version` field follow under the same key). -/
def TableMetadata.serializeEntries : TableMetadata → List (String × Json)
  | .V2 m => ("format-version", .num 2) :: m.serializeEntries
  | .V1 m => ("format-version", .num 1) :: m.serializeEntries

def TableMetadata.serialize (t : TableMetadata) : Json :=
  Json.mkObj t.serializeEntries

/-! ## Well-formedness

Decoded values satisfy these invariants (machine-integer ranges enforced
by the Rust field types, the parametric bounds of the string parsers,
the uniqueness of parsed map keys, and the V1 snapshot exclusivity
check); they are exactly what re-encoding needs to round-trip. -/

def i64P (n : Int) : Prop := -9223372036854775808 ≤ n ∧ n < 9223372036854775808

def i32P (n : Int) : Prop := -2147483648 ≤ n ∧ n < 2147483648

def optP (P : α → Prop) : Option α → Prop
  | none => True
  | some x => P x

def listP (P : α → Prop) (l : List α) : Prop := ∀ x ∈ l, P x

def uuidP (u : List Nat) : Prop := u.length = 32 ∧ ∀ d ∈ u, d < 16

def strMapP (l : List (String × String)) : Prop := (l.map Prod.fst).Nodup

def PrimitiveType.wf : PrimitiveType → Prop
  | .Decimal p s => p ≤ 38 ∧ s < 4294967296
  | .Fixed n => n < 4294967296
  | _ => True

def Transform.wf : Transform → Prop
  | .Bucket n => n < 4294967296
  | .Truncate n => n < 4294967296
  | _ => True

mutual
def wfIceberg : IcebergType → Prop
  | .Primitive p => p.wf
  | .Struct s => wfStructT s
  | .List l => wfListT l
  | .Map m => wfMapT m
def wfStructT : StructType → Prop
  | .mk fields => wfFields fields
def wfFields : List StructField → Prop
  | [] => True
  | f :: fs => wfField f ∧ wfFields fs
def wfField : StructField → Prop
  | .mk id _ _ ft _ _ _ => i32P id ∧ wfIceberg ft
def wfListT : ListType → Prop
  | .mk eid _ el => i32P eid ∧ wfIceberg el
def wfMapT : MapType → Prop
  | .mk kid k vid _ v => i32P kid ∧ wfIceberg k ∧ i32P vid ∧ wfIceberg v
end

def IcebergSchemaV2.wf (s : IcebergSchemaV2) : Prop :=
  i32P s.schema_id ∧ optP (listP i32P) s.identifier_field_ids ∧ wfStructT s.schema

def IcebergSchemaV1.wf (s : IcebergSchemaV1) : Prop :=
  optP i32P s.schema_id ∧ optP (listP i32P) s.identifier_field_ids ∧ wfStructT s.schema

def PartitionField.wf (f : PartitionField) : Prop :=
  i32P f.source_id ∧ i32P f.field_id ∧ f.transform.wf

def PartitionSpec.wf (s : PartitionSpec) : Prop :=
  i32P s.spec_id ∧ listP PartitionField.wf s.fields

def SortField.wf (f : SortField) : Prop := f.transform.wf ∧ i32P f.source_id

def SortOrders.wf (s : SortOrders) : Prop :=
  i32P s.order_id ∧ listP SortField.wf s.fields

def Summary.wf (s : Summary) : Prop :=
  strMapP s.rest ∧ "operation" ∉ s.rest.map Prod.fst

def SnapshotV2.wf (s : SnapshotV2) : Prop :=
  i64P s.snapshot_id ∧ optP i64P s.parent_snapshot_id ∧ i64P s.sequence_number ∧
    i64P s.timestamp_ms ∧ s.summary.wf ∧ optP i32P s.schema_id

def SnapshotV1.wf (s : SnapshotV1) : Prop :=
  i64P s.snapshot_id ∧ optP i64P s.parent_snapshot_id ∧ i64P s.timestamp_ms ∧
    optP Summary.wf s.summary ∧ optP i64P s.schema_id ∧
    ¬(s.manifest_list.isSome ∧ s.manifests.isSome)

def RefType.wf : RefType → Prop
  | .Branch mk ma => optP i32P mk ∧ optP i64P ma
  | .Tag => True

def SnapshotRefV2.wf (r : SnapshotRefV2) : Prop :=
  i64P r.snapshot_id ∧ r.ref_type.wf ∧ optP i64P r.max_ref_age_ms

def refMapP (l : List (String × SnapshotRefV2)) : Prop :=
  (l.map Prod.fst).Nodup ∧ ∀ kv ∈ l, (kv.2).wf

def SnapshotLog.wf (l : SnapshotLog) : Prop := i64P l.snapshot_id ∧ i64P l.timestamp_ms

def MetadataLog.wf (l : MetadataLog) : Prop := i64P l.timestamp_ms

def TableMetadataV2.wf (m : TableMetadataV2) : Prop :=
  i32P m.format_version ∧ uuidP m.table_uuid ∧ i64P m.last_sequence_number ∧
    i64P m.last_updated_ms ∧ i32P m.last_column_id ∧
    listP IcebergSchemaV2.wf m.schemas ∧ i32P m.current_schema_id ∧
    listP PartitionSpec.wf m.partition_specs ∧ i32P m.default_spec_id ∧
    i32P m.last_partition_id ∧ optP strMapP m.properties ∧
    optP i64P m.current_snapshot_id ∧ optP (listP SnapshotV2.wf) m.snapshots ∧
    optP (listP SnapshotLog.wf) m.snapshot_log ∧
    optP (listP MetadataLog.wf) m.metadata_log ∧ listP SortOrders.wf m.sort_orders ∧
    i32P m.default_sort_order_id ∧ optP refMapP m.refs

def TableMetadataV1.wf (m : TableMetadataV1) : Prop :=
  i32P m.format_version ∧ optP uuidP m.table_uuid ∧ i64P m.last_updated_ms ∧
    i32P m.last_column_id ∧ m.schema.wf ∧
    optP (listP IcebergSchemaV1.wf) m.schemas ∧ optP i32P m.current_schema_id ∧
    listP PartitionField.wf m.partition_spec ∧ listP PartitionSpec.wf m.partition_specs ∧
    optP i32P m.default_spec_id ∧ optP i32P m.last_partition_id ∧
    optP strMapP m.properties ∧ optP i64P m.current_snapshot_id ∧
    optP (listP SnapshotV1.wf) m.snapshots ∧ optP (listP SnapshotLog.wf) m.snapshot_log ∧
    optP (listP MetadataLog.wf) m.metadata_log ∧ optP (listP SortOrders.wf) m.sort_orders ∧
    i32P m.default_sort_order_id

def TableMetadata.wf : TableMetadata → Prop
  | .V1 m => m.wf ∧ m.format_version = 1
  | .V2 m => m.wf ∧ m.format_version = 2

/-- A small V2 metadata document with every required field. -/
def sampleDocV2 : Json :=
  .obj [("format-version", .num 2),
    ("table-uuid", .str "9c12d441-03fe-4693-9a96-a0705ddf69c1"),
    ("location", .str "s3://b/t"),
    ("last-sequence-number", .num 34),
    ("last-updated-ms", .num 1602638573590),
    ("last-column-id", .num 3),
    ("schemas", .arr [.obj [("schema-id", .num 0), ("type", .str "struct"),
      ("fields", .arr [])]]),
    ("current-schema-id", .num 0),
    ("partition-specs", .arr [.obj [("spec-id", .num 0), ("fields", .arr [])]]),
    ("default-spec-id", .num 0),
    ("last-partition-id", .num 999),
    ("sort-orders", .arr [.obj [("order-id", .num 0), ("fields", .arr [])]]),
    ("default-sort-order-id", .num 0)]

/-- The model `sampleDocV2` decodes to. -/
def sampleMetaV2 : TableMetadataV2 :=
  ⟨2, [9, 12, 1, 2, 13, 4, 4, 1, 0, 3, 15, 14, 4, 6, 9, 3, 9, 10, 9, 6,
      10, 0, 7, 0, 5, 13, 13, 15, 6, 9, 12, 1],
    "s3://b/t", 34, 1602638573590, 3, [⟨0, none, .mk []⟩], 0, [⟨0, []⟩], 0, 999,
    none, none, none, none, none, [⟨0, []⟩], 0, none, none⟩

/-- A small V1 metadata document with every required field. -/
def sampleDocV1 : Json :=
  .obj [("format-version", .num 1),
    ("location", .str "s3://b/t"),
    ("last-updated-ms", .num 1515100955770),
    ("last-column-id", .num 3),
    ("schema", .obj [("type", .str "struct"), ("fields", .arr [])]),
    ("partition-spec", .arr []),
    ("partition-specs", .arr [.obj [("spec-id", .num 0), ("fields", .arr [])]]),
    ("default-sort-order-id", .num 0)]

/-- The model `sampleDocV1` decodes to. -/
def sampleMetaV1 : TableMetadataV1 :=
  ⟨1, none, "s3://b/t", 1515100955770, 3, ⟨none, none, .mk []⟩, none, none, [],
    [⟨0, []⟩], none, none, none, none, none, none, none, none, 0, none⟩

/-- A V1 snapshot document carrying both keys, `manifests` as null. -/
def snapDocBothOneNull : Json :=
  .obj [("snapshot-id", .num 1), ("timestamp-ms", .num 0),
    ("manifest-list", .str "ml.avro"), ("manifests", .null)]

/-- A V1 snapshot document carrying both keys with non-null values. -/
def snapDocBothNonNull : Json :=
  .obj [("snapshot-id", .num 1), ("timestamp-ms", .num 0),
    ("manifest-list", .str "a"), ("manifests", .arr [.str "b"])]

/-- A snapshot value with only `manifest_list` set. -/
def snapMlOnly : SnapshotV1 := ⟨1, none, 0, some "ml.avro", none, none, none⟩

/-- The field decode of `snapDocBothNonNull`. -/
def snapBothNonNull : SnapshotV1 := ⟨1, none, 0, some "a", some ["b"], none, none⟩

/-- A V2 metadata value whose inner `format_version` field is 7. -/
def metaV2Fv7 : TableMetadataV2 :=
  ⟨7, [], "s3://x", 0, 0, 0, [], 0, [], 0, 0, none, none, none, none, none, [], 0,
    none, none⟩

theorem digitsToNat_append (xs ys : List Char) :
    digitsToNat (xs ++ ys) = ys.foldl (fun acc c => 10 * acc + digitVal c) (digitsToNat xs) := by
  simp [digitsToNat, List.foldl_append]

theorem digitVal_digitChar {n : Nat} (h : n < 10) : digitVal (digitChar n) = n := by
  interval_cases n <;> decide

theorem isDigitChar_digitChar {n : Nat} (h : n < 10) : isDigitChar (digitChar n) = true := by
  interval_cases n <;> decide

theorem natToCharsAux_spec : ∀ fuel n, n < fuel →
    digitsToNat (natToCharsAux fuel n) = n ∧
    natToCharsAux fuel n ≠ [] ∧
    (natToCharsAux fuel n).all isDigitChar = true := by
  intro fuel
  induction fuel with
  | zero => intro n h; omega
  | succ fuel ih =>
    intro n h
    by_cases hn : n < 10
    · simp only [natToCharsAux, if_pos hn]
      refine ⟨?_, by simp, ?_⟩
      · simp [digitsToNat, digitVal_digitChar hn]
      · simp [List.all_cons, isDigitChar_digitChar hn]
    · have hdiv : n / 10 < fuel := by omega
      have := ih (n / 10) hdiv
      simp only [natToCharsAux, if_neg hn]
      refine ⟨?_, by simp, ?_⟩
      · rw [digitsToNat_append]
        simp only [List.foldl_cons, List.foldl_nil]
        rw [this.1, digitVal_digitChar (by omega)]
        omega
      · simp only [List.all_append, this.2.2, Bool.true_and, List.all_cons, List.all_nil,
          Bool.and_true]
        exact isDigitChar_digitChar (by omega)

theorem digitsToNat_natToChars (n : Nat) : digitsToNat (natToChars n) = n :=
  (natToCharsAux_spec (n + 1) n (by omega)).1

theorem natToChars_ne_nil (n : Nat) : natToChars n ≠ [] :=
  (natToCharsAux_spec (n + 1) n (by omega)).2.1

theorem natToChars_all_digits (n : Nat) : (natToChars n).all isDigitChar = true :=
  (natToCharsAux_spec (n + 1) n (by omega)).2.2

theorem ws_not_digit {c : Char} (h : isWsChar c = true) : isDigitChar c = false := by
  simp only [isWsChar, Bool.or_eq_true, beq_iff_eq] at h
  rcases h with ((((h | h) | h) | h) | h) | h <;> subst h <;> decide

theorem digit_not_ws {c : Char} (h : isDigitChar c = true) : isWsChar c = false := by
  by_cases hw : isWsChar c = true
  · rw [ws_not_digit hw] at h; cases h
  · simpa using hw

theorem takeWhile_append_all {p : Char → Bool} :
    ∀ xs ys, (∀ c ∈ xs, p c = true) →
      List.takeWhile p (xs ++ ys) = xs ++ List.takeWhile p ys := by
  intro xs
  induction xs with
  | nil => simp
  | cons x t ih =>
    intro ys h
    simp [List.cons_append, List.takeWhile_cons, h x (by simp), ih ys
      (fun c hc => h c (by simp [hc]))]

theorem dropWhile_append_all {p : Char → Bool} :
    ∀ xs ys, (∀ c ∈ xs, p c = true) →
      List.dropWhile p (xs ++ ys) = List.dropWhile p ys := by
  intro xs
  induction xs with
  | nil => simp
  | cons x t ih =>
    intro ys h
    simp only [List.cons_append, List.dropWhile_cons, h x (by simp),
      ih ys (fun c hc => h c (by simp [hc])), if_true]

theorem takeWhile_nil_of_head {p : Char → Bool} {c : Char} {t : List Char}
    (h : p c = false) : List.takeWhile p (c :: t) = [] := by
  simp [List.takeWhile_cons, h]

theorem dropWhile_id_of_head {p : Char → Bool} {c : Char} {t : List Char}
    (h : p c = false) : List.dropWhile p (c :: t) = c :: t := by
  simp [List.dropWhile_cons, h]

theorem try_fixed_ok {v : String} {t : PrimitiveType}
    (h : try_deserialize_fixed_type v = .ok t) : ∃ n, t = .Fixed n ∧ n < 4294967296 := by
  unfold try_deserialize_fixed_type at h
  split at h
  · split at h
    · split at h
      · cases h; exact ⟨_, rfl, by assumption⟩
      · cases h
    · cases h
  · cases h

theorem try_decimal_ok {v : String} {t : PrimitiveType}
    (h : try_deserialize_decimal_type v = .ok t) :
    ∃ p s, t = .Decimal p s ∧ p ≤ 38 ∧ s < 4294967296 := by
  unfold try_deserialize_decimal_type at h
  split at h
  · split at h
    · split at h
      · split at h
        · cases h
        · split at h
          · cases h; exact ⟨_, _, rfl, by omega, by assumption⟩
          · cases h
      · cases h
    · cases h
  · cases h

theorem try_bucket_ok {v : String} {t : Transform}
    (h : try_deserialize_bucket v = .ok t) : ∃ n, t = .Bucket n ∧ n < 4294967296 := by
  unfold try_deserialize_bucket at h
  split at h
  · split at h
    · split at h
      · cases h; exact ⟨_, rfl, by assumption⟩
      · cases h
    · cases h
  · cases h

theorem try_truncate_ok {v : String} {t : Transform}
    (h : try_deserialize_truncate v = .ok t) : ∃ n, t = .Truncate n ∧ n < 4294967296 := by
  unfold try_deserialize_truncate at h
  split at h
  · split at h
    · split at h
      · cases h; exact ⟨_, rfl, by assumption⟩
      · cases h
    · cases h
  · cases h

/-- Every `Decimal` produced by `PrimitiveType.deserialize` comes from the
decimal parser, hence has precision at most 38. -/
theorem deserialize_decimal_precision {s : String} {p sc : Nat}
    (h : PrimitiveType.deserialize s = .ok (.Decimal p sc)) : p ≤ 38 := by
  unfold PrimitiveType.deserialize at h
  split at h
  · obtain ⟨n, hn, _⟩ := try_fixed_ok h; cases hn
  · split at h
    · obtain ⟨p2, s2, ht, hp, _⟩ := try_decimal_ok h
      cases ht; exact hp
    · split at h <;> cases h

/-- A counterexample input for C5: `decimal(0, 5)` is accepted and produces
a `Decimal` with precision 0, so decoded precisions are not confined to
the interval `[1, 38]`. -/
theorem c5_counterexample_precision_zero :
    PrimitiveType.deserialize "decimal(0, 5)" = .ok (.Decimal 0 5) ∧ ¬ (1 ≤ 0) := by
  exact ⟨by rfl, by omega⟩

/-- C5 (amended): every successful decode of a decimal type yields a
precision at most 38 (precision 0 included), and `decimal(39,0)` is
rejected with the precision domain error. -/
theorem c5_decimal_precision_invariant :
    (∀ s p sc, PrimitiveType.deserialize s = .ok (.Decimal p sc) → p ≤ 38) ∧
    PrimitiveType.deserialize "decimal(39,0)" =
      .error "Wrong decimal precision. Must be < 38: decimal(39,0)" :=
  ⟨fun _ _ _ h => deserialize_decimal_precision h, by rfl⟩

theorem c5_decimal_precision_invariant_witness : (38 : Nat) ≤ 38 :=
  c5_decimal_precision_invariant.1 "decimal(38, 2)" 38 2 (by rfl)

/-- C7: decode after encode is the identity on the listed primitive types
and transforms, and the emitted strings use the canonical spellings:
`decimal(P, S)` with a single space after the comma, and `fixed[N]`,
`bucket[N]`, `truncate[N]` with no spaces. -/
theorem c7_primitive_transform_roundtrip :
    PrimitiveType.deserialize (PrimitiveType.serialize (.Boolean)) = .ok (.Boolean) ∧
    PrimitiveType.deserialize (PrimitiveType.serialize (.Int)) = .ok (.Int) ∧
    PrimitiveType.deserialize (PrimitiveType.serialize (.Long)) = .ok (.Long) ∧
    PrimitiveType.deserialize (PrimitiveType.serialize (.Float)) = .ok (.Float) ∧
    PrimitiveType.deserialize (PrimitiveType.serialize (.Double)) = .ok (.Double) ∧
    PrimitiveType.deserialize (PrimitiveType.serialize (.Date)) = .ok (.Date) ∧
    PrimitiveType.deserialize (PrimitiveType.serialize (.Time)) = .ok (.Time) ∧
    PrimitiveType.deserialize (PrimitiveType.serialize (.Timestamp)) = .ok (.Timestamp) ∧
    PrimitiveType.deserialize (PrimitiveType.serialize (.Timestamptz)) = .ok (.Timestamptz) ∧
    PrimitiveType.deserialize (PrimitiveType.serialize (.String)) = .ok (.String) ∧
    PrimitiveType.deserialize (PrimitiveType.serialize (.Uuid)) = .ok (.Uuid) ∧
    PrimitiveType.deserialize (PrimitiveType.serialize (.Binary)) = .ok (.Binary) ∧
    PrimitiveType.deserialize (PrimitiveType.serialize (.Fixed 1)) = .ok (.Fixed 1) ∧
    PrimitiveType.deserialize (PrimitiveType.serialize (.Fixed 400)) = .ok (.Fixed 400) ∧
    PrimitiveType.deserialize (PrimitiveType.serialize (.Decimal 1 20)) = .ok (.Decimal 1 20) ∧
    PrimitiveType.deserialize (PrimitiveType.serialize (.Decimal 38 2)) = .ok (.Decimal 38 2) ∧
    Transform.deserialize (Transform.serialize (.Identity)) = .ok (.Identity) ∧
    Transform.deserialize (Transform.serialize (.Year)) = .ok (.Year) ∧
    Transform.deserialize (Transform.serialize (.Month)) = .ok (.Month) ∧
    Transform.deserialize (Transform.serialize (.Day)) = .ok (.Day) ∧
    Transform.deserialize (Transform.serialize (.Hour)) = .ok (.Hour) ∧
    Transform.deserialize (Transform.serialize (.Bucket 32)) = .ok (.Bucket 32) ∧
    Transform.deserialize (Transform.serialize (.Truncate 42)) = .ok (.Truncate 42) ∧
    PrimitiveType.serialize (.Decimal 1 20) = "decimal(1, 20)" ∧
    PrimitiveType.serialize (.Decimal 38 2) = "decimal(38, 2)" ∧
    PrimitiveType.serialize (.Fixed 1) = "fixed[1]" ∧
    PrimitiveType.serialize (.Fixed 400) = "fixed[400]" ∧
    Transform.serialize (.Bucket 32) = "bucket[32]" ∧
    Transform.serialize (.Truncate 42) = "truncate[42]" :=
  ⟨by rfl, by rfl, by rfl, by rfl, by rfl, by rfl, by rfl, by rfl, by rfl, by rfl, by rfl, by rfl, by rfl, by rfl, by rfl, by rfl, by rfl, by rfl, by rfl, by rfl, by rfl, by rfl, by rfl, by rfl, by rfl, by rfl, by rfl, by rfl, by rfl⟩

/-- A counterexample input for C9: whitespace between the opening
parenthesis and the precision digits is rejected, so whitespace is not
tolerated at every position between the components of `decimal(P, S)`. -/
theorem c9_counterexample_ws_after_paren :
    PrimitiveType.deserialize "decimal( 5, 2)" =
      .error "Wrong decimal type format: decimal( 5, 2)" := by rfl

/-- C9 (amended): whitespace is tolerated exactly between the precision
digits and the comma and between the comma and the scale digits.  For
arbitrary digit runs `dp`, `ds` and whitespace runs `w1`, `w2`, the input
`decimal(` ++ dp ++ w1 ++ `,` ++ w2 ++ ds ++ `)` decodes to the decimal
type with precision `dp` and scale `ds` (whitespace anywhere else fails,
as the counterexample shows). -/
theorem c9_decimal_whitespace_between_components :
    ∀ (dp ds w1 w2 : List Char),
      dp ≠ [] → (∀ c ∈ dp, isDigitChar c = true) →
      ds ≠ [] → (∀ c ∈ ds, isDigitChar c = true) →
      (∀ c ∈ w1, isWsChar c = true) → (∀ c ∈ w2, isWsChar c = true) →
      digitsToNat dp ≤ 38 → digitsToNat ds < 4294967296 →
      try_deserialize_decimal_type
        ⟨'d' :: 'e' :: 'c' :: 'i' :: 'm' :: 'a' :: 'l' :: '(' ::
          (dp ++ w1 ++ ',' :: (w2 ++ ds ++ [')']))⟩ =
        .ok (.Decimal (digitsToNat dp) (digitsToNat ds)) := by
  intro dp ds w1 w2 hdp hdpd hds hdsd hw1 hw2 hple hslt
  have hargs : decimalArgs (dp ++ w1 ++ ',' :: (w2 ++ ds ++ [')'])) = some (dp, ds) := by
    have htk : List.takeWhile isDigitChar (dp ++ w1 ++ ',' :: (w2 ++ ds ++ [')'])) = dp := by
      rw [List.append_assoc, takeWhile_append_all dp _ hdpd]
      cases hw : w1 with
      | nil =>
        simp only [hw, List.nil_append]
        rw [takeWhile_nil_of_head (by decide)]
        simp
      | cons c t =>
        simp only [hw, List.cons_append]
        rw [takeWhile_nil_of_head (ws_not_digit (hw1 c (by simp [hw])))]
        simp
    have hdr : List.dropWhile isDigitChar (dp ++ w1 ++ ',' :: (w2 ++ ds ++ [')'])) =
        w1 ++ ',' :: (w2 ++ ds ++ [')']) := by
      rw [List.append_assoc, dropWhile_append_all dp _ hdpd]
      cases hw : w1 with
      | nil =>
        simp only [List.nil_append]
        rw [dropWhile_id_of_head (by decide)]
      | cons c t =>
        simp only [List.cons_append]
        rw [dropWhile_id_of_head (ws_not_digit (hw1 c (by simp [hw])))]
    have hcomma : List.dropWhile isWsChar (w1 ++ ',' :: (w2 ++ ds ++ [')'])) =
        ',' :: (w2 ++ ds ++ [')']) := by
      rw [dropWhile_append_all w1 _ hw1, dropWhile_id_of_head (by decide)]
    have hsecond : List.dropWhile isWsChar (w2 ++ ds ++ [')']) = ds ++ [')'] := by
      rw [List.append_assoc, dropWhile_append_all w2 _ hw2]
      cases hd : ds with
      | nil => exact absurd hd hds
      | cons c t =>
        simp only [List.cons_append]
        rw [dropWhile_id_of_head (digit_not_ws (hdsd c (by simp [hd])))]
    have htk2 : List.takeWhile isDigitChar (ds ++ [')']) = ds := by
      rw [takeWhile_append_all ds _ hdsd, takeWhile_nil_of_head (by decide)]
      simp
    have hdr2 : List.dropWhile isDigitChar (ds ++ [')']) = [')'] := by
      rw [dropWhile_append_all ds _ hdsd, dropWhile_id_of_head (by decide)]
    unfold decimalArgs
    simp only [List.span_eq_take_drop, htk, hdr, hcomma, hsecond, htk2, hdr2]
    simp [hdp, hds]
  show try_deserialize_decimal_type ⟨_⟩ = _
  unfold try_deserialize_decimal_type
  simp only [hargs]
  rw [if_pos (by omega), if_neg (by omega), if_pos hslt]

theorem c9_decimal_whitespace_between_components_witness :
    try_deserialize_decimal_type
      ⟨'d' :: 'e' :: 'c' :: 'i' :: 'm' :: 'a' :: 'l' :: '(' ::
        (['3', '8'] ++ [' '] ++ ',' :: ([' ', ' '] ++ ['2'] ++ [')']))⟩ =
      .ok (.Decimal 38 2) :=
  c9_decimal_whitespace_between_components ['3', '8'] ['2'] [' '] [' ', ' ']
    (by decide) (by decide) (by decide) (by decide) (by decide) (by decide)
    (by decide) (by decide)

theorem try_fixed_error_names_input {v : String} {e : String}
    (h : try_deserialize_fixed_type v = .error e) : ∃ m, e = m ++ v := by
  unfold try_deserialize_fixed_type at h
  split at h
  · split at h
    · split at h
      · cases h
      · cases h; exact ⟨_, rfl⟩
    · cases h; exact ⟨_, rfl⟩
  · cases h; exact ⟨_, rfl⟩

theorem try_decimal_error_names_input {v : String} {e : String}
    (h : try_deserialize_decimal_type v = .error e) : ∃ m, e = m ++ v := by
  unfold try_deserialize_decimal_type at h
  split at h
  · split at h
    · split at h
      · split at h
        · cases h; exact ⟨_, rfl⟩
        · split at h
          · cases h
          · cases h; exact ⟨_, rfl⟩
      · cases h; exact ⟨_, rfl⟩
    · cases h; exact ⟨_, rfl⟩
  · cases h; exact ⟨_, rfl⟩

theorem try_bucket_error_names_input {v : String} {e : String}
    (h : try_deserialize_bucket v = .error e) : ∃ m, e = m ++ v := by
  unfold try_deserialize_bucket at h
  split at h
  · split at h
    · split at h
      · cases h
      · cases h; exact ⟨_, rfl⟩
    · cases h; exact ⟨_, rfl⟩
  · cases h; exact ⟨_, rfl⟩

theorem try_truncate_error_names_input {v : String} {e : String}
    (h : try_deserialize_truncate v = .error e) : ∃ m, e = m ++ v := by
  unfold try_deserialize_truncate at h
  split at h
  · split at h
    · split at h
      · cases h
      · cases h; exact ⟨_, rfl⟩
    · cases h; exact ⟨_, rfl⟩
  · cases h; exact ⟨_, rfl⟩

/-- C10: the parametric parsers reject deviating inputs — in particular the
five listed ones — and every error message of the four parsers ends with
the offending input. -/
theorem c10_parametric_rejections :
    PrimitiveType.deserialize "fixed(1)" = .error "Wrong fixed type format: fixed(1)" ∧
    PrimitiveType.deserialize "fixed[a]" = .error "Wrong fixed type format: fixed[a]" ∧
    Transform.deserialize "bucket(1)" = .error "Wrong bucket format: bucket(1)" ∧
    Transform.deserialize "truncate[a1]" = .error "Wrong truncate format: truncate[a1]" ∧
    PrimitiveType.deserialize "decimal[40,2]" =
      .error "Wrong decimal type format: decimal[40,2]" ∧
    (∀ v e, try_deserialize_fixed_type v = .error e → ∃ m, e = m ++ v) ∧
    (∀ v e, try_deserialize_decimal_type v = .error e → ∃ m, e = m ++ v) ∧
    (∀ v e, try_deserialize_bucket v = .error e → ∃ m, e = m ++ v) ∧
    (∀ v e, try_deserialize_truncate v = .error e → ∃ m, e = m ++ v) :=
  ⟨by rfl, by rfl, by rfl, by rfl, by rfl,
    fun _ _ h => try_fixed_error_names_input h,
    fun _ _ h => try_decimal_error_names_input h,
    fun _ _ h => try_bucket_error_names_input h,
    fun _ _ h => try_truncate_error_names_input h⟩

theorem c10_parametric_rejections_witness :
    ∃ m, "Wrong fixed type format: fixed(1)" = m ++ "fixed(1)" :=
  c10_parametric_rejections.2.2.2.2.2.1 "fixed(1)" _ (by rfl)

theorem bindE_eq_ok {α β : Type} {x : Except String α} {f : α → Except String β} {b : β} :
    (x >>= f) = .ok b ↔ ∃ a, x = .ok a ∧ f a = .ok b := by
  cases x <;> simp [Bind.bind, Except.bind]

theorem fromRecord_inv {fs : List (String × AvroValue)} {m : ManifestListV2}
    (h : ManifestListV2.fromRecord fs = .ok m) :
    reqF fs "manifest_path" avroStr = .ok m.manifest_path ∧
    reqF fs "manifest_length" avroLong = .ok m.manifest_length ∧
    reqF fs "partition_spec_id" avroInt = .ok m.partition_spec_id ∧
    defF fs ["content"] FileType.fromAvro .Data = .ok m.content ∧
    defF fs ["sequence_number"] avroLong 0 = .ok m.sequence_number ∧
    defF fs ["min_sequence_number"] avroLong 0 = .ok m.min_sequence_number ∧
    reqF fs "added_snapshot_id" avroLong = .ok m.added_snapshot_id ∧
    defF fs ["added_files_count", "added_data_files_count"] avroInt 0 =
      .ok m.added_files_count ∧
    defF fs ["existing_files_count", "existing_data_files_count"] avroInt 0 =
      .ok m.existing_files_count ∧
    defF fs ["deleted_files_count", "deleted_data_files_count"] avroInt 0 =
      .ok m.deleted_files_count ∧
    defF fs ["added_rows_count"] avroLong 0 = .ok m.added_rows_count ∧
    defF fs ["existing_rows_count"] avroLong 0 = .ok m.existing_rows_count ∧
    defF fs ["deleted_rows_count"] avroLong 0 = .ok m.deleted_rows_count ∧
    defF fs ["partitions"] (avroOpt avroFieldSummaries) none = .ok m.partitions ∧
    defF fs ["key_metadata"] (avroOpt avroBytes) none = .ok m.key_metadata := by
  unfold ManifestListV2.fromRecord at h
  simp only [bindE_eq_ok] at h
  obtain ⟨path, h1, h⟩ := h
  obtain ⟨len, h2, h⟩ := h
  obtain ⟨psid, h3, h⟩ := h
  obtain ⟨content, h4, h⟩ := h
  obtain ⟨seq, h5, h⟩ := h
  obtain ⟨mseq, h6, h⟩ := h
  obtain ⟨asid, h7, h⟩ := h
  obtain ⟨afc, h8, h⟩ := h
  obtain ⟨efc, h9, h⟩ := h
  obtain ⟨dfc, h10, h⟩ := h
  obtain ⟨arc, h11, h⟩ := h
  obtain ⟨erc, h12, h⟩ := h
  obtain ⟨drc, h13, h⟩ := h
  obtain ⟨parts, h14, h⟩ := h
  obtain ⟨km, h15, h⟩ := h
  cases h
  exact ⟨h1, h2, h3, h4, h5, h6, h7, h8, h9, h10, h11, h12, h13, h14, h15⟩

theorem defF_none {names : List String} {f : AvroValue → Except String α} {d : α} {b : α}
    {fs : List (String × AvroValue)} (hn : findField fs names = none)
    (h : defF fs names f d = .ok b) : b = d := by
  unfold defF at h
  rw [hn] at h
  cases h
  rfl

theorem defF_some {names : List String} {f : AvroValue → Except String α} {d : α} {b : α}
    {v : AvroValue} {fs : List (String × AvroValue)} (hv : findField fs names = some v)
    (h : defF fs names f d = .ok b) : f v = .ok b := by
  unfold defF at h
  rw [hv] at h
  exact h

/-- A counterexample record for C3: a V1 record (no `content`,
`sequence_number` or `min_sequence_number` field) whose optional
`added_files_count` carries the null union branch is rejected by the V2
record decoder instead of decoding; a present-but-null counter is
neither defaulted nor read back. -/
theorem c3_counterexample_null_counter :
    ManifestListV2.fromRecord
      [("manifest_path", .str "m0.avro"), ("manifest_length", .long 7827),
        ("partition_spec_id", .int 0), ("added_snapshot_id", .long 9164160847201777787),
        ("added_files_count", .null)] =
      .error "invalid type: expected int" := by rfl

/-- C3 (amended): whenever the V2 record decoder succeeds, fields absent
from the record take their defaults — `content = Data`,
`sequence_number = 0`, `min_sequence_number = 0`, all six counters 0 —
and fields present with values of the schema types decode to the
recorded values (null-valued optional counters are instead rejected, as
the counterexample shows). -/
theorem c3_v1_record_ingest :
    ∀ fs m, ManifestListV2.fromRecord fs = .ok m →
      (findField fs ["content"] = none → m.content = .Data) ∧
      (findField fs ["sequence_number"] = none → m.sequence_number = 0) ∧
      (findField fs ["min_sequence_number"] = none → m.min_sequence_number = 0) ∧
      (findField fs ["added_files_count", "added_data_files_count"] = none →
        m.added_files_count = 0) ∧
      (findField fs ["existing_files_count", "existing_data_files_count"] = none →
        m.existing_files_count = 0) ∧
      (findField fs ["deleted_files_count", "deleted_data_files_count"] = none →
        m.deleted_files_count = 0) ∧
      (findField fs ["added_rows_count"] = none → m.added_rows_count = 0) ∧
      (findField fs ["existing_rows_count"] = none → m.existing_rows_count = 0) ∧
      (findField fs ["deleted_rows_count"] = none → m.deleted_rows_count = 0) ∧
      (findField fs ["partitions"] = none → m.partitions = none) ∧
      (findField fs ["key_metadata"] = none → m.key_metadata = none) ∧
      (∀ s, findField fs ["manifest_path"] = some (.str s) → m.manifest_path = s) ∧
      (∀ n, findField fs ["manifest_length"] = some (.long n) → m.manifest_length = n) ∧
      (∀ n, findField fs ["partition_spec_id"] = some (.int n) → m.partition_spec_id = n) ∧
      (findField fs ["content"] = some (.int 0) → m.content = .Data) ∧
      (findField fs ["content"] = some (.int 1) → m.content = .Delete) ∧
      (∀ n, findField fs ["sequence_number"] = some (.long n) → m.sequence_number = n) ∧
      (∀ n, findField fs ["min_sequence_number"] = some (.long n) →
        m.min_sequence_number = n) ∧
      (∀ n, findField fs ["added_snapshot_id"] = some (.long n) → m.added_snapshot_id = n) ∧
      (∀ n, findField fs ["added_files_count", "added_data_files_count"] = some (.int n) →
        m.added_files_count = n) ∧
      (∀ n, findField fs ["existing_files_count", "existing_data_files_count"] =
          some (.int n) → m.existing_files_count = n) ∧
      (∀ n, findField fs ["deleted_files_count", "deleted_data_files_count"] =
          some (.int n) → m.deleted_files_count = n) ∧
      (∀ n, findField fs ["added_rows_count"] = some (.long n) → m.added_rows_count = n) ∧
      (∀ n, findField fs ["existing_rows_count"] = some (.long n) →
        m.existing_rows_count = n) ∧
      (∀ n, findField fs ["deleted_rows_count"] = some (.long n) →
        m.deleted_rows_count = n) := by
  intro fs m h
  obtain ⟨h1, h2, h3, h4, h5, h6, h7, h8, h9, h10, h11, h12, h13, h14, h15⟩ :=
    fromRecord_inv h
  refine ⟨?_, ?_, ?_, ?_, ?_, ?_, ?_, ?_, ?_, ?_, ?_, ?_, ?_, ?_, ?_, ?_, ?_, ?_, ?_,
    ?_, ?_, ?_, ?_, ?_, ?_⟩
  · intro hn; exact defF_none hn h4
  · intro hn; exact defF_none hn h5
  · intro hn; exact defF_none hn h6
  · intro hn; exact defF_none hn h8
  · intro hn; exact defF_none hn h9
  · intro hn; exact defF_none hn h10
  · intro hn; exact defF_none hn h11
  · intro hn; exact defF_none hn h12
  · intro hn; exact defF_none hn h13
  · intro hn; exact defF_none hn h14
  · intro hn; exact defF_none hn h15
  · intro s hv; unfold reqF at h1; rw [hv] at h1; cases h1; rfl
  · intro n hv; unfold reqF at h2; rw [hv] at h2; cases h2; rfl
  · intro n hv; unfold reqF at h3; rw [hv] at h3; cases h3; rfl
  · intro hv; have := defF_some hv h4; simp [FileType.fromAvro] at this; exact this.symm
  · intro hv; have := defF_some hv h4; simp [FileType.fromAvro] at this; exact this.symm
  · intro n hv; have := defF_some hv h5; cases this; rfl
  · intro n hv; have := defF_some hv h6; cases this; rfl
  · intro n hv; unfold reqF at h7; rw [hv] at h7; cases h7; rfl
  · intro n hv; have := defF_some hv h8; cases this; rfl
  · intro n hv; have := defF_some hv h9; cases this; rfl
  · intro n hv; have := defF_some hv h10; cases this; rfl
  · intro n hv; have := defF_some hv h11; cases this; rfl
  · intro n hv; have := defF_some hv h12; cases this; rfl
  · intro n hv; have := defF_some hv h13; cases this; rfl

theorem c3_v1_record_ingest_witness :
    ManifestListV2.fromRecord v1_record_example = .ok v1_record_example_decoded ∧
    v1_record_example_decoded.content = .Data ∧
    v1_record_example_decoded.sequence_number = 0 ∧
    v1_record_example_decoded.min_sequence_number = 0 ∧
    v1_record_example_decoded.added_files_count = 2 ∧
    v1_record_example_decoded.existing_files_count = 0 ∧
    v1_record_example_decoded.added_rows_count = 0 := by
  have hdec : ManifestListV2.fromRecord v1_record_example = .ok v1_record_example_decoded := by
    rfl
  have h := c3_v1_record_ingest v1_record_example v1_record_example_decoded hdec
  refine ⟨hdec, h.1 (by rfl), h.2.1 (by rfl), h.2.2.1 (by rfl), ?_, h.2.2.2.2.1 (by rfl),
    h.2.2.2.2.2.2.1 (by rfl)⟩
  exact h.2.2.2.2.2.2.2.2.2.2.2.2.2.2.2.2.2.2.2.1 2 (by rfl)

theorem findField_swap {x y : String} {v : AvroValue} {N : List String}
    (hxy : N.contains x = N.contains y) :
    ∀ A B, findField (A ++ (x, v) :: B) N = findField (A ++ (y, v) :: B) N := by
  intro A B
  induction A with
  | nil =>
    simp only [List.nil_append, findField, List.find?, hxy]
    cases hcy : N.contains y <;> simp
  | cons a t ih =>
    simp only [List.cons_append, findField, List.find?] at ih ⊢
    cases hpa : N.contains a.1
    · simpa [hpa] using ih
    · simp [hpa]

theorem fromRecord_congr {fs fs' : List (String × AvroValue)}
    (h : ∀ N ∈ mlFieldNames, findField fs N = findField fs' N) :
    ManifestListV2.fromRecord fs = ManifestListV2.fromRecord fs' := by
  unfold ManifestListV2.fromRecord
  simp only [reqF, defF]
  rw [h ["manifest_path"] (by simp [mlFieldNames]),
    h ["manifest_length"] (by simp [mlFieldNames]),
    h ["partition_spec_id"] (by simp [mlFieldNames]),
    h ["content"] (by simp [mlFieldNames]),
    h ["sequence_number"] (by simp [mlFieldNames]),
    h ["min_sequence_number"] (by simp [mlFieldNames]),
    h ["added_snapshot_id"] (by simp [mlFieldNames]),
    h ["added_files_count", "added_data_files_count"] (by simp [mlFieldNames]),
    h ["existing_files_count", "existing_data_files_count"] (by simp [mlFieldNames]),
    h ["deleted_files_count", "deleted_data_files_count"] (by simp [mlFieldNames]),
    h ["added_rows_count"] (by simp [mlFieldNames]),
    h ["existing_rows_count"] (by simp [mlFieldNames]),
    h ["deleted_rows_count"] (by simp [mlFieldNames]),
    h ["partitions"] (by simp [mlFieldNames]),
    h ["key_metadata"] (by simp [mlFieldNames])]

theorem alias_swap_decodes_equal {x y : String} (v : AvroValue)
    (hswap : ∀ N ∈ mlFieldNames, N.contains x = N.contains y) :
    ∀ A B, ManifestListV2.fromRecord (A ++ (x, v) :: B) =
      ManifestListV2.fromRecord (A ++ (y, v) :: B) := by
  intro A B
  exact fromRecord_congr fun N hN => findField_swap (hswap N hN) A B

/-- C8: each `_data_` alias spelling decodes exactly as the canonical
spelling with the same value, for arbitrary surrounding record fields,
and serialization emits the canonical field names only. -/
theorem c8_alias_fields :
    (∀ v A B, ManifestListV2.fromRecord (A ++ ("added_data_files_count", v) :: B) =
      ManifestListV2.fromRecord (A ++ ("added_files_count", v) :: B)) ∧
    (∀ v A B, ManifestListV2.fromRecord (A ++ ("existing_data_files_count", v) :: B) =
      ManifestListV2.fromRecord (A ++ ("existing_files_count", v) :: B)) ∧
    (∀ v A B, ManifestListV2.fromRecord (A ++ ("deleted_data_files_count", v) :: B) =
      ManifestListV2.fromRecord (A ++ ("deleted_files_count", v) :: B)) ∧
    (∀ m : ManifestListV2, (ManifestListV2.serializeEntries m).map Prod.fst =
      ["manifest_path", "manifest_length", "partition_spec_id", "content",
        "sequence_number", "min_sequence_number", "added_snapshot_id",
        "added_files_count", "existing_files_count", "deleted_files_count",
        "added_rows_count", "existing_rows_count", "deleted_rows_count",
        "partitions", "key_metadata"]) :=
  ⟨fun v A B => alias_swap_decodes_equal v (by decide) A B,
    fun v A B => alias_swap_decodes_equal v (by decide) A B,
    fun v A B => alias_swap_decodes_equal v (by decide) A B,
    fun _ => rfl⟩

theorem bindE_ok (a : α) (f : α → Except String β) : (Except.ok a >>= f) = f a := rfl

theorem bindE_err (e : String) (f : α → Except String β) :
    ((Except.error e : Except String α) >>= f) = .error e := rfl

theorem mapE_ok (f : α → β) (a : α) : (Except.ok a : Except String α).map f = .ok (f a) := rfl

theorem lookupLast_not_mem : ∀ {kvs : List (String × Json)} {k : String},
    k ∉ kvs.map Prod.fst → lookupLast kvs k = none := by
  intro kvs
  induction kvs with
  | nil => intro k _; rfl
  | cons kv rest ih =>
    intro k h
    simp only [List.map_cons, List.mem_cons] at h
    push_neg at h
    unfold lookupLast
    rw [ih h.2, if_neg (fun hc => h.1 hc.symm)]

theorem mem_keys_dedupKeys : ∀ {l : List (String × Json)} {k : String},
    k ∈ (dedupKeys l).map Prod.fst → k ∈ l.map Prod.fst := by
  intro l
  induction l with
  | nil => intro k h; exact h
  | cons kv rest ih =>
    intro k h
    unfold dedupKeys at h
    split at h
    · exact List.mem_cons_of_mem _ (ih h)
    · simp only [List.map_cons, List.mem_cons] at h ⊢
      rcases h with h | h
      · exact Or.inl h
      · exact Or.inr (ih h)

theorem dedupKeys_nodup : ∀ (l : List (String × Json)), ((dedupKeys l).map Prod.fst).Nodup := by
  intro l
  induction l with
  | nil => exact List.nodup_nil
  | cons kv rest ih =>
    unfold dedupKeys
    split
    · exact ih
    · rename_i hany
      simp only [List.map_cons, List.nodup_cons]
      refine ⟨fun hmem => ?_, ih⟩
      have : kv.1 ∈ rest.map Prod.fst := mem_keys_dedupKeys hmem
      obtain ⟨p, hp, hpk⟩ := List.mem_map.mp this
      exact hany (List.any_eq_true.mpr ⟨p, hp, by simp [hpk]⟩)

theorem dedupKeys_self : ∀ {l : List (String × Json)},
    (l.map Prod.fst).Nodup → dedupKeys l = l := by
  intro l
  induction l with
  | nil => intro _; rfl
  | cons kv rest ih =>
    intro h
    simp only [List.map_cons, List.nodup_cons] at h
    unfold dedupKeys
    rw [if_neg, ih h.2]
    simp only [List.any_eq_true, not_exists, not_and, Bool.not_eq_true]
    intro p hp
    simp only [beq_eq_false_iff_ne, ne_eq]
    intro hc
    exact h.1 (hc ▸ List.mem_map_of_mem Prod.fst hp)

theorem dedupKeys_idem (l : List (String × Json)) : dedupKeys (dedupKeys l) = dedupKeys l :=
  dedupKeys_self (dedupKeys_nodup l)

theorem mapME_map_enc {f : Json → Except String α} {enc : α → Json} :
    ∀ {xs : List α}, (∀ x ∈ xs, f (enc x) = .ok x) → mapME f (xs.map enc) = .ok xs := by
  intro xs
  induction xs with
  | nil => intro _; rfl
  | cons x t ih =>
    intro h
    simp only [List.map_cons, mapME, h x (by simp), bindE_ok, ih fun y hy => h y (by simp [hy])]

theorem mapME_encodeFields {f : Json → Except String StructField} :
    ∀ {fs : List StructField}, (∀ x ∈ fs, f (encodeStructField x) = .ok x) →
      mapME f (encodeFields fs) = .ok fs := by
  intro fs
  induction fs with
  | nil => intro _; rfl
  | cons x t ih =>
    intro h
    simp only [encodeFields, mapME, h x (by simp), bindE_ok, ih fun y hy => h y (by simp [hy])]

theorem mapMStr_enc : ∀ (l : List (String × String)),
    mapMStr (l.map fun kv => (kv.1, Json.str kv.2)) = .ok l := by
  intro l
  induction l with
  | nil => rfl
  | cons kv t ih => simp only [List.map_cons, mapMStr, jStr, bindE_ok, ih]

theorem mapMKV_enc {f : Json → Except String α} {enc : α → Json} :
    ∀ {l : List (String × α)}, (∀ kv ∈ l, f (enc kv.2) = .ok kv.2) →
      mapMKV f (l.map fun kv => (kv.1, enc kv.2)) = .ok l := by
  intro l
  induction l with
  | nil => intro _; rfl
  | cons kv t ih =>
    intro h
    simp only [List.map_cons, mapMKV, h kv (by simp), bindE_ok,
      ih fun y hy => h y (by simp [hy])]

theorem jOpt_not_null {f : Json → Except String α} {v : Json} (h : v ≠ Json.null) :
    jOpt f v = (f v).map some := by
  cases v <;> first | exact absurd rfl h | rfl

theorem jOpt_encOpt {f : Json → Except String α} {enc : α → Json}
    (hnn : ∀ x, enc x ≠ Json.null) {o : Option α} (h : ∀ x ∈ o, f (enc x) = .ok x) :
    jOpt f (encOpt enc o) = .ok o := by
  cases o with
  | none => rfl
  | some x =>
    rw [show encOpt enc (some x) = enc x from rfl, jOpt_not_null (hnn x), h x (by rfl)]
    rfl

theorem jStrMap_enc {l : List (String × String)} (h : strMapP l) :
    jStrMap (encStrMap l) = .ok l := by
  show mapMStr (dedupKeys (dedupKeys (l.map fun kv => (kv.1, Json.str kv.2)))) = .ok l
  rw [dedupKeys_idem, dedupKeys_self (by simpa [List.map_map, Function.comp] using h)]
  exact mapMStr_enc l

theorem jMapOf_enc {f : Json → Except String α} {enc : α → Json} {l : List (String × α)}
    (hkeys : (l.map Prod.fst).Nodup) (h : ∀ kv ∈ l, f (enc kv.2) = .ok kv.2) :
    jMapOf f (Json.mkObj (l.map fun kv => (kv.1, enc kv.2))) = .ok l := by
  show mapMKV f (dedupKeys (dedupKeys (l.map fun kv => (kv.1, enc kv.2)))) = .ok l
  rw [dedupKeys_idem, dedupKeys_self (by simpa [List.map_map, Function.comp] using hkeys)]
  exact mapMKV_enc h

theorem Operation_roundtrip : ∀ o : Operation,
    Operation.deserialize (Operation.serialize o) = .ok o := by
  intro o; cases o <;> rfl

theorem Direction_roundtrip : ∀ d : Direction,
    Direction.deserialize (Direction.serialize d) = .ok d := by
  intro d; cases d <;> rfl

theorem NullOrder_roundtrip : ∀ n : NullOrder,
    NullOrder.deserialize (NullOrder.serialize n) = .ok n := by
  intro n; cases n <;> rfl

theorem natToChars_mem_digits {n : Nat} {c : Char} (h : c ∈ natToChars n) :
    isDigitChar c = true :=
  List.all_eq_true.mp (natToChars_all_digits n) c h

theorem isEmpty_natToChars (n : Nat) : (natToChars n).isEmpty = false := by
  cases h : natToChars n with
  | nil => exact absurd h (natToChars_ne_nil n)
  | cons c t => rfl

theorem bracketDigits_natToChars (n : Nat) :
    bracketDigits (natToChars n ++ [']']) = some (natToChars n) := by
  have h1 : List.takeWhile isDigitChar (natToChars n ++ [']']) = natToChars n := by
    rw [takeWhile_append_all _ _ fun c hc => natToChars_mem_digits hc,
      takeWhile_nil_of_head (by decide : isDigitChar ']' = false), List.append_nil]
  have h2 : List.dropWhile isDigitChar (natToChars n ++ [']']) = [']'] := by
    rw [dropWhile_append_all _ _ fun c hc => natToChars_mem_digits hc,
      dropWhile_id_of_head (by decide : isDigitChar ']' = false)]
  unfold bracketDigits
  simp only [List.span_eq_take_drop, h1, h2, isEmpty_natToChars, Bool.false_eq_true, if_false]

theorem try_bucket_natToString {n : Nat} (h : n < 4294967296) :
    try_deserialize_bucket ("bucket[" ++ natToString n ++ "]") = .ok (.Bucket n) := by
  show (match bracketDigits (natToChars n ++ [']']) with
    | some ds =>
        if digitsToNat ds < 4294967296 then Except.ok (Transform.Bucket (digitsToNat ds))
        else Except.error ("Invalid bucket number: " ++ ("bucket[" ++ natToString n ++ "]"))
    | none =>
        Except.error ("Wrong bucket format: " ++ ("bucket[" ++ natToString n ++ "]"))) =
    Except.ok (Transform.Bucket n)
  rw [bracketDigits_natToChars n]
  simp only [digitsToNat_natToChars n, if_pos h]

theorem try_truncate_natToString {n : Nat} (h : n < 4294967296) :
    try_deserialize_truncate ("truncate[" ++ natToString n ++ "]") = .ok (.Truncate n) := by
  show (match bracketDigits (natToChars n ++ [']']) with
    | some ds =>
        if digitsToNat ds < 4294967296 then Except.ok (Transform.Truncate (digitsToNat ds))
        else Except.error ("Invalid truncate number: " ++ ("truncate[" ++ natToString n ++ "]"))
    | none =>
        Except.error ("Wrong truncate format: " ++ ("truncate[" ++ natToString n ++ "]"))) =
    Except.ok (Transform.Truncate n)
  rw [bracketDigits_natToChars n]
  simp only [digitsToNat_natToChars n, if_pos h]

theorem try_fixed_natToString {n : Nat} (h : n < 4294967296) :
    try_deserialize_fixed_type ("fixed[" ++ natToString n ++ "]") = .ok (.Fixed n) := by
  show (match bracketDigits (natToChars n ++ [']']) with
    | some ds =>
        if digitsToNat ds < 4294967296 then Except.ok (PrimitiveType.Fixed (digitsToNat ds))
        else Except.error ("Invalid fixed type length: " ++ ("fixed[" ++ natToString n ++ "]"))
    | none =>
        Except.error ("Wrong fixed type format: " ++ ("fixed[" ++ natToString n ++ "]"))) =
    Except.ok (PrimitiveType.Fixed n)
  rw [bracketDigits_natToChars n]
  simp only [digitsToNat_natToChars n, if_pos h]

theorem decimalArgs_natToString (p s : Nat) :
    decimalArgs (natToChars p ++ ',' :: ' ' :: (natToChars s ++ [')'])) =
      some (natToChars p, natToChars s) := by
  have h1 : List.takeWhile isDigitChar (natToChars p ++ ',' :: ' ' :: (natToChars s ++ [')'])) =
      natToChars p := by
    rw [takeWhile_append_all _ _ fun c hc => natToChars_mem_digits hc,
      takeWhile_nil_of_head (by decide : isDigitChar ',' = false), List.append_nil]
  have h2 : List.dropWhile isDigitChar (natToChars p ++ ',' :: ' ' :: (natToChars s ++ [')'])) =
      ',' :: ' ' :: (natToChars s ++ [')']) := by
    rw [dropWhile_append_all _ _ fun c hc => natToChars_mem_digits hc,
      dropWhile_id_of_head (by decide : isDigitChar ',' = false)]
  have h3 : List.dropWhile isWsChar (',' :: ' ' :: (natToChars s ++ [')'])) =
      ',' :: ' ' :: (natToChars s ++ [')']) :=
    dropWhile_id_of_head (by decide : isWsChar ',' = false)
  have h4 : List.dropWhile isWsChar (' ' :: (natToChars s ++ [')'])) =
      natToChars s ++ [')'] := by
    rw [List.dropWhile_cons]
    simp only [show isWsChar ' ' = true by decide, if_true]
    cases hns : natToChars s with
    | nil => exact absurd hns (natToChars_ne_nil s)
    | cons c t =>
      simp only [List.cons_append]
      exact dropWhile_id_of_head (digit_not_ws (natToChars_mem_digits
        (by rw [hns]; exact List.mem_cons_self c t)))
  have h5 : List.takeWhile isDigitChar (natToChars s ++ [')']) = natToChars s := by
    rw [takeWhile_append_all _ _ fun c hc => natToChars_mem_digits hc,
      takeWhile_nil_of_head (by decide : isDigitChar ')' = false), List.append_nil]
  have h6 : List.dropWhile isDigitChar (natToChars s ++ [')']) = [')'] := by
    rw [dropWhile_append_all _ _ fun c hc => natToChars_mem_digits hc,
      dropWhile_id_of_head (by decide : isDigitChar ')' = false)]
  unfold decimalArgs
  simp only [List.span_eq_take_drop, h1, h2, h3, h4, h5, h6, isEmpty_natToChars,
    Bool.false_eq_true, if_false]

theorem try_decimal_natToString {p s : Nat} (hp : p ≤ 38) (hs : s < 4294967296) :
    try_deserialize_decimal_type ("decimal(" ++ natToString p ++ ", " ++ natToString s ++ ")") =
      .ok (.Decimal p s) := by
  have hdata : ("decimal(" ++ natToString p ++ ", " ++ natToString s ++ ")").data =
      'd' :: 'e' :: 'c' :: 'i' :: 'm' :: 'a' :: 'l' :: '(' ::
        (natToChars p ++ ',' :: ' ' :: (natToChars s ++ [')'])) := by
    simp [String.data_append, natToString, List.append_assoc]
  unfold try_deserialize_decimal_type
  rw [hdata]
  simp only [decimalArgs_natToString p s, digitsToNat_natToChars]
  rw [if_pos (by omega), if_neg (by omega), if_pos hs]

theorem Transform_roundtrip : ∀ {t : Transform}, t.wf →
    Transform.deserialize (Transform.serialize t) = .ok t := by
  intro t h
  cases t with
  | Identity => rfl
  | Year => rfl
  | Month => rfl
  | Day => rfl
  | Hour => rfl
  | Bucket n =>
    show try_deserialize_bucket ("bucket[" ++ natToString n ++ "]") = .ok (.Bucket n)
    exact try_bucket_natToString h
  | Truncate n =>
    show try_deserialize_truncate ("truncate[" ++ natToString n ++ "]") = .ok (.Truncate n)
    exact try_truncate_natToString h

theorem PrimitiveType_roundtrip : ∀ {p : PrimitiveType}, p.wf →
    PrimitiveType.deserialize (PrimitiveType.serialize p) = .ok p := by
  intro p h
  cases p with
  | Boolean => rfl
  | Int => rfl
  | Long => rfl
  | Float => rfl
  | Double => rfl
  | Date => rfl
  | Time => rfl
  | Timestamp => rfl
  | Timestamptz => rfl
  | String => rfl
  | Uuid => rfl
  | Binary => rfl
  | Fixed n =>
    show try_deserialize_fixed_type ("fixed[" ++ natToString n ++ "]") = .ok (.Fixed n)
    exact try_fixed_natToString h
  | Decimal p s =>
    show try_deserialize_decimal_type
        ("decimal(" ++ natToString p ++ ", " ++ natToString s ++ ")") = .ok (.Decimal p s)
    exact try_decimal_natToString h.1 h.2

theorem jI64_num {n : Int} (h : i64P n) : jI64 (.num n) = .ok n := by
  unfold jI64; exact if_pos h

theorem jI32_num {n : Int} (h : i32P n) : jI32 (.num n) = .ok n := by
  unfold jI32; exact if_pos h

theorem jStr_str (s : String) : jStr (.str s) = .ok s := rfl

theorem jBool_bool (b : Bool) : jBool (.bool b) = .ok b := rfl

theorem jTransform_enc {t : Transform} (h : t.wf) :
    jTransform (.str t.serialize) = .ok t := Transform_roundtrip h

theorem SnapshotLog_roundtrip {l : SnapshotLog} (h : l.wf) :
    SnapshotLog.deserialize (SnapshotLog.serialize l) = .ok l := by
  obtain ⟨h1, h2⟩ := h
  show (jI64 (.num l.snapshot_id) >>= fun sid =>
      jI64 (.num l.timestamp_ms) >>= fun ts =>
        Except.ok (⟨sid, ts⟩ : SnapshotLog)) = .ok l
  rw [jI64_num h1, bindE_ok, jI64_num h2, bindE_ok]

theorem MetadataLog_roundtrip {l : MetadataLog} (h : l.wf) :
    MetadataLog.deserialize (MetadataLog.serialize l) = .ok l := by
  show (jStr (.str l.metadata_file) >>= fun mf =>
      jI64 (.num l.timestamp_ms) >>= fun ts =>
        Except.ok (⟨mf, ts⟩ : MetadataLog)) = .ok l
  rw [jStr_str, bindE_ok, jI64_num h, bindE_ok]

theorem optP_mem {P : α → Prop} {o : Option α} (h : optP P o) : ∀ x ∈ o, P x := by
  cases o with
  | none => intro x hx; cases hx
  | some y => intro x hx; cases hx; exact h

theorem num_ne_null (n : Int) : Json.num n ≠ Json.null := fun h => Json.noConfusion h

theorem str_ne_null (s : String) : Json.str s ≠ Json.null := fun h => Json.noConfusion h

theorem arr_ne_null (xs : List Json) : Json.arr xs ≠ Json.null := fun h => Json.noConfusion h

theorem obj_ne_null (kvs : List (String × Json)) : Json.obj kvs ≠ Json.null :=
  fun h => Json.noConfusion h

theorem mkObj_ne_null (kvs : List (String × Json)) : Json.mkObj kvs ≠ Json.null :=
  obj_ne_null _

theorem lookupLast_cons_head {kvs : List (String × Json)} {k : String} {v : Json}
    (h : k ∉ kvs.map Prod.fst) : lookupLast ((k, v) :: kvs) k = some v := by
  unfold lookupLast
  rw [lookupLast_not_mem h]
  simp

theorem getJ_found {kvs : List (String × Json)} {k : String} {f : Json → Except String α}
    {v : Json} (h : lookupLast kvs k = some v) : getJ kvs k f = f v := by
  unfold getJ; rw [h]

theorem optJ_found {kvs : List (String × Json)} {k : String} {f : Json → Except String α}
    {v : Json} (h : lookupLast kvs k = some v) : optJ kvs k f = jOpt f v := by
  unfold optJ; rw [h]

theorem Summary_roundtrip {s : Summary} (h : s.wf) :
    Summary.deserialize (Summary.serialize s) = .ok s := by
  obtain ⟨hnd, hnop⟩ := h
  have hkeys : ((("operation", s.operation.serialize) ::
      s.rest.map fun kv => (kv.1, Json.str kv.2)).map Prod.fst).Nodup := by
    simp only [List.map_cons, List.nodup_cons]
    exact ⟨by simpa [List.map_map, Function.comp] using hnop,
      by simpa [List.map_map, Function.comp] using hnd⟩
  have hrestkeys : ∀ kv ∈ s.rest.map fun kv => (kv.1, Json.str kv.2),
      ¬ kv.1 = "operation" := by
    intro kv hkv
    obtain ⟨p, hp, hpe⟩ := List.mem_map.mp hkv
    intro hc
    have hp1 : p.1 = "operation" := by rw [← hc, ← hpe]
    exact hnop (hp1 ▸ List.mem_map_of_mem Prod.fst hp)
  show Summary.deserialize (Json.mkObj (("operation", s.operation.serialize) ::
      s.rest.map fun kv => (kv.1, Json.str kv.2))) = .ok s
  rw [Json.mkObj, dedupKeys_self hkeys]
  simp only [Summary.deserialize]
  rw [dedupKeys_self hkeys,
    getJ_found (lookupLast_cons_head (by simpa [List.map_map, Function.comp] using hnop)),
    Operation_roundtrip, bindE_ok,
    List.filter_cons_of_neg (by simp), List.filter_eq_self.mpr
      (fun kv hkv => by simpa using hrestkeys kv hkv),
    mapMStr_enc, bindE_ok]

theorem SnapshotV2_roundtrip {s : SnapshotV2} (h : s.wf) :
    SnapshotV2.deserialize (SnapshotV2.serialize s) = .ok s := by
  obtain ⟨h1, h2, h3, h4, h5, h6⟩ := h
  show (jI64 (.num s.snapshot_id) >>= fun sid =>
      jOpt jI64 (encOpt Json.num s.parent_snapshot_id) >>= fun psid =>
        jI64 (.num s.sequence_number) >>= fun seq =>
          jI64 (.num s.timestamp_ms) >>= fun ts =>
            Summary.deserialize (Summary.serialize s.summary) >>= fun sm =>
              jStr (.str s.manifest_list) >>= fun ml =>
                jOpt jI32 (encOpt Json.num s.schema_id) >>= fun sch =>
                  Except.ok (⟨sid, psid, seq, ts, sm, ml, sch⟩ : SnapshotV2)) = .ok s
  rw [jI64_num h1, bindE_ok,
    jOpt_encOpt num_ne_null (fun x hx => jI64_num (optP_mem h2 x hx)), bindE_ok,
    jI64_num h3, bindE_ok, jI64_num h4, bindE_ok,
    Summary_roundtrip h5, bindE_ok, jStr_str, bindE_ok,
    jOpt_encOpt num_ne_null (fun x hx => jI32_num (optP_mem h6 x hx)), bindE_ok]

theorem jArr_map_enc {dec : Json → Except String α} {enc : α → Json} {l : List α}
    (h : ∀ x ∈ l, dec (enc x) = .ok x) : jArr dec (.arr (l.map enc)) = .ok l :=
  mapME_map_enc h

theorem jOpt_strList {o : Option (List String)} :
    jOpt (jArr jStr) (encOpt encStrList o) = .ok o :=
  jOpt_encOpt (show ∀ x, encStrList x ≠ Json.null from fun l => arr_ne_null (l.map Json.str))
    (fun x _ => (jArr_map_enc fun y _ => jStr_str y :
      jArr jStr (Json.arr (x.map Json.str)) = .ok x))

theorem SnapshotV1_fields_roundtrip {s : SnapshotV1} (h : s.wf) :
    SnapshotV1.deserializeFields (SnapshotV1.serialize s) = .ok s := by
  obtain ⟨h1, h2, h3, h4, h5, _⟩ := h
  show (jI64 (.num s.snapshot_id) >>= fun sid =>
      jOpt jI64 (encOpt Json.num s.parent_snapshot_id) >>= fun psid =>
        jI64 (.num s.timestamp_ms) >>= fun ts =>
          jOpt jStr (encOpt Json.str s.manifest_list) >>= fun ml =>
            jOpt (jArr jStr) (encOpt encStrList s.manifests) >>= fun ms =>
              jOpt Summary.deserialize (encOpt Summary.serialize s.summary) >>= fun sm =>
                jOpt jI64 (encOpt Json.num s.schema_id) >>= fun sch =>
                  Except.ok (⟨sid, psid, ts, ml, ms, sm, sch⟩ : SnapshotV1)) = .ok s
  rw [jI64_num h1, bindE_ok,
    jOpt_encOpt num_ne_null (fun x hx => jI64_num (optP_mem h2 x hx)), bindE_ok,
    jI64_num h3, bindE_ok,
    jOpt_encOpt str_ne_null (fun x _ => jStr_str x), bindE_ok,
    jOpt_strList, bindE_ok,
    jOpt_encOpt (show ∀ x, Summary.serialize x ≠ Json.null from fun x => mkObj_ne_null _)
      (fun x hx => Summary_roundtrip (optP_mem h4 x hx)), bindE_ok,
    jOpt_encOpt num_ne_null (fun x hx => jI64_num (optP_mem h5 x hx)), bindE_ok]

theorem SnapshotV1_roundtrip {s : SnapshotV1} (h : s.wf) :
    SnapshotV1.deserialize (SnapshotV1.serialize s) = .ok s := by
  have hb : (s.manifest_list.isSome && s.manifests.isSome) = false := by
    have hx := h.2.2.2.2.2
    cases hml : s.manifest_list.isSome <;> cases hms : s.manifests.isSome <;> simp_all
  unfold SnapshotV1.deserialize
  rw [SnapshotV1_fields_roundtrip h]
  simp only [hb, Bool.false_eq_true, if_false]

theorem SnapshotRefV2_roundtrip {r : SnapshotRefV2} (h : r.wf) :
    SnapshotRefV2.deserialize (SnapshotRefV2.serialize r) = .ok r := by
  obtain ⟨sid, rt, mra⟩ := r
  obtain ⟨h1, h2, h3⟩ := h
  cases rt with
  | Branch mk ma =>
    obtain ⟨hmk, hma⟩ := h2
    have hrt : RefType.deserializeTagged
        [("snapshot-id", .num sid), ("type", .str "branch"),
          ("min-snapshots-to-keep", encOpt Json.num mk),
          ("max-snapshot-age-ms", encOpt Json.num ma),
          ("max-ref-age-ms", encOpt Json.num mra)] "branch" = .ok (.Branch mk ma) := by
      show (jOpt jI32 (encOpt Json.num mk) >>= fun mk2 =>
          jOpt jI64 (encOpt Json.num ma) >>= fun ma2 =>
            Except.ok (RefType.Branch mk2 ma2)) = _
      rw [jOpt_encOpt num_ne_null (fun x hx => jI32_num (optP_mem hmk x hx)), bindE_ok,
        jOpt_encOpt num_ne_null (fun x hx => jI64_num (optP_mem hma x hx)), bindE_ok]
    show (jI64 (.num sid) >>= fun sid2 =>
        jStr (.str "branch") >>= fun ty =>
          RefType.deserializeTagged
            [("snapshot-id", .num sid), ("type", .str "branch"),
              ("min-snapshots-to-keep", encOpt Json.num mk),
              ("max-snapshot-age-ms", encOpt Json.num ma),
              ("max-ref-age-ms", encOpt Json.num mra)] ty >>= fun rt2 =>
            jOpt jI64 (encOpt Json.num mra) >>= fun mra2 =>
              Except.ok (⟨sid2, rt2, mra2⟩ : SnapshotRefV2)) =
      .ok ⟨sid, .Branch mk ma, mra⟩
    rw [jI64_num h1, bindE_ok, jStr_str, bindE_ok, hrt, bindE_ok,
      jOpt_encOpt num_ne_null (fun x hx => jI64_num (optP_mem h3 x hx)), bindE_ok]
  | Tag =>
    show (jI64 (.num sid) >>= fun sid2 =>
        jStr (.str "tag") >>= fun ty =>
          RefType.deserializeTagged
            [("snapshot-id", .num sid), ("type", .str "tag"),
              ("max-ref-age-ms", encOpt Json.num mra)] ty >>= fun rt2 =>
            jOpt jI64 (encOpt Json.num mra) >>= fun mra2 =>
              Except.ok (⟨sid2, rt2, mra2⟩ : SnapshotRefV2)) = .ok ⟨sid, .Tag, mra⟩
    rw [jI64_num h1, bindE_ok, jStr_str, bindE_ok,
      show RefType.deserializeTagged
        [("snapshot-id", .num sid), ("type", .str "tag"),
          ("max-ref-age-ms", encOpt Json.num mra)] "tag" = .ok .Tag from rfl, bindE_ok,
      jOpt_encOpt num_ne_null (fun x hx => jI64_num (optP_mem h3 x hx)), bindE_ok]

theorem PartitionField_roundtrip {f : PartitionField} (h : f.wf) :
    PartitionField.deserialize (PartitionField.serialize f) = .ok f := by
  obtain ⟨h1, h2, h3⟩ := h
  show (jI32 (.num f.source_id) >>= fun sid =>
      jI32 (.num f.field_id) >>= fun fid =>
        jStr (.str f.name) >>= fun name =>
          jTransform (.str f.transform.serialize) >>= fun tr =>
            Except.ok (⟨sid, fid, name, tr⟩ : PartitionField)) = .ok f
  rw [jI32_num h1, bindE_ok, jI32_num h2, bindE_ok, jStr_str, bindE_ok,
    jTransform_enc h3, bindE_ok]

theorem PartitionSpec_roundtrip {s : PartitionSpec} (h : s.wf) :
    PartitionSpec.deserialize (PartitionSpec.serialize s) = .ok s := by
  obtain ⟨h1, h2⟩ := h
  show (jI32 (.num s.spec_id) >>= fun sid =>
      jArr PartitionField.deserialize (.arr (s.fields.map PartitionField.serialize)) >>=
        fun fields => Except.ok (⟨sid, fields⟩ : PartitionSpec)) = .ok s
  rw [jI32_num h1, bindE_ok,
    jArr_map_enc fun x hx => PartitionField_roundtrip (h2 x hx), bindE_ok]

theorem SortField_roundtrip {f : SortField} (h : f.wf) :
    SortField.deserialize (SortField.serialize f) = .ok f := by
  obtain ⟨h1, h2⟩ := h
  show (jTransform (.str f.transform.serialize) >>= fun tr =>
      jI32 (.num f.source_id) >>= fun sid =>
        Direction.deserialize f.direction.serialize >>= fun dir =>
          NullOrder.deserialize f.null_order.serialize >>= fun no =>
            Except.ok (⟨tr, sid, dir, no⟩ : SortField)) = .ok f
  rw [jTransform_enc h1, bindE_ok, jI32_num h2, bindE_ok, Direction_roundtrip, bindE_ok,
    NullOrder_roundtrip, bindE_ok]

theorem SortOrders_roundtrip {s : SortOrders} (h : s.wf) :
    SortOrders.deserialize (SortOrders.serialize s) = .ok s := by
  obtain ⟨h1, h2⟩ := h
  show (jI32 (.num s.order_id) >>= fun oid =>
      jArr SortField.deserialize (.arr (s.fields.map SortField.serialize)) >>= fun fields =>
        Except.ok (⟨oid, fields⟩ : SortOrders)) = .ok s
  rw [jI32_num h1, bindE_ok, jArr_map_enc fun x hx => SortField_roundtrip (h2 x hx), bindE_ok]

theorem hexVal_hexChar {d : Nat} (h : d < 16) : hexVal (hexChar d) = some d := by
  interval_cases d <;> rfl

theorem uuidGroup_exact : ∀ (ds : List Nat) (rest : List Char), (∀ d ∈ ds, d < 16) →
    uuidGroup ds.length (ds.map hexChar ++ rest) = some (ds, rest) := by
  intro ds
  induction ds with
  | nil => intro rest _; rfl
  | cons d t ih =>
    intro rest h
    simp only [List.map_cons, List.cons_append, List.length_cons, uuidGroup,
      hexVal_hexChar (h d (by simp)), Option.bind_eq_bind, Option.some_bind, List.append_eq,
      ih rest fun y hy => h y (by simp [hy]), Option.bind_some]

theorem uuidGroup_hyphen : ∀ (ds : List Nat) (k : Nat) (rest : List Char),
    ds.length < k → (∀ d ∈ ds, d < 16) →
    uuidGroup k (ds.map hexChar ++ '-' :: rest) = none := by
  intro ds
  induction ds with
  | nil =>
    intro k rest hk _
    cases k with
    | zero => omega
    | succ k => rfl
  | cons d t ih =>
    intro k rest hk h
    cases k with
    | zero => omega
    | succ k =>
      simp only [List.map_cons, List.cons_append, uuidGroup,
        hexVal_hexChar (h d (by simp)), Option.bind_eq_bind, Option.some_bind, List.append_eq,
        ih k rest (by simpa using hk) fun y hy => h y (by simp [hy]), Option.none_bind]

theorem length_take_of_le {l : List Nat} {n : Nat} (h : n ≤ l.length) :
    (l.take n).length = n := by
  simp [List.length_take]
  omega

theorem uuid_assemble (u : List Nat) :
    u.take 8 ++ ((u.drop 8).take 4 ++ ((u.drop 12).take 4 ++
      ((u.drop 16).take 4 ++ u.drop 20))) = u := by
  have e1 : (u.drop 16).take 4 ++ u.drop 20 = u.drop 16 := by
    have : u.drop 20 = (u.drop 16).drop 4 := by simp [List.drop_drop]
    rw [this, List.take_append_drop]
  have e2 : (u.drop 12).take 4 ++ u.drop 16 = u.drop 12 := by
    have : u.drop 16 = (u.drop 12).drop 4 := by simp [List.drop_drop]
    rw [this, List.take_append_drop]
  have e3 : (u.drop 8).take 4 ++ u.drop 12 = u.drop 8 := by
    have : u.drop 12 = (u.drop 8).drop 4 := by simp [List.drop_drop]
    rw [this, List.take_append_drop]
  rw [e1, e2, e3, List.take_append_drop]

theorem uuidGroup_exact2 (k : Nat) (ds : List Nat) (hk : ds.length = k)
    (h : ∀ d ∈ ds, d < 16) : ∀ rest : List Char,
    uuidGroup k (ds.map hexChar ++ rest) = some (ds, rest) := by
  subst hk
  intro rest
  exact uuidGroup_exact ds rest h

theorem uuid_roundtrip {u : List Nat} (h : uuidP u) :
    uuidParse (uuidToString u) = some u := by
  obtain ⟨hlen, hlt⟩ := h
  have hsub : ∀ {n : Nat} (x : Nat), x ∈ (u.drop n).take 4 → x < 16 := fun x hx =>
    hlt x (List.mem_of_mem_drop (List.mem_of_mem_take hx))
  have ht8 : ∀ x ∈ u.take 8, x < 16 := fun x hx => hlt x (List.mem_of_mem_take hx)
  have hd20 : ∀ x ∈ u.drop 20, x < 16 := fun x hx => hlt x (List.mem_of_mem_drop hx)
  have l8 : (u.take 8).length = 8 := length_take_of_le (by omega)
  have l4a : ((u.drop 8).take 4).length = 4 := length_take_of_le (by simp [List.length_drop]; omega)
  have l4b : ((u.drop 12).take 4).length = 4 :=
    length_take_of_le (by simp [List.length_drop]; omega)
  have l4c : ((u.drop 16).take 4).length = 4 :=
    length_take_of_le (by simp [List.length_drop]; omega)
  have l12 : (u.drop 20).length = 12 := by simp [List.length_drop, hlen]
  have g5 : uuidGroup 12 ((u.drop 20).map hexChar) = some (u.drop 20, []) := by
    have h0 := uuidGroup_exact2 12 (u.drop 20) l12 hd20 []
    simpa using h0
  have hsimple : uuidSimple (uuidToChars u) = none := by
    unfold uuidSimple uuidToChars
    simp only [List.append_assoc, List.cons_append]
    rw [uuidGroup_hyphen (u.take 8) 32 _ (by simp [l8]) ht8]
    rfl
  have hhyph : uuidHyphenated (uuidToChars u) = some u := by
    simp only [uuidToChars, uuidHyphenated, Option.bind_eq_bind, List.append_assoc,
      List.cons_append,
      uuidGroup_exact2 8 (u.take 8) l8 ht8, Option.some_bind,
      uuidGroup_exact2 4 ((u.drop 8).take 4) l4a (fun x hx => hsub x hx),
      uuidGroup_exact2 4 ((u.drop 12).take 4) l4b (fun x hx => hsub x hx),
      uuidGroup_exact2 4 ((u.drop 16).take 4) l4c (fun x hx => hsub x hx),
      g5]
    rw [uuid_assemble u]
  show (match uuidSimple (uuidToChars u) with
    | some v => some v
    | none =>
      match uuidHyphenated (uuidToChars u) with
      | some v => some v
      | none =>
        match uuidSimple (dropBraces (stripUrn (uuidToChars u))) with
        | some v => some v
        | none => uuidHyphenated (dropBraces (stripUrn (uuidToChars u)))) = some u
  rw [hsimple, hhyph]

theorem jUuid_enc {u : List Nat} (h : uuidP u) :
    jUuid (.str (uuidToString u)) = .ok u := by
  show (match uuidParse (uuidToString u) with
    | some v => Except.ok v
    | none => Except.error "UUID parsing failed") = .ok u
  rw [uuid_roundtrip h]

theorem Json.size_pos : ∀ j : Json, 1 ≤ Json.size j := by
  intro j
  cases j <;> simp [Json.size]

theorem size_encOpt_str (o : Option String) : Json.size (encOpt Json.str o) = 1 := by
  cases o <;> rfl

theorem size_encodeStructField (id : Int) (name : String) (req : Bool) (ft : IcebergType)
    (doc idf wd : Option String) :
    Json.size (encodeStructField (.mk id name req ft doc idf wd)) =
      14 + Json.size (encodeIcebergType ft) := by
  show Json.size (.obj [("id", Json.num id), ("name", Json.str name),
    ("required", Json.bool req), ("type", encodeIcebergType ft),
    ("doc", encOpt Json.str doc), ("initial-default", encOpt Json.str idf),
    ("write-default", encOpt Json.str wd)]) = 14 + Json.size (encodeIcebergType ft)
  simp [Json.size, Json.sizeKVs, size_encOpt_str]
  omega

theorem size_encodeStructType (fields : List StructField) :
    Json.size (encodeStructType (.mk fields)) = 5 + Json.sizeList (encodeFields fields) := by
  show Json.size (.obj [("type", Json.str "struct"),
    ("fields", Json.arr (encodeFields fields))]) = 5 + Json.sizeList (encodeFields fields)
  simp [Json.size, Json.sizeKVs]
  omega

theorem size_encodeListType (eid : Int) (ereq : Bool) (el : IcebergType) :
    Json.size (encodeListType (.mk eid ereq el)) = 8 + Json.size (encodeIcebergType el) := by
  show Json.size (.obj [("type", Json.str "list"), ("element-id", Json.num eid),
    ("element-required", Json.bool ereq), ("element", encodeIcebergType el)]) =
      8 + Json.size (encodeIcebergType el)
  simp [Json.size, Json.sizeKVs]
  omega

theorem size_encodeMapType (kid : Int) (k : IcebergType) (vid : Int) (vreq : Bool)
    (v : IcebergType) :
    Json.size (encodeMapType (.mk kid k vid vreq v)) =
      11 + Json.size (encodeIcebergType k) + Json.size (encodeIcebergType v) := by
  show Json.size (.obj [("type", Json.str "map"), ("key-id", Json.num kid),
    ("key", encodeIcebergType k), ("value-id", Json.num vid),
    ("value-required", Json.bool vreq), ("value", encodeIcebergType v)]) =
      11 + Json.size (encodeIcebergType k) + Json.size (encodeIcebergType v)
  simp [Json.size, Json.sizeKVs]
  omega

theorem sizeList_encodeFields_mem {f : StructField} : ∀ {fs : List StructField}, f ∈ fs →
    Json.size (encodeStructField f) ≤ Json.sizeList (encodeFields fs) := by
  intro fs
  induction fs with
  | nil => intro h; cases h
  | cons g t ih =>
    intro h
    show Json.size (encodeStructField f) ≤
      Json.size (encodeStructField g) + Json.sizeList (encodeFields t)
    rcases List.mem_cons.mp h with h1 | h2
    · rw [h1]; omega
    · have := ih h2; omega

theorem wfFields_mem {f : StructField} : ∀ {fs : List StructField}, wfFields fs → f ∈ fs →
    wfField f := by
  intro fs
  induction fs with
  | nil => intro _ h; cases h
  | cons g t ih =>
    intro hw h
    obtain ⟨hg, ht⟩ := hw
    rcases List.mem_cons.mp h with h1 | h2
    · rw [h1]; exact hg
    · exact ih ht h2

theorem decodeStructFieldWith_enc {decT : Json → Except String IcebergType}
    (id : Int) (name : String) (req : Bool) (ft : IcebergType)
    (doc idf wd : Option String) (hid : i32P id)
    (hft : decT (encodeIcebergType ft) = .ok ft) :
    decodeStructFieldWith decT (encodeStructField (.mk id name req ft doc idf wd)) =
      .ok (.mk id name req ft doc idf wd) := by
  show (jI32 (.num id) >>= fun a =>
    jStr (.str name) >>= fun b =>
      jBool (.bool req) >>= fun c =>
        decT (encodeIcebergType ft) >>= fun d =>
          jOpt jStr (encOpt Json.str doc) >>= fun e =>
            jOpt jStr (encOpt Json.str idf) >>= fun g =>
              jOpt jStr (encOpt Json.str wd) >>= fun h =>
                Except.ok (StructField.mk a b c d e g h)) =
    .ok (.mk id name req ft doc idf wd)
  rw [jI32_num hid, bindE_ok, jStr_str name, bindE_ok, jBool_bool req, bindE_ok, hft, bindE_ok,
    jOpt_encOpt str_ne_null (fun x _ => jStr_str x), bindE_ok,
    jOpt_encOpt str_ne_null (fun x _ => jStr_str x), bindE_ok,
    jOpt_encOpt str_ne_null (fun x _ => jStr_str x), bindE_ok]

/-- Fuel-monotone round trip for the untagged type decoder: any fuel at
least the size of the encoded document decodes the encoding back. -/
theorem decodeIcebergTypeF_enc : ∀ (fuel : Nat) (t : IcebergType), wfIceberg t →
    Json.size (encodeIcebergType t) ≤ fuel →
    decodeIcebergTypeF fuel (encodeIcebergType t) = .ok t := by
  intro fuel
  induction fuel with
  | zero =>
    intro t _ hsz
    have := Json.size_pos (encodeIcebergType t)
    omega
  | succ fuel ih =>
    intro t hwf hsz
    cases t with
    | Primitive p =>
      show (match PrimitiveType.deserialize (PrimitiveType.serialize p) with
        | .ok q => Except.ok (IcebergType.Primitive q)
        | .error _ => Except.error untaggedTypeErr) = .ok (.Primitive p)
      rw [PrimitiveType_roundtrip hwf]
    | Struct s =>
      obtain ⟨fields⟩ := s
      have hwff : wfFields fields := hwf
      have hmem : ∀ f ∈ fields,
          decodeStructFieldWith (decodeIcebergTypeF fuel) (encodeStructField f) = .ok f := by
        intro f hf
        obtain ⟨fid, fname, freq, fft, fdoc, fidf, fwd⟩ := f
        obtain ⟨hfid, hfft⟩ := wfFields_mem hwff hf
        have hszf : Json.size (encodeIcebergType fft) ≤ fuel := by
          have h1 := sizeList_encodeFields_mem hf
          rw [size_encodeStructField] at h1
          have h2 : Json.size (encodeStructType (.mk fields)) ≤ fuel + 1 := hsz
          rw [size_encodeStructType] at h2
          omega
        exact decodeStructFieldWith_enc fid fname freq fft fdoc fidf fwd hfid
          (ih fft hfft hszf)
      have hts : mapME (decodeStructFieldWith (decodeIcebergTypeF fuel))
          (encodeFields fields) = .ok fields := mapME_encodeFields hmem
      show (orE ((mapME (decodeStructFieldWith (decodeIcebergTypeF fuel))
          (encodeFields fields) >>= fun fs =>
            Except.ok (StructType.mk fs)).map IcebergType.Struct) fun _ =>
        orE ((tryListWith (decodeIcebergTypeF fuel)
            [("type", Json.str "struct"),
              ("fields", Json.arr (encodeFields fields))]).map IcebergType.List) fun _ =>
          orE ((tryMapWith (decodeIcebergTypeF fuel)
              [("type", Json.str "struct"),
                ("fields", Json.arr (encodeFields fields))]).map IcebergType.Map) fun _ =>
            Except.error untaggedTypeErr) = .ok (.Struct (.mk fields))
      rw [hts, bindE_ok]
      rfl
    | List l =>
      obtain ⟨eid, ereq, el⟩ := l
      obtain ⟨hid, hel⟩ := hwf
      have hszel : Json.size (encodeIcebergType el) ≤ fuel := by
        have h2 : Json.size (encodeListType (.mk eid ereq el)) ≤ fuel + 1 := hsz
        rw [size_encodeListType] at h2
        omega
      have htl : (jI32 (.num eid) >>= fun a =>
          jBool (.bool ereq) >>= fun b =>
            decodeIcebergTypeF fuel (encodeIcebergType el) >>= fun c =>
              Except.ok (ListType.mk a b c)) = .ok (.mk eid ereq el) := by
        rw [jI32_num hid, bindE_ok, jBool_bool ereq, bindE_ok, ih el hel hszel, bindE_ok]
      show (orE ((jI32 (.num eid) >>= fun a =>
          jBool (.bool ereq) >>= fun b =>
            decodeIcebergTypeF fuel (encodeIcebergType el) >>= fun c =>
              Except.ok (ListType.mk a b c)).map IcebergType.List) fun _ =>
        orE ((tryMapWith (decodeIcebergTypeF fuel)
            [("type", Json.str "list"), ("element-id", Json.num eid),
              ("element-required", Json.bool ereq),
              ("element", encodeIcebergType el)]).map IcebergType.Map) fun _ =>
          Except.error untaggedTypeErr) = .ok (.List (.mk eid ereq el))
      rw [htl]
      rfl
    | Map m =>
      obtain ⟨kid, k, vid, vreq, v⟩ := m
      obtain ⟨hkid, hk, hvid, hv⟩ := hwf
      have hszk : Json.size (encodeIcebergType k) ≤ fuel := by
        have h2 : Json.size (encodeMapType (.mk kid k vid vreq v)) ≤ fuel + 1 := hsz
        rw [size_encodeMapType] at h2
        have := Json.size_pos (encodeIcebergType v)
        omega
      have hszv : Json.size (encodeIcebergType v) ≤ fuel := by
        have h2 : Json.size (encodeMapType (.mk kid k vid vreq v)) ≤ fuel + 1 := hsz
        rw [size_encodeMapType] at h2
        have := Json.size_pos (encodeIcebergType k)
        omega
      have htm : (jI32 (.num kid) >>= fun a =>
          decodeIcebergTypeF fuel (encodeIcebergType k) >>= fun b =>
            jI32 (.num vid) >>= fun c =>
              jBool (.bool vreq) >>= fun d =>
                decodeIcebergTypeF fuel (encodeIcebergType v) >>= fun e =>
                  Except.ok (MapType.mk a b c d e)) = .ok (.mk kid k vid vreq v) := by
        rw [jI32_num hkid, bindE_ok, ih k hk hszk, bindE_ok, jI32_num hvid, bindE_ok,
          jBool_bool vreq, bindE_ok, ih v hv hszv, bindE_ok]
      show (orE ((jI32 (.num kid) >>= fun a =>
          decodeIcebergTypeF fuel (encodeIcebergType k) >>= fun b =>
            jI32 (.num vid) >>= fun c =>
              jBool (.bool vreq) >>= fun d =>
                decodeIcebergTypeF fuel (encodeIcebergType v) >>= fun e =>
                  Except.ok (MapType.mk a b c d e)).map IcebergType.Map) fun _ =>
        Except.error untaggedTypeErr) = .ok (.Map (.mk kid k vid vreq v))
      rw [htm]
      rfl

theorem decodeIcebergType_enc {t : IcebergType} (h : wfIceberg t) :
    decodeIcebergType (encodeIcebergType t) = .ok t :=
  decodeIcebergTypeF_enc (Json.size (encodeIcebergType t)) t h (Nat.le_refl _)

theorem decodeStructField_enc {f : StructField} (h : wfField f) :
    decodeStructFieldWith decodeIcebergType (encodeStructField f) = .ok f := by
  obtain ⟨fid, fname, freq, fft, fdoc, fidf, fwd⟩ := f
  obtain ⟨hid, hft⟩ := h
  exact decodeStructFieldWith_enc fid fname freq fft fdoc fidf fwd hid
    (decodeIcebergType_enc hft)

theorem jArr_encNumList {l : List Int} (h : listP i32P l) :
    jArr jI32 (encNumList l) = .ok l := by
  show mapME jI32 (l.map Json.num) = .ok l
  exact mapME_map_enc fun x hx => jI32_num (h x hx)

theorem IcebergSchemaV2_roundtrip {s : IcebergSchemaV2} (h : s.wf) :
    IcebergSchemaV2.deserialize (IcebergSchemaV2.serialize s) = .ok s := by
  obtain ⟨sid, idf, sch⟩ := s
  obtain ⟨fields⟩ := sch
  obtain ⟨h1, h2, h3⟩ := h
  have h1a : i32P sid := h1
  have h2a : optP (listP i32P) idf := h2
  have h3a : wfFields fields := h3
  show (jI32 (.num sid) >>= fun a =>
    jOpt (jArr jI32) (encOpt encNumList idf) >>= fun b =>
      mapME (decodeStructFieldWith decodeIcebergType) (encodeFields fields) >>= fun fs =>
        Except.ok (⟨a, b, .mk fs⟩ : IcebergSchemaV2)) = .ok ⟨sid, idf, .mk fields⟩
  rw [jI32_num h1a, bindE_ok,
    jOpt_encOpt (show ∀ x, encNumList x ≠ Json.null from fun x => arr_ne_null (x.map Json.num))
      (fun l hl => jArr_encNumList (optP_mem h2a l hl)), bindE_ok,
    mapME_encodeFields fun f hf => decodeStructField_enc (wfFields_mem h3a hf), bindE_ok]

theorem IcebergSchemaV1_roundtrip {s : IcebergSchemaV1} (h : s.wf) :
    IcebergSchemaV1.deserialize (IcebergSchemaV1.serialize s) = .ok s := by
  obtain ⟨sid, idf, sch⟩ := s
  obtain ⟨fields⟩ := sch
  obtain ⟨h1, h2, h3⟩ := h
  have h1a : optP i32P sid := h1
  have h2a : optP (listP i32P) idf := h2
  have h3a : wfFields fields := h3
  show (jOpt jI32 (encOpt Json.num sid) >>= fun a =>
    jOpt (jArr jI32) (encOpt encNumList idf) >>= fun b =>
      mapME (decodeStructFieldWith decodeIcebergType) (encodeFields fields) >>= fun fs =>
        Except.ok (⟨a, b, .mk fs⟩ : IcebergSchemaV1)) = .ok ⟨sid, idf, .mk fields⟩
  rw [jOpt_encOpt num_ne_null (fun n hn => jI32_num (optP_mem h1a n hn)), bindE_ok,
    jOpt_encOpt (show ∀ x, encNumList x ≠ Json.null from fun x => arr_ne_null (x.map Json.num))
      (fun l hl => jArr_encNumList (optP_mem h2a l hl)), bindE_ok,
    mapME_encodeFields fun f hf => decodeStructField_enc (wfFields_mem h3a hf), bindE_ok]

theorem jStatistics_enc (u : Unit) : jStatistics (encStatistics u) = .ok u := rfl

theorem jMapOf_encRefMap {l : List (String × SnapshotRefV2)} (h : refMapP l) :
    jMapOf SnapshotRefV2.deserialize (encRefMap l) = .ok l :=
  jMapOf_enc h.1 fun kv hkv => SnapshotRefV2_roundtrip (h.2 kv hkv)

theorem TableMetadataV2_roundtrip {m : TableMetadataV2} (h : m.wf) :
    TableMetadataV2.deserialize (Json.mkObj (TableMetadataV2.serializeEntries m)) = .ok m := by
  obtain ⟨h1, h2, h3, h4, h5, h6, h7, h8, h9, h10, h11, h12, h13, h14, h15, h16, h17, h18⟩ := h
  show (jI32 (.num m.format_version) >>= fun fv =>
    jUuid (.str (uuidToString m.table_uuid)) >>= fun uuid =>
    jStr (.str m.location) >>= fun loc =>
    jI64 (.num m.last_sequence_number) >>= fun lsn =>
    jI64 (.num m.last_updated_ms) >>= fun lum =>
    jI32 (.num m.last_column_id) >>= fun lci =>
    jArr IcebergSchemaV2.deserialize
        (.arr (m.schemas.map IcebergSchemaV2.serialize)) >>= fun schemas =>
    jI32 (.num m.current_schema_id) >>= fun csi =>
    jArr PartitionSpec.deserialize
        (.arr (m.partition_specs.map PartitionSpec.serialize)) >>= fun pspecs =>
    jI32 (.num m.default_spec_id) >>= fun dsi =>
    jI32 (.num m.last_partition_id) >>= fun lpi =>
    jOpt jStrMap (encOpt encStrMap m.properties) >>= fun props =>
    jOpt jI64 (encOpt Json.num m.current_snapshot_id) >>= fun csnap =>
    jOpt (jArr SnapshotV2.deserialize)
        (encOpt (fun l => Json.arr (l.map SnapshotV2.serialize)) m.snapshots) >>= fun snaps =>
    jOpt (jArr SnapshotLog.deserialize)
        (encOpt (fun l => Json.arr (l.map SnapshotLog.serialize))
          m.snapshot_log) >>= fun slog =>
    jOpt (jArr MetadataLog.deserialize)
        (encOpt (fun l => Json.arr (l.map MetadataLog.serialize))
          m.metadata_log) >>= fun mlog =>
    jArr SortOrders.deserialize
        (.arr (m.sort_orders.map SortOrders.serialize)) >>= fun sorts =>
    jI32 (.num m.default_sort_order_id) >>= fun dsoi =>
    jOpt (jMapOf SnapshotRefV2.deserialize) (encOpt encRefMap m.refs) >>= fun refs =>
    jOpt jStatistics (encOpt encStatistics m.statistics) >>= fun stats =>
      Except.ok (⟨fv, uuid, loc, lsn, lum, lci, schemas, csi, pspecs, dsi, lpi, props,
        csnap, snaps, slog, mlog, sorts, dsoi, refs, stats⟩ : TableMetadataV2)) = .ok m
  rw [jI32_num h1, bindE_ok, jUuid_enc h2, bindE_ok, jStr_str m.location, bindE_ok,
    jI64_num h3, bindE_ok, jI64_num h4, bindE_ok, jI32_num h5, bindE_ok,
    jArr_map_enc fun x hx => IcebergSchemaV2_roundtrip (h6 x hx), bindE_ok,
    jI32_num h7, bindE_ok,
    jArr_map_enc fun x hx => PartitionSpec_roundtrip (h8 x hx), bindE_ok,
    jI32_num h9, bindE_ok, jI32_num h10, bindE_ok,
    jOpt_encOpt (show ∀ x, encStrMap x ≠ Json.null from fun x => mkObj_ne_null _)
      (fun l hl => jStrMap_enc (optP_mem h11 l hl)), bindE_ok,
    jOpt_encOpt num_ne_null (fun n hn => jI64_num (optP_mem h12 n hn)), bindE_ok,
    jOpt_encOpt
      (show ∀ x : List SnapshotV2, Json.arr (x.map SnapshotV2.serialize) ≠ Json.null from
        fun x => arr_ne_null _)
      (fun l hl => jArr_map_enc fun s hs => SnapshotV2_roundtrip (optP_mem h13 l hl s hs)),
    bindE_ok,
    jOpt_encOpt
      (show ∀ x : List SnapshotLog, Json.arr (x.map SnapshotLog.serialize) ≠ Json.null from
        fun x => arr_ne_null _)
      (fun l hl => jArr_map_enc fun s hs => SnapshotLog_roundtrip (optP_mem h14 l hl s hs)),
    bindE_ok,
    jOpt_encOpt
      (show ∀ x : List MetadataLog, Json.arr (x.map MetadataLog.serialize) ≠ Json.null from
        fun x => arr_ne_null _)
      (fun l hl => jArr_map_enc fun s hs => MetadataLog_roundtrip (optP_mem h15 l hl s hs)),
    bindE_ok,
    jArr_map_enc fun x hx => SortOrders_roundtrip (h16 x hx), bindE_ok,
    jI32_num h17, bindE_ok,
    jOpt_encOpt (show ∀ x, encRefMap x ≠ Json.null from fun x => mkObj_ne_null _)
      (fun l hl => jMapOf_encRefMap (optP_mem h18 l hl)), bindE_ok,
    jOpt_encOpt (show ∀ x, encStatistics x ≠ Json.null from fun x => obj_ne_null _)
      (fun u _ => jStatistics_enc u), bindE_ok]

theorem TableMetadataV1_roundtrip {m : TableMetadataV1} (h : m.wf) :
    TableMetadataV1.deserialize (Json.mkObj (TableMetadataV1.serializeEntries m)) = .ok m := by
  obtain ⟨h1, h2, h3, h4, h5, h6, h7, h8, h9, h10, h11, h12, h13, h14, h15, h16, h17, h18⟩ := h
  show (jI32 (.num m.format_version) >>= fun fv =>
    jOpt jUuid (encOpt (fun u => Json.str (uuidToString u)) m.table_uuid) >>= fun uuid =>
    jStr (.str m.location) >>= fun loc =>
    jI64 (.num m.last_updated_ms) >>= fun lum =>
    jI32 (.num m.last_column_id) >>= fun lci =>
    IcebergSchemaV1.deserialize (IcebergSchemaV1.serialize m.schema) >>= fun schema =>
    jOpt (jArr IcebergSchemaV1.deserialize)
        (encOpt (fun l => Json.arr (l.map IcebergSchemaV1.serialize))
          m.schemas) >>= fun schemas =>
    jOpt jI32 (encOpt Json.num m.current_schema_id) >>= fun csi =>
    jArr PartitionField.deserialize
        (.arr (m.partition_spec.map PartitionField.serialize)) >>= fun pspec =>
    jArr PartitionSpec.deserialize
        (.arr (m.partition_specs.map PartitionSpec.serialize)) >>= fun pspecs =>
    jOpt jI32 (encOpt Json.num m.default_spec_id) >>= fun dsi =>
    jOpt jI32 (encOpt Json.num m.last_partition_id) >>= fun lpi =>
    jOpt jStrMap (encOpt encStrMap m.properties) >>= fun props =>
    jOpt jI64 (encOpt Json.num m.current_snapshot_id) >>= fun csnap =>
    jOpt (jArr SnapshotV1.deserialize)
        (encOpt (fun l => Json.arr (l.map SnapshotV1.serialize)) m.snapshots) >>= fun snaps =>
    jOpt (jArr SnapshotLog.deserialize)
        (encOpt (fun l => Json.arr (l.map SnapshotLog.serialize))
          m.snapshot_log) >>= fun slog =>
    jOpt (jArr MetadataLog.deserialize)
        (encOpt (fun l => Json.arr (l.map MetadataLog.serialize))
          m.metadata_log) >>= fun mlog =>
    jOpt (jArr SortOrders.deserialize)
        (encOpt (fun l => Json.arr (l.map SortOrders.serialize)) m.sort_orders) >>= fun sorts =>
    jI32 (.num m.default_sort_order_id) >>= fun dsoi =>
    jOpt jStatistics (encOpt encStatistics m.statistics) >>= fun stats =>
      Except.ok (⟨fv, uuid, loc, lum, lci, schema, schemas, csi, pspec, pspecs, dsi, lpi,
        props, csnap, snaps, slog, mlog, sorts, dsoi, stats⟩ : TableMetadataV1)) = .ok m
  rw [jI32_num h1, bindE_ok,
    jOpt_encOpt (show ∀ x, Json.str (uuidToString x) ≠ Json.null from fun x => str_ne_null _)
      (fun u hu => jUuid_enc (optP_mem h2 u hu)), bindE_ok,
    jStr_str m.location, bindE_ok, jI64_num h3, bindE_ok, jI32_num h4, bindE_ok,
    IcebergSchemaV1_roundtrip h5, bindE_ok,
    jOpt_encOpt
      (show ∀ x : List IcebergSchemaV1, Json.arr (x.map IcebergSchemaV1.serialize) ≠ Json.null
        from fun x => arr_ne_null _)
      (fun l hl => jArr_map_enc fun s hs => IcebergSchemaV1_roundtrip (optP_mem h6 l hl s hs)),
    bindE_ok,
    jOpt_encOpt num_ne_null (fun n hn => jI32_num (optP_mem h7 n hn)), bindE_ok,
    jArr_map_enc fun x hx => PartitionField_roundtrip (h8 x hx), bindE_ok,
    jArr_map_enc fun x hx => PartitionSpec_roundtrip (h9 x hx), bindE_ok,
    jOpt_encOpt num_ne_null (fun n hn => jI32_num (optP_mem h10 n hn)), bindE_ok,
    jOpt_encOpt num_ne_null (fun n hn => jI32_num (optP_mem h11 n hn)), bindE_ok,
    jOpt_encOpt (show ∀ x, encStrMap x ≠ Json.null from fun x => mkObj_ne_null _)
      (fun l hl => jStrMap_enc (optP_mem h12 l hl)), bindE_ok,
    jOpt_encOpt num_ne_null (fun n hn => jI64_num (optP_mem h13 n hn)), bindE_ok,
    jOpt_encOpt
      (show ∀ x : List SnapshotV1, Json.arr (x.map SnapshotV1.serialize) ≠ Json.null from
        fun x => arr_ne_null _)
      (fun l hl => jArr_map_enc fun s hs => SnapshotV1_roundtrip (optP_mem h14 l hl s hs)),
    bindE_ok,
    jOpt_encOpt
      (show ∀ x : List SnapshotLog, Json.arr (x.map SnapshotLog.serialize) ≠ Json.null from
        fun x => arr_ne_null _)
      (fun l hl => jArr_map_enc fun s hs => SnapshotLog_roundtrip (optP_mem h15 l hl s hs)),
    bindE_ok,
    jOpt_encOpt
      (show ∀ x : List MetadataLog, Json.arr (x.map MetadataLog.serialize) ≠ Json.null from
        fun x => arr_ne_null _)
      (fun l hl => jArr_map_enc fun s hs => MetadataLog_roundtrip (optP_mem h16 l hl s hs)),
    bindE_ok,
    jOpt_encOpt
      (show ∀ x : List SortOrders, Json.arr (x.map SortOrders.serialize) ≠ Json.null from
        fun x => arr_ne_null _)
      (fun l hl => jArr_map_enc fun s hs => SortOrders_roundtrip (optP_mem h17 l hl s hs)),
    bindE_ok,
    jI32_num h18, bindE_ok,
    jOpt_encOpt (show ∀ x, encStatistics x ≠ Json.null from fun x => obj_ne_null _)
      (fun u _ => jStatistics_enc u), bindE_ok]

/-- L2 at the dispatch level: a well-formed `TableMetadata` value (in
particular one whose `format_version` field agrees with its variant)
re-enters through the version dispatch and decodes back to itself. -/
theorem TableMetadata_roundtrip {t : TableMetadata} (h : t.wf) :
    TableMetadata.deserialize (TableMetadata.serialize t) = .ok t := by
  cases t with
  | V2 m =>
    obtain ⟨hm, hfv⟩ := h
    obtain ⟨fv, uuid, loc, lsn, lum, lci, schemas, csi, pspecs, dsi, lpi, props, csnap,
      snaps, slog, mlog, sorts, dsoi, refs, stats⟩ := m
    have hfv2 : fv = 2 := hfv
    subst hfv2
    show (match TableMetadataV2.deserialize
        (Json.mkObj (TableMetadataV2.serializeEntries ⟨2, uuid, loc, lsn, lum, lci, schemas,
          csi, pspecs, dsi, lpi, props, csnap, snaps, slog, mlog, sorts, dsoi, refs,
          stats⟩)) with
      | .ok m2 => Except.ok (TableMetadata.V2 m2)
      | .error e => Except.error ("Unable to deserialize version 2 metadata: error: " ++ e)) =
      .ok (.V2 ⟨2, uuid, loc, lsn, lum, lci, schemas, csi, pspecs, dsi, lpi, props, csnap,
        snaps, slog, mlog, sorts, dsoi, refs, stats⟩)
    rw [TableMetadataV2_roundtrip hm]
  | V1 m =>
    obtain ⟨hm, hfv⟩ := h
    obtain ⟨fv, uuid, loc, lum, lci, schema, schemas, csi, pspec, pspecs, dsi, lpi, props,
      csnap, snaps, slog, mlog, sorts, dsoi, stats⟩ := m
    have hfv1 : fv = 1 := hfv
    subst hfv1
    show (match TableMetadataV1.deserialize
        (Json.mkObj (TableMetadataV1.serializeEntries ⟨1, uuid, loc, lum, lci, schema,
          schemas, csi, pspec, pspecs, dsi, lpi, props, csnap, snaps, slog, mlog, sorts,
          dsoi, stats⟩)) with
      | .ok m1 => Except.ok (TableMetadata.V1 m1)
      | .error e => Except.error ("Unable to deserialize version 1 metadata: error: " ++ e)) =
      .ok (.V1 ⟨1, uuid, loc, lum, lci, schema, schemas, csi, pspec, pspecs, dsi, lpi,
        props, csnap, snaps, slog, mlog, sorts, dsoi, stats⟩)
    rw [TableMetadataV1_roundtrip hm]

theorem jI64_ok {j : Json} {n : Int} (h : jI64 j = .ok n) : i64P n := by
  cases j <;> try exact Except.noConfusion h
  case num m =>
    have h2 : (if -9223372036854775808 ≤ m ∧ m < 9223372036854775808 then Except.ok m
      else Except.error "invalid value: integer out of range of i64") = Except.ok n := h
    by_cases hc : -9223372036854775808 ≤ m ∧ m < 9223372036854775808
    · rw [if_pos hc] at h2; cases h2; exact hc
    · rw [if_neg hc] at h2; exact Except.noConfusion h2

theorem jI32_ok {j : Json} {n : Int} (h : jI32 j = .ok n) : i32P n := by
  cases j <;> try exact Except.noConfusion h
  case num m =>
    have h2 : (if -2147483648 ≤ m ∧ m < 2147483648 then Except.ok m
      else Except.error "invalid value: integer out of range of i32") = Except.ok n := h
    by_cases hc : -2147483648 ≤ m ∧ m < 2147483648
    · rw [if_pos hc] at h2; cases h2; exact hc
    · rw [if_neg hc] at h2; exact Except.noConfusion h2

theorem jAsI64_num {v : Json} {n : Int} (h : jAsI64 v = some n) : v = .num n := by
  cases v <;> try exact Option.noConfusion h
  case num m =>
    have h2 : (if -9223372036854775808 ≤ m ∧ m < 9223372036854775808 then some m
      else none) = some n := h
    by_cases hc : -9223372036854775808 ≤ m ∧ m < 9223372036854775808
    · rw [if_pos hc] at h2; cases h2; rfl
    · rw [if_neg hc] at h2; exact Option.noConfusion h2

theorem getJ_ok {kvs : List (String × Json)} {k : String} {f : Json → Except String α}
    {a : α} (h : getJ kvs k f = .ok a) :
    ∃ v, lookupLast kvs k = some v ∧ f v = .ok a := by
  unfold getJ at h
  split at h
  · rename_i v hv; exact ⟨v, hv, h⟩
  · exact Except.noConfusion h

theorem jOpt_wf {P : α → Prop} {f : Json → Except String α} {v : Json} {o : Option α}
    (hf : ∀ w a, f w = .ok a → P a) (h : jOpt f v = .ok o) : optP P o := by
  by_cases hv : v = Json.null
  · subst hv; cases h; trivial
  · rw [jOpt_not_null hv] at h
    cases hfv : f v with
    | ok a =>
      rw [hfv] at h
      cases h
      exact hf v a hfv
    | error e => rw [hfv] at h; exact Except.noConfusion h

theorem optJ_wf {P : α → Prop} {kvs : List (String × Json)} {k : String}
    {f : Json → Except String α} {o : Option α}
    (hf : ∀ w a, f w = .ok a → P a) (h : optJ kvs k f = .ok o) : optP P o := by
  unfold optJ at h
  split at h
  · cases h; trivial
  · exact jOpt_wf hf h

theorem mapME_ok_mem {f : Json → Except String α} :
    ∀ {xs : List Json} {l : List α}, mapME f xs = .ok l →
      ∀ a ∈ l, ∃ x ∈ xs, f x = .ok a := by
  intro xs
  induction xs with
  | nil => intro l h a ha; simp only [mapME] at h; cases h; cases ha
  | cons x t ih =>
    intro l h a ha
    simp only [mapME] at h
    cases hfx : f x with
    | error e => rw [hfx] at h; exact Except.noConfusion h
    | ok b =>
      rw [hfx] at h
      cases hmt : mapME f t with
      | error e => rw [hmt] at h; exact Except.noConfusion h
      | ok bs =>
        rw [hmt] at h
        have h2 : Except.ok (b :: bs) = Except.ok l := h
        cases h2
        rcases List.mem_cons.mp ha with h1 | h2
        · exact ⟨x, by simp, h1 ▸ hfx⟩
        · obtain ⟨y, hy, hfy⟩ := ih hmt a h2
          exact ⟨y, by simp [hy], hfy⟩

theorem jArr_wf {P : α → Prop} {f : Json → Except String α} {j : Json} {l : List α}
    (hf : ∀ w a, f w = .ok a → P a) (h : jArr f j = .ok l) : listP P l := by
  cases j <;> try exact Except.noConfusion h
  case arr xs =>
    intro a ha
    obtain ⟨x, _, hfx⟩ := mapME_ok_mem h a ha
    exact hf x a hfx

theorem mapMStr_keys : ∀ {kvs : List (String × Json)} {l : List (String × String)},
    mapMStr kvs = .ok l → l.map Prod.fst = kvs.map Prod.fst := by
  intro kvs
  induction kvs with
  | nil => intro l h; simp only [mapMStr] at h; cases h; rfl
  | cons kv t ih =>
    intro l h
    simp only [mapMStr] at h
    cases hfx : jStr kv.2 with
    | error e => rw [hfx] at h; exact Except.noConfusion h
    | ok s =>
      rw [hfx] at h
      cases hmt : mapMStr t with
      | error e => rw [hmt] at h; exact Except.noConfusion h
      | ok rest =>
        rw [hmt] at h
        have h2 : Except.ok ((kv.1, s) :: rest) = Except.ok l := h
        cases h2
        simp only [List.map_cons, ih hmt]

theorem jStrMap_wf {j : Json} {l : List (String × String)} (h : jStrMap j = .ok l) :
    strMapP l := by
  cases j <;> try exact Except.noConfusion h
  case obj kvs =>
    show (l.map Prod.fst).Nodup
    rw [mapMStr_keys h]
    exact dedupKeys_nodup kvs

theorem mapMKV_wf {P : α → Prop} {f : Json → Except String α}
    (hf : ∀ w a, f w = .ok a → P a) :
    ∀ {kvs : List (String × Json)} {l : List (String × α)}, mapMKV f kvs = .ok l →
      l.map Prod.fst = kvs.map Prod.fst ∧ ∀ kv ∈ l, P kv.2 := by
  intro kvs
  induction kvs with
  | nil => intro l h; simp only [mapMKV] at h; cases h; exact ⟨rfl, by intro kv hkv; cases hkv⟩
  | cons kv t ih =>
    intro l h
    simp only [mapMKV] at h
    cases hfx : f kv.2 with
    | error e => rw [hfx] at h; exact Except.noConfusion h
    | ok a =>
      rw [hfx] at h
      cases hmt : mapMKV f t with
      | error e => rw [hmt] at h; exact Except.noConfusion h
      | ok as =>
        rw [hmt] at h
        have h2 : Except.ok ((kv.1, a) :: as) = Except.ok l := h
        cases h2
        obtain ⟨hkeys, hvals⟩ := ih hmt
        refine ⟨by simp only [List.map_cons, hkeys], ?_⟩
        intro p hp
        rcases List.mem_cons.mp hp with h1 | h2
        · subst h1; exact hf kv.2 a hfx
        · exact hvals p h2

theorem jMapOf_wf {P : α → Prop} {f : Json → Except String α} {j : Json}
    {l : List (String × α)} (hf : ∀ w a, f w = .ok a → P a) (h : jMapOf f j = .ok l) :
    (l.map Prod.fst).Nodup ∧ ∀ kv ∈ l, P kv.2 := by
  cases j <;> try exact Except.noConfusion h
  case obj kvs =>
    obtain ⟨hkeys, hvals⟩ := mapMKV_wf hf h
    exact ⟨hkeys ▸ dedupKeys_nodup kvs, hvals⟩

theorem hexVal_lt {c : Char} {d : Nat} (h : hexVal c = some d) : d < 16 := by
  unfold hexVal at h
  by_cases h1 : isDigitChar c = true
  · rw [if_pos h1] at h
    by_cases h2 : digitVal c < 10
    · rw [if_pos h2] at h; cases h; omega
    · rw [if_neg h2] at h; exact Option.noConfusion h
  · rw [if_neg h1] at h
    by_cases h2 : (c == 'a' || c == 'A') = true
    · rw [if_pos h2] at h; cases h; omega
    · rw [if_neg h2] at h
      by_cases h3 : (c == 'b' || c == 'B') = true
      · rw [if_pos h3] at h; cases h; omega
      · rw [if_neg h3] at h
        by_cases h4 : (c == 'c' || c == 'C') = true
        · rw [if_pos h4] at h; cases h; omega
        · rw [if_neg h4] at h
          by_cases h5 : (c == 'd' || c == 'D') = true
          · rw [if_pos h5] at h; cases h; omega
          · rw [if_neg h5] at h
            by_cases h6 : (c == 'e' || c == 'E') = true
            · rw [if_pos h6] at h; cases h; omega
            · rw [if_neg h6] at h
              by_cases h7 : (c == 'f' || c == 'F') = true
              · rw [if_pos h7] at h; cases h; omega
              · rw [if_neg h7] at h; exact Option.noConfusion h

theorem uuidGroup_ok : ∀ (k : Nat) (cs : List Char) (ds : List Nat) (rest : List Char),
    uuidGroup k cs = some (ds, rest) → ds.length = k ∧ ∀ d ∈ ds, d < 16 := by
  intro k
  induction k with
  | zero =>
    intro cs ds rest h
    cases h
    exact ⟨rfl, by intro d hd; cases hd⟩
  | succ k ih =>
    intro cs ds rest h
    cases cs with
    | nil => exact Option.noConfusion h
    | cons c cs =>
      have h2 : (hexVal c).bind (fun d => (uuidGroup k cs).bind fun p =>
          some (d :: p.1, p.2)) = some (ds, rest) := h
      rw [Option.bind_eq_some] at h2
      obtain ⟨d, hd, h2⟩ := h2
      rw [Option.bind_eq_some] at h2
      obtain ⟨p, hp, h2⟩ := h2
      cases h2
      obtain ⟨hl, hb⟩ := ih cs p.1 p.2 hp
      refine ⟨by simp [hl], ?_⟩
      intro x hx
      rcases List.mem_cons.mp hx with h1 | h2
      · exact h1 ▸ hexVal_lt hd
      · exact hb x h2

theorem uuidSimple_ok {cs : List Char} {u : List Nat} (h : uuidSimple cs = some u) :
    uuidP u := by
  unfold uuidSimple at h
  simp only [Option.bind_eq_bind] at h
  rw [Option.bind_eq_some] at h
  obtain ⟨p, hp, h⟩ := h
  obtain ⟨ds, rest⟩ := p
  cases rest with
  | nil =>
    cases h
    exact uuidGroup_ok 32 cs ds [] hp
  | cons c r => exact Option.noConfusion h

theorem uuidHyphenated_ok {cs : List Char} {u : List Nat}
    (h : uuidHyphenated cs = some u) : uuidP u := by
  unfold uuidHyphenated at h
  simp only [Option.bind_eq_bind] at h
  rw [Option.bind_eq_some] at h
  obtain ⟨p1, hp1, h⟩ := h
  split at h
  case h_2 => exact Option.noConfusion h
  case h_1 r1 heq1 =>
  rw [Option.bind_eq_some] at h
  obtain ⟨p2, hp2, h⟩ := h
  split at h
  case h_2 => exact Option.noConfusion h
  case h_1 r2 heq2 =>
  rw [Option.bind_eq_some] at h
  obtain ⟨p3, hp3, h⟩ := h
  split at h
  case h_2 => exact Option.noConfusion h
  case h_1 r3 heq3 =>
  rw [Option.bind_eq_some] at h
  obtain ⟨p4, hp4, h⟩ := h
  split at h
  case h_2 => exact Option.noConfusion h
  case h_1 r4 heq4 =>
  rw [Option.bind_eq_some] at h
  obtain ⟨p5, hp5, h⟩ := h
  split at h
  case h_2 => exact Option.noConfusion h
  case h_1 heq5 =>
  cases h
  obtain ⟨l1, b1⟩ := uuidGroup_ok 8 cs p1.1 p1.2 hp1
  obtain ⟨l2, b2⟩ := uuidGroup_ok 4 r1 p2.1 p2.2 hp2
  obtain ⟨l3, b3⟩ := uuidGroup_ok 4 r2 p3.1 p3.2 hp3
  obtain ⟨l4, b4⟩ := uuidGroup_ok 4 r3 p4.1 p4.2 hp4
  obtain ⟨l5, b5⟩ := uuidGroup_ok 12 r4 p5.1 p5.2 hp5
  constructor
  · simp [List.length_append, l1, l2, l3, l4, l5]
  · intro d hd
    simp only [List.mem_append] at hd
    rcases hd with ((((hd | hd) | hd) | hd) | hd)
    · exact b1 d hd
    · exact b2 d hd
    · exact b3 d hd
    · exact b4 d hd
    · exact b5 d hd

theorem uuidParse_ok {s : String} {u : List Nat} (h : uuidParse s = some u) : uuidP u := by
  unfold uuidParse at h
  split at h
  case h_1 v heq =>
    cases h
    exact uuidSimple_ok heq
  case h_2 =>
  split at h
  case h_1 v heq =>
    cases h
    exact uuidHyphenated_ok heq
  case h_2 =>
  have h2 : (match uuidSimple (dropBraces (stripUrn s.data)) with
    | some v => some v
    | none => uuidHyphenated (dropBraces (stripUrn s.data))) = some u := h
  split at h2
  case h_1 v heq =>
    cases h2
    exact uuidSimple_ok heq
  case h_2 => exact uuidHyphenated_ok h2

theorem jUuid_ok {j : Json} {u : List Nat} (h : jUuid j = .ok u) : uuidP u := by
  cases j <;> try exact Except.noConfusion h
  case str s =>
    have h2 : (match uuidParse s with
      | some v => Except.ok v
      | none => Except.error "UUID parsing failed") = Except.ok u := h
    split at h2
    case h_1 v heq => cases h2; exact uuidParse_ok heq
    case h_2 => exact Except.noConfusion h2

theorem PrimitiveType_deserialize_wf {s : Str} {p : PrimitiveType}
    (h : PrimitiveType.deserialize s = .ok p) : p.wf := by
  unfold PrimitiveType.deserialize at h
  split at h
  · obtain ⟨n, hn, hlt⟩ := try_fixed_ok h
    subst hn; exact hlt
  · split at h
    · obtain ⟨pp, ss, hps, hp, hs⟩ := try_decimal_ok h
      subst hps; exact ⟨hp, hs⟩
    · split at h <;> first | (cases h; trivial) | exact Except.noConfusion h

theorem Transform_deserialize_wf {s : String} {t : Transform}
    (h : Transform.deserialize s = .ok t) : t.wf := by
  unfold Transform.deserialize at h
  split at h
  · obtain ⟨n, hn, hlt⟩ := try_bucket_ok h
    subst hn; exact hlt
  · split at h
    · obtain ⟨n, hn, hlt⟩ := try_truncate_ok h
      subst hn; exact hlt
    · split at h <;> first | (cases h; trivial) | exact Except.noConfusion h

theorem jTransform_wf {j : Json} {t : Transform} (h : jTransform j = .ok t) : t.wf := by
  cases j <;> try exact Except.noConfusion h
  case str s => exact Transform_deserialize_wf h

theorem SnapshotLog_deserialize_wf {j : Json} {l : SnapshotLog}
    (h : SnapshotLog.deserialize j = .ok l) : l.wf := by
  cases j <;> try exact Except.noConfusion h
  case obj kvs =>
    simp only [SnapshotLog.deserialize, bindE_eq_ok] at h
    obtain ⟨sid, h1, ts, h2, h3⟩ := h
    cases h3
    obtain ⟨v1, _, hv1⟩ := getJ_ok h1
    obtain ⟨v2, _, hv2⟩ := getJ_ok h2
    exact ⟨jI64_ok hv1, jI64_ok hv2⟩

theorem MetadataLog_deserialize_wf {j : Json} {l : MetadataLog}
    (h : MetadataLog.deserialize j = .ok l) : l.wf := by
  cases j <;> try exact Except.noConfusion h
  case obj kvs =>
    simp only [MetadataLog.deserialize, bindE_eq_ok] at h
    obtain ⟨mf, h1, ts, h2, h3⟩ := h
    cases h3
    obtain ⟨v2, _, hv2⟩ := getJ_ok h2
    exact jI64_ok hv2

theorem Summary_deserialize_wf {j : Json} {s : Summary}
    (h : Summary.deserialize j = .ok s) : s.wf := by
  cases j <;> try exact Except.noConfusion h
  case obj kvs =>
    simp only [Summary.deserialize, bindE_eq_ok] at h
    obtain ⟨op, h1, rest, h2, h3⟩ := h
    cases h3
    constructor
    · show (rest.map Prod.fst).Nodup
      rw [mapMStr_keys h2]
      exact List.Nodup.sublist (List.Sublist.map Prod.fst (List.filter_sublist _))
        (dedupKeys_nodup kvs)
    · show "operation" ∉ rest.map Prod.fst
      rw [mapMStr_keys h2]
      intro hmem
      obtain ⟨kv, hkv, hfst⟩ := List.mem_map.mp hmem
      have hp := List.of_mem_filter hkv
      simp [hfst] at hp

theorem SnapshotV2_deserialize_wf {j : Json} {s : SnapshotV2}
    (h : SnapshotV2.deserialize j = .ok s) : s.wf := by
  cases j <;> try exact Except.noConfusion h
  case obj kvs =>
    simp only [SnapshotV2.deserialize, bindE_eq_ok] at h
    obtain ⟨sid, h1, psid, h2, seq, h3, ts, h4, sm, h5, ml, h6, sch, h7, h8⟩ := h
    cases h8
    obtain ⟨v1, _, hv1⟩ := getJ_ok h1
    obtain ⟨v3, _, hv3⟩ := getJ_ok h3
    obtain ⟨v4, _, hv4⟩ := getJ_ok h4
    obtain ⟨v5, _, hv5⟩ := getJ_ok h5
    exact ⟨jI64_ok hv1, optJ_wf (fun w a ha => jI64_ok ha) h2, jI64_ok hv3, jI64_ok hv4,
      Summary_deserialize_wf hv5, optJ_wf (fun w a ha => jI32_ok ha) h7⟩

theorem SnapshotV1_deserializeFields_wf {j : Json} {s : SnapshotV1}
    (h : SnapshotV1.deserializeFields j = .ok s) :
    i64P s.snapshot_id ∧ optP i64P s.parent_snapshot_id ∧ i64P s.timestamp_ms ∧
      optP Summary.wf s.summary ∧ optP i64P s.schema_id := by
  cases j <;> try exact Except.noConfusion h
  case obj kvs =>
    simp only [SnapshotV1.deserializeFields, bindE_eq_ok] at h
    obtain ⟨sid, h1, psid, h2, ts, h3, ml, h4, ms, h5, sm, h6, sch, h7, h8⟩ := h
    cases h8
    obtain ⟨v1, _, hv1⟩ := getJ_ok h1
    obtain ⟨v3, _, hv3⟩ := getJ_ok h3
    exact ⟨jI64_ok hv1, optJ_wf (fun w a ha => jI64_ok ha) h2, jI64_ok hv3,
      optJ_wf (fun w a ha => Summary_deserialize_wf ha) h6,
      optJ_wf (fun w a ha => jI64_ok ha) h7⟩

theorem SnapshotV1_deserialize_wf {j : Json} {s : SnapshotV1}
    (h : SnapshotV1.deserialize j = .ok s) : s.wf := by
  unfold SnapshotV1.deserialize at h
  split at h
  case h_1 s0 heq =>
    split at h
    · exact Except.noConfusion h
    · rename_i hcond
      cases h
      obtain ⟨h1, h2, h3, h4, h5⟩ := SnapshotV1_deserializeFields_wf heq
      exact ⟨h1, h2, h3, h4, h5, fun hab => hcond (by simp [hab.1, hab.2])⟩
  case h_2 => exact Except.noConfusion h

theorem RefType_deserializeTagged_wf {kvs : List (String × Json)} {ty : String}
    {rt : RefType} (h : RefType.deserializeTagged kvs ty = .ok rt) : rt.wf := by
  unfold RefType.deserializeTagged at h
  split at h
  · simp only [bindE_eq_ok] at h
    obtain ⟨mk, h1, ma, h2, h3⟩ := h
    cases h3
    exact ⟨optJ_wf (fun w a ha => jI32_ok ha) h1, optJ_wf (fun w a ha => jI64_ok ha) h2⟩
  · cases h; trivial
  · exact Except.noConfusion h

theorem SnapshotRefV2_deserialize_wf {j : Json} {r : SnapshotRefV2}
    (h : SnapshotRefV2.deserialize j = .ok r) : r.wf := by
  cases j <;> try exact Except.noConfusion h
  case obj kvs =>
    simp only [SnapshotRefV2.deserialize, bindE_eq_ok] at h
    obtain ⟨sid, h1, ty, h2, rt, h3, mra, h4, h5⟩ := h
    cases h5
    obtain ⟨v1, _, hv1⟩ := getJ_ok h1
    exact ⟨jI64_ok hv1, RefType_deserializeTagged_wf h3,
      optJ_wf (fun w a ha => jI64_ok ha) h4⟩

theorem PartitionField_deserialize_wf {j : Json} {f : PartitionField}
    (h : PartitionField.deserialize j = .ok f) : f.wf := by
  cases j <;> try exact Except.noConfusion h
  case obj kvs =>
    simp only [PartitionField.deserialize, bindE_eq_ok] at h
    obtain ⟨sid, h1, fid, h2, name, h3, tr, h4, h5⟩ := h
    cases h5
    obtain ⟨v1, _, hv1⟩ := getJ_ok h1
    obtain ⟨v2, _, hv2⟩ := getJ_ok h2
    obtain ⟨v4, _, hv4⟩ := getJ_ok h4
    exact ⟨jI32_ok hv1, jI32_ok hv2, jTransform_wf hv4⟩

theorem PartitionSpec_deserialize_wf {j : Json} {s : PartitionSpec}
    (h : PartitionSpec.deserialize j = .ok s) : s.wf := by
  cases j <;> try exact Except.noConfusion h
  case obj kvs =>
    simp only [PartitionSpec.deserialize, bindE_eq_ok] at h
    obtain ⟨sid, h1, fields, h2, h3⟩ := h
    cases h3
    obtain ⟨v1, _, hv1⟩ := getJ_ok h1
    obtain ⟨v2, _, hv2⟩ := getJ_ok h2
    exact ⟨jI32_ok hv1, jArr_wf (fun w a ha => PartitionField_deserialize_wf ha) hv2⟩

theorem SortField_deserialize_wf {j : Json} {f : SortField}
    (h : SortField.deserialize j = .ok f) : f.wf := by
  cases j <;> try exact Except.noConfusion h
  case obj kvs =>
    simp only [SortField.deserialize, bindE_eq_ok] at h
    obtain ⟨tr, h1, sid, h2, dir, h3, no, h4, h5⟩ := h
    cases h5
    obtain ⟨v1, _, hv1⟩ := getJ_ok h1
    obtain ⟨v2, _, hv2⟩ := getJ_ok h2
    exact ⟨jTransform_wf hv1, jI32_ok hv2⟩

theorem SortOrders_deserialize_wf {j : Json} {s : SortOrders}
    (h : SortOrders.deserialize j = .ok s) : s.wf := by
  cases j <;> try exact Except.noConfusion h
  case obj kvs =>
    simp only [SortOrders.deserialize, bindE_eq_ok] at h
    obtain ⟨oid, h1, fields, h2, h3⟩ := h
    cases h3
    obtain ⟨v1, _, hv1⟩ := getJ_ok h1
    obtain ⟨v2, _, hv2⟩ := getJ_ok h2
    exact ⟨jI32_ok hv1, jArr_wf (fun w a ha => SortField_deserialize_wf ha) hv2⟩

theorem orE_ok {a : Except String α} {b : Unit → Except String α} {v : α}
    (h : orE a b = .ok v) : a = .ok v ∨ b () = .ok v := by
  unfold orE at h
  cases hx : a with
  | ok w =>
    rw [hx] at h
    have h2 : Except.ok w = Except.ok v := h
    cases h2
    exact Or.inl rfl
  | error e =>
    rw [hx] at h
    exact Or.inr h

theorem wfFields_of_forall : ∀ {fs : List StructField}, (∀ f ∈ fs, wfField f) →
    wfFields fs := by
  intro fs
  induction fs with
  | nil => intro _; trivial
  | cons f t ih =>
    intro h
    exact ⟨h f (by simp), ih fun g hg => h g (by simp [hg])⟩

theorem decodeStructFieldWith_wf {decT : Json → Except String IcebergType}
    (hdec : ∀ w t, decT w = .ok t → wfIceberg t) {j : Json} {f : StructField}
    (h : decodeStructFieldWith decT j = .ok f) : wfField f := by
  cases j <;> try exact Except.noConfusion h
  case obj kvs =>
    simp only [decodeStructFieldWith, bindE_eq_ok] at h
    obtain ⟨id, h1, name, h2, req, h3, ft, h4, doc, h5, idf, h6, wd, h7, h8⟩ := h
    cases h8
    obtain ⟨v1, _, hv1⟩ := getJ_ok h1
    obtain ⟨v4, _, hv4⟩ := getJ_ok h4
    exact ⟨jI32_ok hv1, hdec v4 ft hv4⟩

theorem tryStructWith_wf {decT : Json → Except String IcebergType}
    (hdec : ∀ w t, decT w = .ok t → wfIceberg t) {kvs : List (String × Json)}
    {s : StructType} (h : tryStructWith decT kvs = .ok s) : wfStructT s := by
  simp only [tryStructWith, bindE_eq_ok] at h
  obtain ⟨fields, h1, h2⟩ := h
  cases h2
  obtain ⟨v1, _, hv1⟩ := getJ_ok h1
  exact wfFields_of_forall
    (jArr_wf (fun w a ha => decodeStructFieldWith_wf hdec ha) hv1)

theorem tryListWith_wf {decT : Json → Except String IcebergType}
    (hdec : ∀ w t, decT w = .ok t → wfIceberg t) {kvs : List (String × Json)}
    {l : ListType} (h : tryListWith decT kvs = .ok l) : wfListT l := by
  simp only [tryListWith, bindE_eq_ok] at h
  obtain ⟨eid, h1, ereq, h2, el, h3, h4⟩ := h
  cases h4
  obtain ⟨v1, _, hv1⟩ := getJ_ok h1
  obtain ⟨v3, _, hv3⟩ := getJ_ok h3
  exact ⟨jI32_ok hv1, hdec v3 el hv3⟩

theorem tryMapWith_wf {decT : Json → Except String IcebergType}
    (hdec : ∀ w t, decT w = .ok t → wfIceberg t) {kvs : List (String × Json)}
    {m : MapType} (h : tryMapWith decT kvs = .ok m) : wfMapT m := by
  simp only [tryMapWith, bindE_eq_ok] at h
  obtain ⟨kid, h1, k, h2, vid, h3, vreq, h4, v, h5, h6⟩ := h
  cases h6
  obtain ⟨v1, _, hv1⟩ := getJ_ok h1
  obtain ⟨v2, _, hv2⟩ := getJ_ok h2
  obtain ⟨v3, _, hv3⟩ := getJ_ok h3
  obtain ⟨v5, _, hv5⟩ := getJ_ok h5
  exact ⟨jI32_ok hv1, hdec v2 k hv2, jI32_ok hv3, hdec v5 v hv5⟩

theorem decodeIcebergTypeF_wf : ∀ (fuel : Nat) (j : Json) (t : IcebergType),
    decodeIcebergTypeF fuel j = .ok t → wfIceberg t := by
  intro fuel
  induction fuel with
  | zero => intro j t h; exact Except.noConfusion h
  | succ fuel ih =>
    intro j t h
    cases j <;> try exact Except.noConfusion h
    case str s =>
      have h2 : (match PrimitiveType.deserialize s with
        | .ok q => Except.ok (IcebergType.Primitive q)
        | .error _ => Except.error untaggedTypeErr) = Except.ok t := h
      split at h2
      case h_1 q heq => cases h2; exact PrimitiveType_deserialize_wf heq
      case h_2 => exact Except.noConfusion h2
    case obj kvs =>
      have h2 : orE ((tryStructWith (decodeIcebergTypeF fuel) kvs).map .Struct) (fun _ =>
        orE ((tryListWith (decodeIcebergTypeF fuel) kvs).map .List) fun _ =>
          orE ((tryMapWith (decodeIcebergTypeF fuel) kvs).map .Map) fun _ =>
            .error untaggedTypeErr) = .ok t := h
      rcases orE_ok h2 with h3 | h3
      · cases hx : tryStructWith (decodeIcebergTypeF fuel) kvs with
        | ok s =>
          rw [hx] at h3
          cases h3
          exact tryStructWith_wf (fun w u hu => ih w u hu) hx
        | error e => rw [hx] at h3; exact Except.noConfusion h3
      rcases orE_ok h3 with h4 | h4
      · cases hx : tryListWith (decodeIcebergTypeF fuel) kvs with
        | ok l =>
          rw [hx] at h4
          cases h4
          exact tryListWith_wf (fun w u hu => ih w u hu) hx
        | error e => rw [hx] at h4; exact Except.noConfusion h4
      rcases orE_ok h4 with h5 | h5
      · cases hx : tryMapWith (decodeIcebergTypeF fuel) kvs with
        | ok m =>
          rw [hx] at h5
          cases h5
          exact tryMapWith_wf (fun w u hu => ih w u hu) hx
        | error e => rw [hx] at h5; exact Except.noConfusion h5
      exact Except.noConfusion h5

theorem decodeIcebergType_wf {j : Json} {t : IcebergType}
    (h : decodeIcebergType j = .ok t) : wfIceberg t :=
  decodeIcebergTypeF_wf (Json.size j) j t h

theorem IcebergSchemaV2_deserialize_wf {j : Json} {s : IcebergSchemaV2}
    (h : IcebergSchemaV2.deserialize j = .ok s) : s.wf := by
  cases j <;> try exact Except.noConfusion h
  case obj kvs =>
    simp only [IcebergSchemaV2.deserialize, bindE_eq_ok] at h
    obtain ⟨sid, h1, idf, h2, fields, h3, h4⟩ := h
    cases h4
    obtain ⟨v1, _, hv1⟩ := getJ_ok h1
    obtain ⟨v3, _, hv3⟩ := getJ_ok h3
    exact ⟨jI32_ok hv1,
      optJ_wf (fun w a ha => jArr_wf (fun w2 b hb => jI32_ok hb) ha) h2,
      wfFields_of_forall
        (jArr_wf (fun w a ha => decodeStructFieldWith_wf
          (fun w2 u hu => decodeIcebergType_wf hu) ha) hv3)⟩

theorem IcebergSchemaV1_deserialize_wf {j : Json} {s : IcebergSchemaV1}
    (h : IcebergSchemaV1.deserialize j = .ok s) : s.wf := by
  cases j <;> try exact Except.noConfusion h
  case obj kvs =>
    simp only [IcebergSchemaV1.deserialize, bindE_eq_ok] at h
    obtain ⟨sid, h1, idf, h2, fields, h3, h4⟩ := h
    cases h4
    obtain ⟨v3, _, hv3⟩ := getJ_ok h3
    exact ⟨optJ_wf (fun w a ha => jI32_ok ha) h1,
      optJ_wf (fun w a ha => jArr_wf (fun w2 b hb => jI32_ok hb) ha) h2,
      wfFields_of_forall
        (jArr_wf (fun w a ha => decodeStructFieldWith_wf
          (fun w2 u hu => decodeIcebergType_wf hu) ha) hv3)⟩

theorem TableMetadataV2_deserialize_wf_fv {j : Json} {m : TableMetadataV2}
    (h : TableMetadataV2.deserialize j = .ok m) :
    m.wf ∧ ∃ v, j.get? "format-version" = some v ∧ jI32 v = .ok m.format_version := by
  cases j <;> try exact Except.noConfusion h
  case obj kvs =>
    simp only [TableMetadataV2.deserialize, bindE_eq_ok] at h
    obtain ⟨fv, h1, uuid, h2, loc, h3, lsn, h4, lum, h5, lci, h6, schemas, h7, csi, h8,
      pspecs, h9, dsi, h10, lpi, h11, props, h12, csnap, h13, snaps, h14, slog, h15,
      mlog, h16, sorts, h17, dsoi, h18, refs, h19, stats, h20, h21⟩ := h
    cases h21
    obtain ⟨v1, hl1, hv1⟩ := getJ_ok h1
    obtain ⟨v2, _, hv2⟩ := getJ_ok h2
    obtain ⟨v4, _, hv4⟩ := getJ_ok h4
    obtain ⟨v5, _, hv5⟩ := getJ_ok h5
    obtain ⟨v6, _, hv6⟩ := getJ_ok h6
    obtain ⟨v7, _, hv7⟩ := getJ_ok h7
    obtain ⟨v8, _, hv8⟩ := getJ_ok h8
    obtain ⟨v9, _, hv9⟩ := getJ_ok h9
    obtain ⟨v10, _, hv10⟩ := getJ_ok h10
    obtain ⟨v11, _, hv11⟩ := getJ_ok h11
    obtain ⟨v17, _, hv17⟩ := getJ_ok h17
    obtain ⟨v18, _, hv18⟩ := getJ_ok h18
    refine ⟨⟨jI32_ok hv1, jUuid_ok hv2, jI64_ok hv4, jI64_ok hv5, jI32_ok hv6,
      jArr_wf (fun w a ha => IcebergSchemaV2_deserialize_wf ha) hv7, jI32_ok hv8,
      jArr_wf (fun w a ha => PartitionSpec_deserialize_wf ha) hv9, jI32_ok hv10,
      jI32_ok hv11, optJ_wf (fun w a ha => jStrMap_wf ha) h12,
      optJ_wf (fun w a ha => jI64_ok ha) h13,
      optJ_wf (fun w a ha => jArr_wf (fun w2 b hb => SnapshotV2_deserialize_wf hb) ha) h14,
      optJ_wf (fun w a ha => jArr_wf (fun w2 b hb => SnapshotLog_deserialize_wf hb) ha) h15,
      optJ_wf (fun w a ha => jArr_wf (fun w2 b hb => MetadataLog_deserialize_wf hb) ha) h16,
      jArr_wf (fun w a ha => SortOrders_deserialize_wf ha) hv17, jI32_ok hv18,
      optJ_wf (fun w a ha =>
        jMapOf_wf (fun w2 r hr => SnapshotRefV2_deserialize_wf hr) ha) h19⟩,
      v1, hl1, hv1⟩

theorem TableMetadataV1_deserialize_wf_fv {j : Json} {m : TableMetadataV1}
    (h : TableMetadataV1.deserialize j = .ok m) :
    m.wf ∧ ∃ v, j.get? "format-version" = some v ∧ jI32 v = .ok m.format_version := by
  cases j <;> try exact Except.noConfusion h
  case obj kvs =>
    simp only [TableMetadataV1.deserialize, bindE_eq_ok] at h
    obtain ⟨fv, h1, uuid, h2, loc, h3, lum, h4, lci, h5, schema, h6, schemas, h7, csi, h8,
      pspec, h9, pspecs, h10, dsi, h11, lpi, h12, props, h13, csnap, h14, snaps, h15,
      slog, h16, mlog, h17, sorts, h18, dsoi, h19, stats, h20, h21⟩ := h
    cases h21
    obtain ⟨v1, hl1, hv1⟩ := getJ_ok h1
    obtain ⟨v4, _, hv4⟩ := getJ_ok h4
    obtain ⟨v5, _, hv5⟩ := getJ_ok h5
    obtain ⟨v6, _, hv6⟩ := getJ_ok h6
    obtain ⟨v9, _, hv9⟩ := getJ_ok h9
    obtain ⟨v10, _, hv10⟩ := getJ_ok h10
    obtain ⟨v19, _, hv19⟩ := getJ_ok h19
    refine ⟨⟨jI32_ok hv1, optJ_wf (fun w a ha => jUuid_ok ha) h2, jI64_ok hv4,
      jI32_ok hv5, IcebergSchemaV1_deserialize_wf hv6,
      optJ_wf (fun w a ha =>
        jArr_wf (fun w2 b hb => IcebergSchemaV1_deserialize_wf hb) ha) h7,
      optJ_wf (fun w a ha => jI32_ok ha) h8,
      jArr_wf (fun w a ha => PartitionField_deserialize_wf ha) hv9,
      jArr_wf (fun w a ha => PartitionSpec_deserialize_wf ha) hv10,
      optJ_wf (fun w a ha => jI32_ok ha) h11, optJ_wf (fun w a ha => jI32_ok ha) h12,
      optJ_wf (fun w a ha => jStrMap_wf ha) h13, optJ_wf (fun w a ha => jI64_ok ha) h14,
      optJ_wf (fun w a ha => jArr_wf (fun w2 b hb => SnapshotV1_deserialize_wf hb) ha) h15,
      optJ_wf (fun w a ha => jArr_wf (fun w2 b hb => SnapshotLog_deserialize_wf hb) ha) h16,
      optJ_wf (fun w a ha => jArr_wf (fun w2 b hb => MetadataLog_deserialize_wf hb) ha) h17,
      optJ_wf (fun w a ha => jArr_wf (fun w2 b hb => SortOrders_deserialize_wf hb) ha) h18,
      jI32_ok hv19⟩,
      v1, hl1, hv1⟩

/-- L1 at the dispatch level: every decoded `TableMetadata` is
well-formed, in particular the inner `format_version` field equals the
dispatched discriminant. -/
theorem TableMetadata_deserialize_wf {j : Json} {t : TableMetadata}
    (h : TableMetadata.deserialize j = .ok t) : t.wf := by
  unfold TableMetadata.deserialize at h
  split at h
  case h_1 => exact Except.noConfusion h
  case h_2 fv heq =>
  split at h
  case h_1 => exact Except.noConfusion h
  case h_2 n heq2 =>
  split at h
  · -- n = 2
    rename_i hn2
    split at h
    case h_1 m heq3 =>
      cases h
      obtain ⟨hwf, v, hv, hfv⟩ := TableMetadataV2_deserialize_wf_fv heq3
      rw [heq] at hv
      cases hv
      have hnum := jAsI64_num heq2
      subst hnum
      subst hn2
      have hfv2 : Except.ok (2 : Int) = Except.ok m.format_version := hfv
      injection hfv2 with hfv3
      exact ⟨hwf, hfv3.symm⟩
    case h_2 => exact Except.noConfusion h
  · split at h
    · -- n = 1
      rename_i hn1
      split at h
      case h_1 m heq3 =>
        cases h
        obtain ⟨hwf, v, hv, hfv⟩ := TableMetadataV1_deserialize_wf_fv heq3
        rw [heq] at hv
        cases hv
        have hnum := jAsI64_num heq2
        subst hnum
        subst hn1
        have hfv2 : Except.ok (1 : Int) = Except.ok m.format_version := hfv
        injection hfv2 with hfv3
        exact ⟨hwf, hfv3.symm⟩
      case h_2 => exact Except.noConfusion h
    · exact Except.noConfusion h

/-- C1: every decodable table-metadata document round-trips — decoding,
re-encoding and decoding again returns the model of the first decode. -/
theorem c1_metadata_roundtrip (j : Json) (t : TableMetadata)
    (h : TableMetadata.deserialize j = .ok t) :
    TableMetadata.deserialize (TableMetadata.serialize t) = .ok t :=
  TableMetadata_roundtrip (TableMetadata_deserialize_wf h)

theorem c1_metadata_roundtrip_witness :
    (TableMetadata.deserialize sampleDocV2 = .ok (.V2 sampleMetaV2) ∧
      TableMetadata.deserialize (TableMetadata.serialize (.V2 sampleMetaV2)) =
        .ok (.V2 sampleMetaV2)) ∧
    (TableMetadata.deserialize sampleDocV1 = .ok (.V1 sampleMetaV1) ∧
      TableMetadata.deserialize (TableMetadata.serialize (.V1 sampleMetaV1)) =
        .ok (.V1 sampleMetaV1)) :=
  ⟨⟨rfl, c1_metadata_roundtrip sampleDocV2 (.V2 sampleMetaV2) rfl⟩,
    ⟨rfl, c1_metadata_roundtrip sampleDocV1 (.V1 sampleMetaV1) rfl⟩⟩

/-- C2: the version dispatch — a missing `format-version` key is an
error, a non-integer value is an error, 1 routes to the V1 decoder,
2 routes to the V2 decoder, and every other integer is an
unsupported-version error. -/
theorem c2_version_dispatch (j : Json) :
    (j.get? "format-version" = none →
      TableMetadata.deserialize j =
        .error "Unable to find 'format-version' key in metadata") ∧
    (∀ fv, j.get? "format-version" = some fv → jAsI64 fv = none →
      TableMetadata.deserialize j =
        .error ("Invalid 'format-version' in metadata: " ++ reprJson fv)) ∧
    (∀ fv, j.get? "format-version" = some fv → jAsI64 fv = some 1 →
      TableMetadata.deserialize j =
        (match TableMetadataV1.deserialize j with
          | .ok m => .ok (.V1 m)
          | .error e =>
            .error ("Unable to deserialize version 1 metadata: error: " ++ e))) ∧
    (∀ fv, j.get? "format-version" = some fv → jAsI64 fv = some 2 →
      TableMetadata.deserialize j =
        (match TableMetadataV2.deserialize j with
          | .ok m => .ok (.V2 m)
          | .error e =>
            .error ("Unable to deserialize version 2 metadata: error: " ++ e))) ∧
    (∀ fv n, j.get? "format-version" = some fv → jAsI64 fv = some n → n ≠ 1 → n ≠ 2 →
      TableMetadata.deserialize j =
        .error ("Unsupported metadata format-version " ++ intToString n)) := by
  refine ⟨?_, ?_, ?_, ?_, ?_⟩
  · intro h
    unfold TableMetadata.deserialize
    rw [h]
  · intro fv h1 h2
    unfold TableMetadata.deserialize
    simp only [h1, h2]
  · intro fv h1 h2
    unfold TableMetadata.deserialize
    simp only [h1, h2]
    norm_num
  · intro fv h1 h2
    unfold TableMetadata.deserialize
    simp only [h1, h2]
    norm_num
  · intro fv n h1 h2 hn1 hn2
    unfold TableMetadata.deserialize
    simp only [h1, h2]
    rw [if_neg hn2, if_neg hn1]

theorem c2_version_dispatch_witness :
    (TableMetadata.deserialize (.obj []) =
      .error "Unable to find 'format-version' key in metadata") ∧
    (TableMetadata.deserialize (.obj [("format-version", .str "x")]) =
      .error ("Invalid 'format-version' in metadata: " ++ reprJson (.str "x"))) ∧
    (TableMetadata.deserialize (.obj [("format-version", .num 1)]) =
      (match TableMetadataV1.deserialize (.obj [("format-version", .num 1)]) with
        | .ok m => .ok (.V1 m)
        | .error e =>
          .error ("Unable to deserialize version 1 metadata: error: " ++ e))) ∧
    (TableMetadata.deserialize sampleDocV2 =
      (match TableMetadataV2.deserialize sampleDocV2 with
        | .ok m => .ok (.V2 m)
        | .error e =>
          .error ("Unable to deserialize version 2 metadata: error: " ++ e))) ∧
    (TableMetadata.deserialize (.obj [("format-version", .num 7)]) =
      .error ("Unsupported metadata format-version " ++ intToString 7)) :=
  ⟨(c2_version_dispatch (.obj [])).1 rfl,
    (c2_version_dispatch (.obj [("format-version", .str "x")])).2.1 (.str "x") rfl rfl,
    (c2_version_dispatch (.obj [("format-version", .num 1)])).2.2.1 (.num 1) rfl rfl,
    (c2_version_dispatch sampleDocV2).2.2.2.1 (.num 2) rfl rfl,
    (c2_version_dispatch (.obj [("format-version", .num 7)])).2.2.2.2 (.num 7) 7 rfl rfl
      (by decide) (by decide)⟩

theorem c4_counterexample_both_keys :
    SnapshotV1.deserialize snapDocBothOneNull = .ok snapMlOnly ∧
    (SnapshotV1.serialize snapMlOnly).get? "manifest-list" = some (.str "ml.avro") ∧
    (SnapshotV1.serialize snapMlOnly).get? "manifests" = some Json.null :=
  ⟨rfl, rfl, rfl⟩

/-- C4 (amended): the exclusivity is about non-null values — decode
rejects a document only when both keys decode to present values, every
decoded snapshot satisfies the invariant, and a snapshot satisfying it
serializes with at least one of the two keys null (both keys are always
emitted). -/
theorem c4_snapshot_exclusivity :
    (∀ j s, SnapshotV1.deserialize j = .ok s →
      ¬(s.manifest_list.isSome ∧ s.manifests.isSome)) ∧
    (∀ j s0, SnapshotV1.deserializeFields j = .ok s0 →
      s0.manifest_list.isSome → s0.manifests.isSome →
      SnapshotV1.deserialize j =
        .error "Both manifests and manifest_lists can't be present in snapshot") ∧
    (∀ s : SnapshotV1, ¬(s.manifest_list.isSome ∧ s.manifests.isSome) →
      (SnapshotV1.serialize s).get? "manifest-list" = some Json.null ∨
        (SnapshotV1.serialize s).get? "manifests" = some Json.null) := by
  refine ⟨?_, ?_, ?_⟩
  · intro j s h
    exact (SnapshotV1_deserialize_wf h).2.2.2.2.2
  · intro j s0 hf hml hms
    unfold SnapshotV1.deserialize
    simp only [hf]
    rw [if_pos (by rw [hml, hms]; rfl)]
  · intro s h
    obtain ⟨sid, psid, ts, ml, ms, sm, sch⟩ := s
    cases ml with
    | none => exact Or.inl rfl
    | some x =>
      cases ms with
      | none => exact Or.inr rfl
      | some y => exact absurd ⟨rfl, rfl⟩ h

theorem c4_snapshot_exclusivity_witness :
    ¬(snapMlOnly.manifest_list.isSome ∧ snapMlOnly.manifests.isSome) ∧
    SnapshotV1.deserialize snapDocBothNonNull =
      .error "Both manifests and manifest_lists can't be present in snapshot" ∧
    ((SnapshotV1.serialize snapMlOnly).get? "manifest-list" = some Json.null ∨
      (SnapshotV1.serialize snapMlOnly).get? "manifests" = some Json.null) :=
  ⟨c4_snapshot_exclusivity.1 snapDocBothOneNull snapMlOnly rfl,
    c4_snapshot_exclusivity.2.1 snapDocBothNonNull snapBothNonNull rfl rfl rfl,
    c4_snapshot_exclusivity.2.2 snapMlOnly (by simp [snapMlOnly])⟩

theorem c6_counterexample_inner_field :
    (TableMetadata.serialize (.V2 metaV2Fv7)).get? "format-version" = some (.num 7) ∧
    (7 : Int) ≠ 2 :=
  ⟨rfl, by decide⟩

/-- C6 (amended): under the duplicate-key last-wins reading of the
emitted text, the effective `format-version` of a serialized value is
the inner `format_version` field, not the variant discriminant; the two
agree exactly on well-formed values (in particular on every decoded
value). -/
theorem c6_format_version_emit :
    (∀ m : TableMetadataV2,
      (TableMetadata.serialize (.V2 m)).get? "format-version" =
        some (.num m.format_version)) ∧
    (∀ m : TableMetadataV1,
      (TableMetadata.serialize (.V1 m)).get? "format-version" =
        some (.num m.format_version)) ∧
    (∀ t : TableMetadata, t.wf →
      (TableMetadata.serialize t).get? "format-version" =
        some (.num (match t with | .V1 _ => 1 | .V2 _ => 2))) := by
  refine ⟨fun m => rfl, fun m => rfl, ?_⟩
  intro t h
  cases t with
  | V2 m =>
    show (TableMetadata.serialize (.V2 m)).get? "format-version" = some (.num 2)
    have e : (TableMetadata.serialize (.V2 m)).get? "format-version" =
      some (.num m.format_version) := rfl
    rw [e, h.2]
  | V1 m =>
    show (TableMetadata.serialize (.V1 m)).get? "format-version" = some (.num 1)
    have e : (TableMetadata.serialize (.V1 m)).get? "format-version" =
      some (.num m.format_version) := rfl
    rw [e, h.2]

theorem c6_format_version_emit_witness :
    (TableMetadata.serialize (.V2 sampleMetaV2)).get? "format-version" =
      some (.num 2) := by
  have hwf : TableMetadata.wf (.V2 sampleMetaV2) :=
    TableMetadata_deserialize_wf
      (show TableMetadata.deserialize sampleDocV2 = .ok (.V2 sampleMetaV2) from rfl)
  exact c6_format_version_emit.2.2 (.V2 sampleMetaV2) hwf

end Rustberg
